import Mathlib

/-!
# BLF to pcapng converter: record-to-link-layer encoders

A shallow embedding of `src/app.cpp`.  Machine integers are natural numbers
with the reductions the C++ types perform written out; a buffer is a list of
bytes; a copy that would leave its buffer has no defined result and is `none`.
The packet writer `light_write_packet` belongs to an external library: it is a
parameter giving the value it returns, and the call it receives is recorded.
-/

set_option autoImplicit false

namespace BlfConverter

/-! ## Constants and macros -/

/-- The macro `HAS_FLAG(var,pos)`: `(var) & (1<<(pos))`. -/
def HAS_FLAG (var pos : Nat) : Nat := var &&& (1 <<< pos)

def NANOS_PER_SEC : Nat := 1000000000
def LINKTYPE_ETHERNET : Nat := 1
def LINKTYPE_CAN_SOCKETCAN : Nat := 227
def LINKTYPE_FLEXRAY : Nat := 210

def DIR_IN : Nat := 1
def DIR_OUT : Nat := 2

/-- Modelled from the spec: the ten-microsecond resolution tag
`ObjectHeader::ObjectFlags::TimeTenMics`.  The enumeration is declared in the
header `Vector/BLF.h`, which is not among the sources; `write_packet` only
compares `objectFlags` against it. -/
def TimeTenMics : Nat := 1

/-- Modelled from the spec: the one-nanosecond resolution tag
`ObjectHeader::ObjectFlags::TimeOneNans`, declared in `Vector/BLF.h` like
`TimeTenMics` and distinct from it. -/
def TimeOneNans : Nat := 2

/-! ## The packet writer's interface -/

/-- The fields of a record header that the template `write_packet` reads
through `ObjHeader* oh`. -/
structure ObjHeader where
  channel : Nat
  objectFlags : Nat
  objectTimeStamp : Nat
  deriving DecidableEq, Repr

/-- The fields of `light_packet_interface` that `write_packet` fills. -/
structure light_packet_interface where
  link_type : Nat
  name : String
  timestamp_resolution : Nat
  deriving DecidableEq, Repr

/-- The fields of `light_packet_header` that `write_packet` fills. -/
structure light_packet_header where
  tv_sec : Nat
  tv_nsec : Nat
  captured_length : Nat
  original_length : Nat
  deriving DecidableEq, Repr

/-- One call of `light_write_packet(pcapng, &interface, &header, data)`:
`data` is the buffer the pointer refers to. -/
structure WriterCall where
  interface : light_packet_interface
  header : light_packet_header
  data : List Nat
  deriving DecidableEq, Repr

/-- The bytes of the packet the writer emits: the first `captured_length`
bytes of the buffer. -/
def WriterCall.bytes (c : WriterCall) : List Nat :=
  c.data.take c.header.captured_length

/-- The absolute timestamp of an emitted packet in nanoseconds. -/
def WriterCall.timestamp_ns (c : WriterCall) : Nat :=
  c.header.tv_sec * NANOS_PER_SEC + c.header.tv_nsec

/-- An assignment `x = value;` to a variable that holds `old`. -/
def assign (_old value : Nat) : Nat := value

/-- The function `write_packet`.  The result is the returned `int` and the
call made to `light_write_packet`, if any.  In the `switch`, the case
`TimeTenMics` has no `break`: control falls through into the case
`TimeOneNans`, whose assignment to `ts_resol` runs as well.  The parameter
`flags` (default 0 in the source) is not used by the body. -/
def write_packet (light_write_packet : WriterCall → Int) (link_type : Nat)
    (oh : ObjHeader) (length : Nat) (data : List Nat) (date_offset_ns : Nat)
    (_flags : Nat) : Int × Option WriterCall :=
  let name := (toString oh.channel).take 255
  let ts_resol : Nat := 0
  let resolved : Option Nat :=
    if oh.objectFlags = TimeTenMics then
      some (assign (assign ts_resol 100000) NANOS_PER_SEC)
    else if oh.objectFlags = TimeOneNans then
      some (assign ts_resol NANOS_PER_SEC)
    else
      none
  match resolved with
  | none => (-3, none)
  | some ts_resol =>
    let interface : light_packet_interface :=
      { link_type := link_type % 2 ^ 16, name := name, timestamp_resolution := ts_resol }
    let ts := ((NANOS_PER_SEC / ts_resol) * oh.objectTimeStamp + date_offset_ns) % 2 ^ 64
    let header : light_packet_header :=
      { tv_sec := ts / NANOS_PER_SEC
        tv_nsec := ts % NANOS_PER_SEC
        captured_length := length % 2 ^ 32
        original_length := length % 2 ^ 32 }
    let call : WriterCall := { interface := interface, header := header, data := data }
    (light_write_packet call, some call)

/-- The arguments of one call of `write_packet`, as a `write` overload
passes them. -/
structure PacketArgs where
  link_type : Nat
  oh : ObjHeader
  length : Nat
  data : List Nat
  date_offset_ns : Nat
  flags : Nat
  deriving DecidableEq, Repr

/-- Calling `write_packet` with the given arguments. -/
def PacketArgs.run (light_write_packet : WriterCall → Int) (a : PacketArgs) :
    Int × Option WriterCall :=
  write_packet light_write_packet a.link_type a.oh a.length a.data a.date_offset_ns a.flags

/-! ## Buffers -/

/-- Copying `src` into `buf` from offset `off` on (`memcpy`, `std::copy`);
`none` when the copy would run past the end of the buffer. -/
def copy_into (buf : List Nat) (off : Nat) (src : List Nat) : Option (List Nat) :=
  if off + src.length ≤ buf.length then
    some (buf.take off ++ src ++ buf.drop (off + src.length))
  else
    none

/-- Modelled from the spec: the four bytes that storing `hton32(value)` through
a `uint32_t*` leaves in memory, the value in big-endian order.  `hton32` comes
from `endianness.h`, which is not among the sources. -/
def hton32_bytes (value : Nat) : List Nat :=
  [value >>> 24 % 256, value >>> 16 % 256, value >>> 8 % 256, value % 256]

/-- Modelled from the spec: the value `ntoh32` gives for the four bytes a
`uint32_t*` reads, taken in big-endian order (`endianness.h` is not among the
sources). -/
def ntoh32_bytes (b0 b1 b2 b3 : Nat) : Nat :=
  b0 <<< 24 ||| b1 <<< 16 ||| b2 <<< 8 ||| b3

/-- A `bool` promoted to `int`. -/
def bool_int (value : Bool) : Nat := if value then 1 else 0

/-! ## The class `CanFrame` -/

/-- The class `CanFrame`: its 72 bytes `raw`. -/
structure CanFrame where
  raw : List Nat
  deriving DecidableEq, Repr

namespace CanFrame

/-- A default-constructed frame: `uint8_t raw[72] = { 0 }`. -/
def init : CanFrame := ⟨List.replicate 72 0⟩

/-- The member `uint32_t id()`. -/
def id (c : CanFrame) : Nat :=
  ntoh32_bytes (c.raw.getD 0 0) (c.raw.getD 1 0) (c.raw.getD 2 0) (c.raw.getD 3 0) &&& 0x1fffffff

/-- The member `void id(uint32_t value)`. -/
def id_set (c : CanFrame) (value : Nat) : CanFrame :=
  let id_flags := c.raw.getD 0 0 &&& 0xE0
  let raw := hton32_bytes (value % 2 ^ 32) ++ c.raw.drop 4
  ⟨raw.set 0 (raw.getD 0 0 ||| id_flags)⟩

/-- The member `bool ext()`. -/
def ext (c : CanFrame) : Bool := c.raw.getD 0 0 &&& 0x80 != 0

/-- The member `void ext(bool value)`. -/
def ext_set (c : CanFrame) (value : Bool) : CanFrame :=
  let masked := c.raw.getD 0 0 &&& 0x7F
  ⟨c.raw.set 0 ((masked ||| bool_int value <<< 7) % 256)⟩

/-- The member `bool rtr()`. -/
def rtr (c : CanFrame) : Bool := c.raw.getD 0 0 &&& 0x40 != 0

/-- The member `void rtr(bool value)`. -/
def rtr_set (c : CanFrame) (value : Bool) : CanFrame :=
  let masked := c.raw.getD 0 0 &&& 0xBF
  ⟨c.raw.set 0 ((masked ||| bool_int value <<< 6) % 256)⟩

/-- The member `bool err()`. -/
def err (c : CanFrame) : Bool := c.raw.getD 0 0 &&& 0x20 != 0

/-- The member `void err(bool value)`. -/
def err_set (c : CanFrame) (value : Bool) : CanFrame :=
  let masked := c.raw.getD 0 0 &&& 0xDF
  ⟨c.raw.set 0 ((masked ||| bool_int value <<< 5) % 256)⟩

/-- The member `bool brs()`. -/
def brs (c : CanFrame) : Bool := c.raw.getD 5 0 &&& 0x01 != 0

/-- The member `void brs(bool value)`. -/
def brs_set (c : CanFrame) (value : Bool) : CanFrame :=
  let masked := c.raw.getD 5 0 &&& 0xFE
  ⟨c.raw.set 5 ((masked ||| bool_int value <<< 0) % 256)⟩

/-- The member `bool esi()`. -/
def esi (c : CanFrame) : Bool := c.raw.getD 5 0 &&& 0x02 != 0

/-- The member `void esi(bool value)`. -/
def esi_set (c : CanFrame) (value : Bool) : CanFrame :=
  let masked := c.raw.getD 5 0 &&& 0xFD
  ⟨c.raw.set 5 ((masked ||| bool_int value <<< 1) % 256)⟩

/-- The member `uint8_t len()`. -/
def len (c : CanFrame) : Nat := c.raw.getD 4 0

/-- The member `void len(uint8_t value)`. -/
def len_set (c : CanFrame) (value : Nat) : CanFrame :=
  ⟨c.raw.set 4 (value % 256)⟩

/-- The member `void data(const uint8_t* value, size_t size)`, called with a
container's `data()` and `size()`: a `memcpy` to `raw + 8`. -/
def data_set (c : CanFrame) (value : List Nat) : Option CanFrame :=
  (copy_into c.raw 8 value).map CanFrame.mk

/-- The member `const uint8_t* bytes()`. -/
def bytes (c : CanFrame) : List Nat := c.raw

/-- The member `const uint8_t size()`. -/
def size (c : CanFrame) : Nat := (c.len + 8) % 256

end CanFrame

/-! ## CAN records -/

/-- A `CanMessage` or `CanMessage2` record: the header fields and the
fields the writers read.  In `Vector/BLF.h` `data` is an array of 8 bytes
(`CanMessage`) or a byte vector (`CanMessage2`). -/
structure CanMessage extends ObjHeader where
  flags : Nat
  dlc : Nat
  id : Nat
  data : List Nat
  deriving DecidableEq, Repr

/-- The conversion of an integer to `bool`. -/
def to_bool (value : Nat) : Bool := value != 0

/-- The body of `write(light_pcapng, CanMessage*, uint64_t)` up to its call of
`write_packet`: the arguments of that call. -/
def write_CanMessage_args (obj : CanMessage) (date_offset_ns : Nat) : Option PacketArgs :=
  let can := CanFrame.init
  let can := can.id_set obj.id
  let can := can.rtr_set (to_bool (HAS_FLAG obj.flags 7))
  let can := can.len_set obj.dlc
  (can.data_set obj.data).map fun can =>
    let flags := if to_bool (HAS_FLAG obj.flags 0) then DIR_OUT else DIR_IN
    { link_type := LINKTYPE_CAN_SOCKETCAN, oh := obj.toObjHeader, length := can.size,
      data := can.bytes, date_offset_ns := date_offset_ns, flags := flags }

/-- The overload `write(light_pcapng, CanMessage*, uint64_t)`. -/
def write_CanMessage (light_write_packet : WriterCall → Int) (obj : CanMessage)
    (date_offset_ns : Nat) : Option (Int × Option WriterCall) :=
  (write_CanMessage_args obj date_offset_ns).map (PacketArgs.run light_write_packet)

/-- The body of `write(light_pcapng, CanMessage2*, uint64_t)` up to its call of
`write_packet`. -/
def write_CanMessage2_args (obj : CanMessage) (date_offset_ns : Nat) : Option PacketArgs :=
  let can := CanFrame.init
  let can := can.id_set obj.id
  let can := can.rtr_set (to_bool (HAS_FLAG obj.flags 7))
  let can := can.len_set obj.dlc
  (can.data_set obj.data).map fun can =>
    let flags := if to_bool (HAS_FLAG obj.flags 0) then DIR_OUT else DIR_IN
    { link_type := LINKTYPE_CAN_SOCKETCAN, oh := obj.toObjHeader, length := can.size,
      data := can.bytes, date_offset_ns := date_offset_ns, flags := flags }

/-- The overload `write(light_pcapng, CanMessage2*, uint64_t)`. -/
def write_CanMessage2 (light_write_packet : WriterCall → Int) (obj : CanMessage)
    (date_offset_ns : Nat) : Option (Int × Option WriterCall) :=
  (write_CanMessage2_args obj date_offset_ns).map (PacketArgs.run light_write_packet)

/-- A `CanErrorFrame`, `CanErrorFrameExt` or `CanFdErrorFrame64` record: its
header and, in `fields`, the rest of the record, which no writer reads. -/
structure CanError extends ObjHeader where
  fields : List Nat
  deriving DecidableEq, Repr

/-- The body of the template `write_can_error` up to its call of
`write_packet`, which leaves the parameter `flags` at its default 0. -/
def write_can_error_args (obj : CanError) (date_offset_ns : Nat) : PacketArgs :=
  let can := CanFrame.init
  let can := can.err_set true
  let can := can.len_set 8
  { link_type := LINKTYPE_CAN_SOCKETCAN, oh := obj.toObjHeader, length := can.size,
    data := can.bytes, date_offset_ns := date_offset_ns, flags := 0 }

/-- The template `write_can_error`. -/
def write_can_error (light_write_packet : WriterCall → Int) (obj : CanError)
    (date_offset_ns : Nat) : Int × Option WriterCall :=
  (write_can_error_args obj date_offset_ns).run light_write_packet

/-- The overload `write(light_pcapng, CanErrorFrame*, uint64_t)`. -/
def write_CanErrorFrame (light_write_packet : WriterCall → Int) (obj : CanError)
    (date_offset_ns : Nat) : Int × Option WriterCall :=
  write_can_error light_write_packet obj date_offset_ns

/-- The overload `write(light_pcapng, CanErrorFrameExt*, uint64_t)`. -/
def write_CanErrorFrameExt (light_write_packet : WriterCall → Int) (obj : CanError)
    (date_offset_ns : Nat) : Int × Option WriterCall :=
  write_can_error light_write_packet obj date_offset_ns

/-- The overload `write(light_pcapng, CanFdErrorFrame64*, uint64_t)`. -/
def write_CanFdErrorFrame64 (light_write_packet : WriterCall → Int) (obj : CanError)
    (date_offset_ns : Nat) : Int × Option WriterCall :=
  write_can_error light_write_packet obj date_offset_ns

/-- A `CanFdMessage` record; `data` is an array of 64 bytes in `Vector/BLF.h`. -/
structure CanFdMessage extends ObjHeader where
  flags : Nat
  canFdFlags : Nat
  validDataBytes : Nat
  id : Nat
  data : List Nat
  deriving DecidableEq, Repr

/-- The body of `write(light_pcapng, CanFdMessage*, uint64_t)` up to its call
of `write_packet`. -/
def write_CanFdMessage_args (obj : CanFdMessage) (date_offset_ns : Nat) : Option PacketArgs :=
  let can := CanFrame.init
  let can := can.id_set obj.id
  let can := can.rtr_set (to_bool (HAS_FLAG obj.flags 7))
  let can := can.esi_set (to_bool (HAS_FLAG obj.canFdFlags 2))
  let can := can.brs_set (to_bool (HAS_FLAG obj.canFdFlags 1))
  let can := can.len_set obj.validDataBytes
  (can.data_set obj.data).map fun can =>
    let flags := if to_bool (HAS_FLAG obj.flags 0) then DIR_OUT else DIR_IN
    { link_type := LINKTYPE_CAN_SOCKETCAN, oh := obj.toObjHeader, length := can.size,
      data := can.bytes, date_offset_ns := date_offset_ns, flags := flags }

/-- The overload `write(light_pcapng, CanFdMessage*, uint64_t)`. -/
def write_CanFdMessage (light_write_packet : WriterCall → Int) (obj : CanFdMessage)
    (date_offset_ns : Nat) : Option (Int × Option WriterCall) :=
  (write_CanFdMessage_args obj date_offset_ns).map (PacketArgs.run light_write_packet)

/-- A `CanFdMessage64` record; `flags` is the single 32-bit flags field and
`data` a byte vector. -/
structure CanFdMessage64 extends ObjHeader where
  flags : Nat
  validDataBytes : Nat
  id : Nat
  data : List Nat
  deriving DecidableEq, Repr

/-- The value the local variable `flags` of
`write(light_pcapng, CanFdMessage64*, uint64_t)` is initialised with. -/
def CanFdMessage64_direction (obj : CanFdMessage64) : Nat :=
  if to_bool (HAS_FLAG obj.flags 6) || to_bool (HAS_FLAG obj.flags 7) then DIR_OUT else DIR_IN

/-- The body of `write(light_pcapng, CanFdMessage64*, uint64_t)` up to its call
of `write_packet`.  The local variable `flags` is computed and the call is
written without it, so the parameter `flags` keeps its default 0. -/
def write_CanFdMessage64_args (obj : CanFdMessage64) (date_offset_ns : Nat) :
    Option PacketArgs :=
  let can := CanFrame.init
  let can := can.id_set obj.id
  let can := can.rtr_set (to_bool (HAS_FLAG obj.flags 4))
  let can := can.esi_set (to_bool (HAS_FLAG obj.flags 14))
  let can := can.brs_set (to_bool (HAS_FLAG obj.flags 13))
  let can := can.len_set obj.validDataBytes
  (can.data_set obj.data).map fun can =>
    let _flags := CanFdMessage64_direction obj
    { link_type := LINKTYPE_CAN_SOCKETCAN, oh := obj.toObjHeader, length := can.size,
      data := can.bytes, date_offset_ns := date_offset_ns, flags := 0 }

/-- The overload `write(light_pcapng, CanFdMessage64*, uint64_t)`. -/
def write_CanFdMessage64 (light_write_packet : WriterCall → Int) (obj : CanFdMessage64)
    (date_offset_ns : Nat) : Option (Int × Option WriterCall) :=
  (write_CanFdMessage64_args obj date_offset_ns).map (PacketArgs.run light_write_packet)

/-! ## Ethernet records -/

/-- An `EthernetFrame` record; the two addresses are arrays of 6 bytes and
`payLoad` a byte vector in `Vector/BLF.h`. -/
structure EthernetFrame extends ObjHeader where
  sourceAddress : List Nat
  destinationAddress : List Nat
  dir : Nat
  type : Nat
  tpid : Nat
  tci : Nat
  payLoad : List Nat
  deriving DecidableEq, Repr

/-- The body of `write(light_pcapng, EthernetFrame*, uint64_t)` up to its call
of `write_packet`.  The array `eth` is not initialised: `eth` stands for
whatever its 1518 bytes hold at first. -/
def write_EthernetFrame_args (eth : List Nat) (obj : EthernetFrame) (date_offset_ns : Nat) :
    Option PacketArgs :=
  let flags := 0
  let flags :=
    if obj.dir = 0 then assign flags DIR_IN
    else if obj.dir = 1 then assign flags DIR_OUT
    else flags
  (copy_into eth 0 obj.destinationAddress).bind fun eth =>
  (copy_into eth 6 obj.sourceAddress).bind fun eth =>
  let header_size := 14
  let (header_size, eth) :=
    if obj.tpid ≠ 0 then
      (header_size + 4,
        (((eth.set 12 (obj.tpid >>> 8 % 256)).set 13 (obj.tpid % 256)).set 14
          (obj.tci >>> 8 % 256)).set 15 (obj.tci % 256))
    else (header_size, eth)
  let eth := eth.set (header_size - 2) (obj.type >>> 8 % 256)
  let eth := eth.set (header_size - 1) (obj.type % 256)
  (copy_into eth header_size obj.payLoad).map fun eth =>
    { link_type := LINKTYPE_ETHERNET, oh := obj.toObjHeader,
      length := obj.payLoad.length + header_size,
      data := eth, date_offset_ns := date_offset_ns, flags := flags }

/-- The overload `write(light_pcapng, EthernetFrame*, uint64_t)`. -/
def write_EthernetFrame (light_write_packet : WriterCall → Int) (eth : List Nat)
    (obj : EthernetFrame) (date_offset_ns : Nat) : Option (Int × Option WriterCall) :=
  (write_EthernetFrame_args eth obj date_offset_ns).map (PacketArgs.run light_write_packet)

/-- The four bytes of a `uint32_t` as they lie in memory, read through a
`uint8_t*`: lowest byte first on a little-endian host, highest first
otherwise. -/
def stored_bytes32 (little_endian : Bool) (value : Nat) : List Nat :=
  if little_endian then
    [value % 256, value >>> 8 % 256, value >>> 16 % 256, value >>> 24 % 256]
  else
    [value >>> 24 % 256, value >>> 16 % 256, value >>> 8 % 256, value % 256]

/-- An `EthernetFrameEx` or `EthernetFrameForwarded` record. -/
structure EthernetFrameEx extends ObjHeader where
  flags : Nat
  dir : Nat
  frameChecksum : Nat
  frameData : List Nat
  deriving DecidableEq, Repr

/-- The body of the template `write_ethernet_frame` up to its call of
`write_packet`; `little_endian` is the byte order of the host. -/
def write_ethernet_frame_args (little_endian : Bool) (obj : EthernetFrameEx)
    (date_offset_ns : Nat) : PacketArgs :=
  let eth := obj.frameData
  let eth :=
    if to_bool (HAS_FLAG obj.flags 3) then
      let crc := stored_bytes32 little_endian obj.frameChecksum
      eth ++ crc
    else eth
  let flags := 0
  let flags :=
    if obj.dir = 0 then assign flags DIR_IN
    else if obj.dir = 1 then assign flags DIR_OUT
    else flags
  { link_type := LINKTYPE_ETHERNET, oh := obj.toObjHeader, length := eth.length % 2 ^ 32,
    data := eth, date_offset_ns := date_offset_ns, flags := flags }

/-- The template `write_ethernet_frame`. -/
def write_ethernet_frame (light_write_packet : WriterCall → Int) (little_endian : Bool)
    (obj : EthernetFrameEx) (date_offset_ns : Nat) : Int × Option WriterCall :=
  (write_ethernet_frame_args little_endian obj date_offset_ns).run light_write_packet

/-- The overload `write(light_pcapng, EthernetFrameEx*, uint64_t)`. -/
def write_EthernetFrameEx (light_write_packet : WriterCall → Int) (little_endian : Bool)
    (obj : EthernetFrameEx) (date_offset_ns : Nat) : Int × Option WriterCall :=
  write_ethernet_frame light_write_packet little_endian obj date_offset_ns

/-- The overload `write(light_pcapng, EthernetFrameForwarded*, uint64_t)`. -/
def write_EthernetFrameForwarded (light_write_packet : WriterCall → Int) (little_endian : Bool)
    (obj : EthernetFrameEx) (date_offset_ns : Nat) : Int × Option WriterCall :=
  write_ethernet_frame light_write_packet little_endian obj date_offset_ns

/-! ## FlexRay primitives -/

/-- The enumeration `FlexRayPacketType`. -/
inductive FlexRayPacketType where
  | FlexRayFrame
  | FlexRaySymbol
  deriving DecidableEq, Repr

/-- The enumerators' values: `FlexRayFrame = 1`, `FlexRaySymbol = 2`. -/
def FlexRayPacketType.toNat : FlexRayPacketType → Nat
  | .FlexRayFrame => 1
  | .FlexRaySymbol => 2

/-- The function `set_measurment_header`; the result is the byte left in the
reference parameter `measurementHeader`. -/
def set_measurment_header (measurementHeader : Nat) (packetType : FlexRayPacketType)
    (channelMask : Nat) : Nat :=
  let measurementHeader :=
    match packetType with
    | .FlexRayFrame => assign measurementHeader 0x01
    | .FlexRaySymbol => assign measurementHeader 0x02
  if channelMask = 1 then measurementHeader
  else if channelMask = 2 ∨ channelMask = 3 then (measurementHeader ||| 0x80) % 256
  else measurementHeader

/-- The function `set_header_crc`; the result is the value left in the
reference parameter `headerCrc`. -/
def set_header_crc (channelMask headerCrc1 headerCrc2 headerCrc : Nat) : Nat :=
  if channelMask = 1 then assign headerCrc headerCrc1
  else if channelMask = 2 ∨ channelMask = 3 then assign headerCrc headerCrc2
  else headerCrc

/-- The function `set_header_flags`; the result is the byte left in the
reference parameter `headerFlags`. -/
def set_header_flags (frameState headerFlags : Nat) : Nat :=
  let headerFlags :=
    if to_bool (HAS_FLAG frameState 0) then (headerFlags ||| 0x08) % 256 else headerFlags
  let headerFlags :=
    if to_bool (HAS_FLAG frameState 1) then (headerFlags ||| 0x02) % 256 else headerFlags
  let headerFlags :=
    if to_bool (HAS_FLAG frameState 2) then (headerFlags ||| 0x10) % 256 else headerFlags
  let headerFlags :=
    if !to_bool (HAS_FLAG frameState 3) then (headerFlags ||| 0x04) % 256 else headerFlags
  let headerFlags :=
    if to_bool (HAS_FLAG frameState 4) then (headerFlags ||| 0x01) % 256 else headerFlags
  headerFlags

/-- The function `set_header_flags_rcv_msg`; the result is the byte left in
the reference parameter `headerFlags`. -/
def set_header_flags_rcv_msg (frameFlags headerFlags : Nat) : Nat :=
  let headerFlags :=
    if !to_bool (HAS_FLAG frameFlags 0) then (headerFlags ||| 0x04) % 256 else headerFlags
  let headerFlags :=
    if to_bool (HAS_FLAG frameFlags 2) then (headerFlags ||| 0x02) % 256 else headerFlags
  let headerFlags :=
    if to_bool (HAS_FLAG frameFlags 3) then (headerFlags ||| 0x01) % 256 else headerFlags
  let headerFlags :=
    if to_bool (HAS_FLAG frameFlags 4) then (headerFlags ||| 0x08) % 256 else headerFlags
  let headerFlags :=
    if to_bool (HAS_FLAG frameFlags 5) then (headerFlags ||| 0x10) % 256 else headerFlags
  headerFlags

/-- The body of `set_header` before its last statement: the 64-bit value
composed in `header`.  The arguments are reduced to the parameter types
(`uint8_t headerFlags`, `uint64_t payloadLength`, `uint8_t cycleCount`,
`uint16_t frameId`, `uint16_t headerCrc`). -/
def set_header_compose (headerFlags payloadLength cycleCount frameId headerCrc : Nat) : Nat :=
  let headerFlags := headerFlags % 2 ^ 8
  let payloadLength := payloadLength % 2 ^ 64
  let cycleCount := cycleCount % 2 ^ 8
  let frameId := frameId % 2 ^ 16
  let headerCrc := headerCrc % 2 ^ 16
  let header := (headerFlags <<< 35 ||| (payloadLength &&& 0x7F) <<< 17) % 2 ^ 64
  let header := if cycleCount ≠ 0 then header ||| (cycleCount &&& 0x3F) else header
  let header := if frameId ≠ 0 then header ||| (frameId &&& 0x07FF) <<< 24 else header
  let header := if headerCrc ≠ 0 then header ||| (headerCrc &&& 0x07FF) <<< 6 else header
  header

/-- Modelled from the spec: `hton64`, the conversion of a 64-bit value from host
to network (big-endian) byte order: the bytes are reversed on a little-endian
host and kept on a big-endian one.  It comes from `endianness.h`, which is
not among the sources. -/
def hton64 (little_endian : Bool) (value : Nat) : Nat :=
  if little_endian then
    (value % 256) * 2 ^ 56 + (value / 2 ^ 8 % 256) * 2 ^ 48 + (value / 2 ^ 16 % 256) * 2 ^ 40 +
      (value / 2 ^ 24 % 256) * 2 ^ 32 + (value / 2 ^ 32 % 256) * 2 ^ 24 +
      (value / 2 ^ 40 % 256) * 2 ^ 16 + (value / 2 ^ 48 % 256) * 2 ^ 8 + value / 2 ^ 56 % 256
  else value

/-- The function `set_header`; the result is the value left in the reference
parameter `header`, whose previous value is overwritten. -/
def set_header (little_endian : Bool) (_header headerFlags payloadLength cycleCount frameId
    headerCrc : Nat) : Nat :=
  hton64 little_endian (set_header_compose headerFlags payloadLength cycleCount frameId headerCrc)

/-- The eight bytes of a `uint64_t` as they lie in memory, read through a
`uint8_t*`: lowest byte first on a little-endian host, highest first
otherwise. -/
def stored_bytes64 (little_endian : Bool) (value : Nat) : List Nat :=
  if little_endian then
    [value % 256, value >>> 8 % 256, value >>> 16 % 256, value >>> 24 % 256,
      value >>> 32 % 256, value >>> 40 % 256, value >>> 48 % 256, value >>> 56 % 256]
  else
    [value >>> 56 % 256, value >>> 48 % 256, value >>> 40 % 256, value >>> 32 % 256,
      value >>> 24 % 256, value >>> 16 % 256, value >>> 8 % 256, value % 256]

/-- The five bytes the FlexRay writers copy out of `header`: with
`headerPtr = (uint8_t*)&header`, the range `headerPtr + 3 .. headerPtr + 8`. -/
def header_bytes (little_endian : Bool) (header : Nat) : List Nat :=
  ((stored_bytes64 little_endian header).drop 3).take 5

/-! ## FlexRay records

In `Vector/BLF.h` the `dataBytes` of these records are byte arrays of a fixed
size, except for `FlexRayVFrReceiveMsgEx`, where they are a byte vector.  The
call of `set_measurment_header` without a channel mask uses the default 0. -/

/-- A `FlexRayData` record. -/
structure FlexRayData extends ObjHeader where
  messageId : Nat
  crc : Nat
  dataBytes : List Nat
  deriving DecidableEq, Repr

/-- A `FlexRaySync` record. -/
structure FlexRaySync extends ObjHeader where
  messageId : Nat
  crc : Nat
  cycle : Nat
  dataBytes : List Nat
  deriving DecidableEq, Repr

/-- A `FlexRayV6StartCycleEvent` record. -/
structure FlexRayV6StartCycleEvent extends ObjHeader where
  dataBytes : List Nat
  deriving DecidableEq, Repr

/-- A `FlexRayV6Message` record. -/
structure FlexRayV6Message extends ObjHeader where
  frameState : Nat
  cycle : Nat
  frameId : Nat
  headerCrc : Nat
  dataBytes : List Nat
  deriving DecidableEq, Repr

/-- A `FlexRayVFrError` record. -/
structure FlexRayVFrError extends ObjHeader where
  channelMask : Nat
  cycle : Nat
  deriving DecidableEq, Repr

/-- A `FlexRayVFrStartCycle` record. -/
structure FlexRayVFrStartCycle extends ObjHeader where
  channelMask : Nat
  cycle : Nat
  dataBytes : List Nat
  deriving DecidableEq, Repr

/-- A `FlexRayVFrReceiveMsg` record. -/
structure FlexRayVFrReceiveMsg extends ObjHeader where
  channelMask : Nat
  frameFlags : Nat
  headerCrc1 : Nat
  headerCrc2 : Nat
  cycle : Nat
  frameId : Nat
  dataBytes : List Nat
  deriving DecidableEq, Repr

/-- A `FlexRayVFrReceiveMsgEx` record. -/
structure FlexRayVFrReceiveMsgEx extends ObjHeader where
  channelMask : Nat
  frameFlags : Nat
  headerCrc1 : Nat
  headerCrc2 : Nat
  cycle : Nat
  frameId : Nat
  dataBytes : List Nat
  deriving DecidableEq, Repr

/-- The body of `write(light_pcapng, FlexRayData*, uint64_t)` up to its call of
`write_packet`; `little_endian` is the byte order of the host. -/
def write_FlexRayData_args (little_endian : Bool) (obj : FlexRayData) (date_offset_ns : Nat) :
    Option PacketArgs :=
  let header := 0
  let headerFlags := 0
  let flexrayData := List.replicate 261 0
  let flexrayData := flexrayData.set 0
    (set_measurment_header (flexrayData.getD 0 0) .FlexRayFrame 0)
  let headerFlags := (headerFlags ||| 0x04) % 256
  let len := obj.dataBytes.length / 2
  let header := set_header little_endian header headerFlags len 0 obj.messageId obj.crc
  (copy_into flexrayData 2 (header_bytes little_endian header)).bind fun flexrayData =>
  (copy_into flexrayData 7 obj.dataBytes).map fun flexrayData =>
    { link_type := LINKTYPE_FLEXRAY, oh := obj.toObjHeader,
      length := obj.dataBytes.length + 7, data := flexrayData,
      date_offset_ns := date_offset_ns, flags := 0 }

/-- The overload `write(light_pcapng, FlexRayData*, uint64_t)`. -/
def write_FlexRayData (light_write_packet : WriterCall → Int) (little_endian : Bool)
    (obj : FlexRayData) (date_offset_ns : Nat) : Option (Int × Option WriterCall) :=
  (write_FlexRayData_args little_endian obj date_offset_ns).map (PacketArgs.run light_write_packet)

/-- The body of `write(light_pcapng, FlexRaySync*, uint64_t)` up to its call of
`write_packet`; `little_endian` is the byte order of the host. -/
def write_FlexRaySync_args (little_endian : Bool) (obj : FlexRaySync) (date_offset_ns : Nat) :
    Option PacketArgs :=
  let header := 0
  let headerFlags := 0
  let flexrayData := List.replicate 261 0
  let flexrayData := flexrayData.set 0
    (set_measurment_header (flexrayData.getD 0 0) .FlexRayFrame 0)
  let headerFlags := (headerFlags ||| 0x04) % 256
  let headerFlags := (headerFlags ||| 0x02) % 256
  let len := obj.dataBytes.length / 2
  let header := set_header little_endian header headerFlags len obj.cycle obj.messageId obj.crc
  (copy_into flexrayData 2 (header_bytes little_endian header)).bind fun flexrayData =>
  (copy_into flexrayData 7 obj.dataBytes).map fun flexrayData =>
    { link_type := LINKTYPE_FLEXRAY, oh := obj.toObjHeader,
      length := obj.dataBytes.length + 7, data := flexrayData,
      date_offset_ns := date_offset_ns, flags := 0 }

/-- The overload `write(light_pcapng, FlexRaySync*, uint64_t)`. -/
def write_FlexRaySync (light_write_packet : WriterCall → Int) (little_endian : Bool)
    (obj : FlexRaySync) (date_offset_ns : Nat) : Option (Int × Option WriterCall) :=
  (write_FlexRaySync_args little_endian obj date_offset_ns).map (PacketArgs.run light_write_packet)

/-- The body of `write(light_pcapng, FlexRayV6StartCycleEvent*, uint64_t)` up to its call of
`write_packet`; `little_endian` is the byte order of the host. -/
def write_FlexRayV6StartCycleEvent_args (little_endian : Bool) (obj : FlexRayV6StartCycleEvent) (date_offset_ns : Nat) :
    Option PacketArgs :=
  let header := 0
  let headerFlags := 0
  let flexrayData := List.replicate 261 0
  let flexrayData := flexrayData.set 0
    (set_measurment_header (flexrayData.getD 0 0) .FlexRayFrame 0)
  let headerFlags := (headerFlags ||| 0x04) % 256
  let len := obj.dataBytes.length / 2
  let header := set_header little_endian header headerFlags len 0 0 0
  (copy_into flexrayData 2 (header_bytes little_endian header)).bind fun flexrayData =>
  (copy_into flexrayData 7 obj.dataBytes).map fun flexrayData =>
    { link_type := LINKTYPE_FLEXRAY, oh := obj.toObjHeader,
      length := obj.dataBytes.length + 7, data := flexrayData,
      date_offset_ns := date_offset_ns, flags := 0 }

/-- The overload `write(light_pcapng, FlexRayV6StartCycleEvent*, uint64_t)`. -/
def write_FlexRayV6StartCycleEvent (light_write_packet : WriterCall → Int) (little_endian : Bool)
    (obj : FlexRayV6StartCycleEvent) (date_offset_ns : Nat) : Option (Int × Option WriterCall) :=
  (write_FlexRayV6StartCycleEvent_args little_endian obj date_offset_ns).map (PacketArgs.run light_write_packet)

/-- The body of `write(light_pcapng, FlexRayV6Message*, uint64_t)` up to its call of
`write_packet`; `little_endian` is the byte order of the host. -/
def write_FlexRayV6Message_args (little_endian : Bool) (obj : FlexRayV6Message) (date_offset_ns : Nat) :
    Option PacketArgs :=
  let header := 0
  let headerFlags := 0
  let flexrayData := List.replicate 261 0
  let flexrayData := flexrayData.set 0
    (set_measurment_header (flexrayData.getD 0 0) .FlexRayFrame 0)
  let headerFlags := set_header_flags obj.frameState headerFlags
  let len := obj.dataBytes.length / 2
  let header := set_header little_endian header headerFlags len obj.cycle obj.frameId obj.headerCrc
  (copy_into flexrayData 2 (header_bytes little_endian header)).bind fun flexrayData =>
  (copy_into flexrayData 7 obj.dataBytes).map fun flexrayData =>
    { link_type := LINKTYPE_FLEXRAY, oh := obj.toObjHeader,
      length := obj.dataBytes.length + 7, data := flexrayData,
      date_offset_ns := date_offset_ns, flags := 0 }

/-- The overload `write(light_pcapng, FlexRayV6Message*, uint64_t)`. -/
def write_FlexRayV6Message (light_write_packet : WriterCall → Int) (little_endian : Bool)
    (obj : FlexRayV6Message) (date_offset_ns : Nat) : Option (Int × Option WriterCall) :=
  (write_FlexRayV6Message_args little_endian obj date_offset_ns).map (PacketArgs.run light_write_packet)

/-- The body of `write(light_pcapng, FlexRayVFrError*, uint64_t)` up to its call
of `write_packet`; `little_endian` is the byte order of the host. -/
def write_FlexRayVFrError_args (little_endian : Bool) (obj : FlexRayVFrError)
    (date_offset_ns : Nat) : Option PacketArgs :=
  let header := 0
  let headerFlags := 0
  let flexrayData := List.replicate 7 0
  let flexrayData := flexrayData.set 0
    (set_measurment_header (flexrayData.getD 0 0) .FlexRayFrame (obj.channelMask % 2 ^ 16))
  let flexrayData := flexrayData.set 1 ((flexrayData.getD 1 0 ||| 0x02) % 256)
  let headerFlags := (headerFlags ||| 0x04) % 256
  let header := set_header little_endian header headerFlags 0 obj.cycle 0 0
  (copy_into flexrayData 2 (header_bytes little_endian header)).map fun flexrayData =>
    { link_type := LINKTYPE_FLEXRAY, oh := obj.toObjHeader, length := 7, data := flexrayData,
      date_offset_ns := date_offset_ns, flags := 0 }

/-- The overload `write(light_pcapng, FlexRayVFrError*, uint64_t)`. -/
def write_FlexRayVFrError (light_write_packet : WriterCall → Int) (little_endian : Bool)
    (obj : FlexRayVFrError) (date_offset_ns : Nat) : Option (Int × Option WriterCall) :=
  (write_FlexRayVFrError_args little_endian obj date_offset_ns).map
    (PacketArgs.run light_write_packet)

/-- The body of `write(light_pcapng, FlexRayVFrStartCycle*, uint64_t)` up to its call of
`write_packet`; `little_endian` is the byte order of the host. -/
def write_FlexRayVFrStartCycle_args (little_endian : Bool) (obj : FlexRayVFrStartCycle) (date_offset_ns : Nat) :
    Option PacketArgs :=
  let header := 0
  let headerFlags := 0
  let flexrayData := List.replicate 19 0
  let flexrayData := flexrayData.set 0
    (set_measurment_header (flexrayData.getD 0 0) .FlexRayFrame (obj.channelMask % 2 ^ 16))
  let headerFlags := (headerFlags ||| 0x04) % 256
  let len := obj.dataBytes.length / 2
  let header := set_header little_endian header headerFlags len obj.cycle 0 0
  (copy_into flexrayData 2 (header_bytes little_endian header)).bind fun flexrayData =>
  (copy_into flexrayData 7 obj.dataBytes).map fun flexrayData =>
    { link_type := LINKTYPE_FLEXRAY, oh := obj.toObjHeader,
      length := obj.dataBytes.length + 7, data := flexrayData,
      date_offset_ns := date_offset_ns, flags := 0 }

/-- The overload `write(light_pcapng, FlexRayVFrStartCycle*, uint64_t)`. -/
def write_FlexRayVFrStartCycle (light_write_packet : WriterCall → Int) (little_endian : Bool)
    (obj : FlexRayVFrStartCycle) (date_offset_ns : Nat) : Option (Int × Option WriterCall) :=
  (write_FlexRayVFrStartCycle_args little_endian obj date_offset_ns).map (PacketArgs.run light_write_packet)

/-- The body of `write(light_pcapng, FlexRayVFrReceiveMsg*, uint64_t)` up to its call of
`write_packet`; `little_endian` is the byte order of the host. -/
def write_FlexRayVFrReceiveMsg_args (little_endian : Bool) (obj : FlexRayVFrReceiveMsg) (date_offset_ns : Nat) :
    Option PacketArgs :=
  let header := 0
  let headerCrc := 0
  let headerFlags := 0
  let flexrayData := List.replicate 261 0
  let flexrayData := flexrayData.set 0
    (set_measurment_header (flexrayData.getD 0 0) .FlexRayFrame (obj.channelMask % 2 ^ 16))
  let flexrayData :=
    if to_bool (HAS_FLAG obj.frameFlags 6) then
      flexrayData.set 1 ((flexrayData.getD 1 0 ||| 0x10) % 256)
    else flexrayData
  let headerFlags := set_header_flags_rcv_msg obj.frameFlags headerFlags
  let headerCrc := set_header_crc (obj.channelMask % 2 ^ 16) obj.headerCrc1 obj.headerCrc2 headerCrc
  let len := obj.dataBytes.length / 2
  let header := set_header little_endian header headerFlags len obj.cycle obj.frameId headerCrc
  (copy_into flexrayData 2 (header_bytes little_endian header)).bind fun flexrayData =>
  (copy_into flexrayData 7 obj.dataBytes).map fun flexrayData =>
    { link_type := LINKTYPE_FLEXRAY, oh := obj.toObjHeader,
      length := obj.dataBytes.length + 7, data := flexrayData,
      date_offset_ns := date_offset_ns, flags := 0 }

/-- The overload `write(light_pcapng, FlexRayVFrReceiveMsg*, uint64_t)`. -/
def write_FlexRayVFrReceiveMsg (light_write_packet : WriterCall → Int) (little_endian : Bool)
    (obj : FlexRayVFrReceiveMsg) (date_offset_ns : Nat) : Option (Int × Option WriterCall) :=
  (write_FlexRayVFrReceiveMsg_args little_endian obj date_offset_ns).map (PacketArgs.run light_write_packet)

/-- The body of `write(light_pcapng, FlexRayVFrReceiveMsgEx*, uint64_t)` up to
its call of `write_packet`; `little_endian` is the byte order of the host. -/
def write_FlexRayVFrReceiveMsgEx_args (little_endian : Bool) (obj : FlexRayVFrReceiveMsgEx)
    (date_offset_ns : Nat) : PacketArgs :=
  let header := 0
  let headerCrc := 0
  let headerFlags := 0
  let measurementHeader := 0
  let errorFlagsInfo := 0
  let flexrayData : List Nat := []
  let measurementHeader :=
    set_measurment_header measurementHeader .FlexRayFrame (obj.channelMask % 2 ^ 16)
  let flexrayData := flexrayData ++ [measurementHeader]
  let errorFlagsInfo :=
    if to_bool (HAS_FLAG obj.frameFlags 6) then (errorFlagsInfo ||| 0x10) % 256
    else errorFlagsInfo
  let flexrayData := flexrayData ++ [errorFlagsInfo]
  let headerFlags := set_header_flags_rcv_msg obj.frameFlags headerFlags
  let headerCrc :=
    set_header_crc (obj.channelMask % 2 ^ 16) obj.headerCrc1 obj.headerCrc2 headerCrc
  let len := obj.dataBytes.length / 2
  let header := set_header little_endian header headerFlags len obj.cycle obj.frameId headerCrc
  let headerVec := header_bytes little_endian header
  let flexrayData := flexrayData ++ headerVec
  let flexrayData := flexrayData ++ obj.dataBytes
  { link_type := LINKTYPE_FLEXRAY, oh := obj.toObjHeader, length := obj.dataBytes.length + 7,
    data := flexrayData, date_offset_ns := date_offset_ns, flags := 0 }

/-- The overload `write(light_pcapng, FlexRayVFrReceiveMsgEx*, uint64_t)`. -/
def write_FlexRayVFrReceiveMsgEx (light_write_packet : WriterCall → Int) (little_endian : Bool)
    (obj : FlexRayVFrReceiveMsgEx) (date_offset_ns : Nat) : Option (Int × Option WriterCall) :=
  some ((write_FlexRayVFrReceiveMsgEx_args little_endian obj date_offset_ns).run
    light_write_packet)

/-- The frame-bearing FlexRay records, by the case of the `switch` in `main`
that handles them: `FLEXRAY_DATA`, `FLEXRAY_SYNC`, `FLEXRAY_CYCLE`,
`FLEXRAY_MESSAGE`, `FR_STARTCYCLE`, `FR_RCVMESSAGE` and `FR_RCVMESSAGE_EX`. -/
inductive FlexRayFrameRecord where
  | data (obj : FlexRayData)
  | sync (obj : FlexRaySync)
  | cycle (obj : FlexRayV6StartCycleEvent)
  | message (obj : FlexRayV6Message)
  | startCycle (obj : FlexRayVFrStartCycle)
  | rcvMessage (obj : FlexRayVFrReceiveMsg)
  | rcvMessageEx (obj : FlexRayVFrReceiveMsgEx)
  deriving DecidableEq, Repr

namespace FlexRayFrameRecord

/-- The header of the record. -/
def oh : FlexRayFrameRecord → ObjHeader
  | data obj => obj.toObjHeader
  | sync obj => obj.toObjHeader
  | cycle obj => obj.toObjHeader
  | message obj => obj.toObjHeader
  | startCycle obj => obj.toObjHeader
  | rcvMessage obj => obj.toObjHeader
  | rcvMessageEx obj => obj.toObjHeader

/-- The payload `dataBytes` of the record. -/
def dataBytes : FlexRayFrameRecord → List Nat
  | data obj => obj.dataBytes
  | sync obj => obj.dataBytes
  | cycle obj => obj.dataBytes
  | message obj => obj.dataBytes
  | startCycle obj => obj.dataBytes
  | rcvMessage obj => obj.dataBytes
  | rcvMessageEx obj => obj.dataBytes

/-- The payload room of the buffer the record's writer fills: the size of its
array `flexrayData` less the 7 bytes in front of the payload; the vector of
the extended receive-message writer grows as needed. -/
def room : FlexRayFrameRecord → Option Nat
  | data _ => some (261 - 7)
  | sync _ => some (261 - 7)
  | cycle _ => some (261 - 7)
  | message _ => some (261 - 7)
  | startCycle _ => some (19 - 7)
  | rcvMessage _ => some (261 - 7)
  | rcvMessageEx _ => none

end FlexRayFrameRecord

/-- The cases of the `switch` in `main` for the frame-bearing FlexRay
records: each calls the `write` overload of its record type. -/
def write_frame_record (light_write_packet : WriterCall → Int) (little_endian : Bool)
    (r : FlexRayFrameRecord) (startDate_ns : Nat) : Option (Int × Option WriterCall) :=
  match r with
  | .data obj => write_FlexRayData light_write_packet little_endian obj startDate_ns
  | .sync obj => write_FlexRaySync light_write_packet little_endian obj startDate_ns
  | .cycle obj =>
    write_FlexRayV6StartCycleEvent light_write_packet little_endian obj startDate_ns
  | .message obj => write_FlexRayV6Message light_write_packet little_endian obj startDate_ns
  | .startCycle obj =>
    write_FlexRayVFrStartCycle light_write_packet little_endian obj startDate_ns
  | .rcvMessage obj =>
    write_FlexRayVFrReceiveMsg light_write_packet little_endian obj startDate_ns
  | .rcvMessageEx obj =>
    write_FlexRayVFrReceiveMsgEx light_write_packet little_endian obj startDate_ns

/-- The 40-bit number that the five header bytes at offsets 2..6 of a FlexRay
packet spell in big-endian order. -/
def packed_header (bytes : List Nat) : Nat :=
  bytes.getD 2 0 * 2 ^ 32 + bytes.getD 3 0 * 2 ^ 24 + bytes.getD 4 0 * 2 ^ 16 +
    bytes.getD 5 0 * 2 ^ 8 + bytes.getD 6 0

/-! ## The calls of `set_header`

Every FlexRay writer but `write(light_pcapng, FlexRayVFrStatus*, uint64_t)`,
which writes a symbol and no frame header, calls `set_header` once.  The
definitions below give, writer by writer, the arguments of that call: the local
variable `headerFlags` as the statements before the call leave it, the payload
length, and the cycle, frame id and header crc passed (0 where the call leaves
a parameter at its default). -/

/-- The arguments of one call of `set_header`, after the reference parameter
`header`. -/
structure SetHeaderCall where
  headerFlags : Nat
  payloadLength : Nat
  cycleCount : Nat
  frameId : Nat
  headerCrc : Nat
  deriving DecidableEq, Repr

/-- The 64-bit value the call composes before the byte-order conversion. -/
def SetHeaderCall.composed (c : SetHeaderCall) : Nat :=
  set_header_compose c.headerFlags c.payloadLength c.cycleCount c.frameId c.headerCrc

/-- The value the call leaves in `header`, which was 0 before. -/
def SetHeaderCall.header (little_endian : Bool) (c : SetHeaderCall) : Nat :=
  set_header little_endian 0 c.headerFlags c.payloadLength c.cycleCount c.frameId c.headerCrc

/-- The arguments of the call of `set_header` in
`write(light_pcapng, FlexRayData*, uint64_t)`. -/
def write_FlexRayData_set_header (obj : FlexRayData) : SetHeaderCall :=
  let headerFlags := 0
  let headerFlags := (headerFlags ||| 0x04) % 256
  let len := obj.dataBytes.length / 2
  { headerFlags := headerFlags, payloadLength := len, cycleCount := 0,
    frameId := obj.messageId, headerCrc := obj.crc }

/-- The arguments of the call of `set_header` in
`write(light_pcapng, FlexRaySync*, uint64_t)`. -/
def write_FlexRaySync_set_header (obj : FlexRaySync) : SetHeaderCall :=
  let headerFlags := 0
  let headerFlags := (headerFlags ||| 0x04) % 256
  let headerFlags := (headerFlags ||| 0x02) % 256
  let len := obj.dataBytes.length / 2
  { headerFlags := headerFlags, payloadLength := len, cycleCount := obj.cycle,
    frameId := obj.messageId, headerCrc := obj.crc }

/-- The arguments of the call of `set_header` in
`write(light_pcapng, FlexRayV6StartCycleEvent*, uint64_t)`. -/
def write_FlexRayV6StartCycleEvent_set_header (obj : FlexRayV6StartCycleEvent) : SetHeaderCall :=
  let headerFlags := 0
  let headerFlags := (headerFlags ||| 0x04) % 256
  let len := obj.dataBytes.length / 2
  { headerFlags := headerFlags, payloadLength := len, cycleCount := 0,
    frameId := 0, headerCrc := 0 }

/-- The arguments of the call of `set_header` in
`write(light_pcapng, FlexRayV6Message*, uint64_t)`. -/
def write_FlexRayV6Message_set_header (obj : FlexRayV6Message) : SetHeaderCall :=
  let headerFlags := 0
  let headerFlags := set_header_flags obj.frameState headerFlags
  let len := obj.dataBytes.length / 2
  { headerFlags := headerFlags, payloadLength := len, cycleCount := obj.cycle,
    frameId := obj.frameId, headerCrc := obj.headerCrc }

/-- The arguments of the call of `set_header` in
`write(light_pcapng, FlexRayVFrError*, uint64_t)`. -/
def write_FlexRayVFrError_set_header (obj : FlexRayVFrError) : SetHeaderCall :=
  let headerFlags := 0
  let headerFlags := (headerFlags ||| 0x04) % 256
  { headerFlags := headerFlags, payloadLength := 0, cycleCount := obj.cycle,
    frameId := 0, headerCrc := 0 }

/-- The arguments of the call of `set_header` in
`write(light_pcapng, FlexRayVFrStartCycle*, uint64_t)`. -/
def write_FlexRayVFrStartCycle_set_header (obj : FlexRayVFrStartCycle) : SetHeaderCall :=
  let headerFlags := 0
  let headerFlags := (headerFlags ||| 0x04) % 256
  let len := obj.dataBytes.length / 2
  { headerFlags := headerFlags, payloadLength := len, cycleCount := obj.cycle,
    frameId := 0, headerCrc := 0 }

/-- The arguments of the call of `set_header` in
`write(light_pcapng, FlexRayVFrReceiveMsg*, uint64_t)`. -/
def write_FlexRayVFrReceiveMsg_set_header (obj : FlexRayVFrReceiveMsg) : SetHeaderCall :=
  let headerFlags := 0
  let headerCrc := 0
  let headerFlags := set_header_flags_rcv_msg obj.frameFlags headerFlags
  let headerCrc :=
    set_header_crc (obj.channelMask % 2 ^ 16) obj.headerCrc1 obj.headerCrc2 headerCrc
  let len := obj.dataBytes.length / 2
  { headerFlags := headerFlags, payloadLength := len, cycleCount := obj.cycle,
    frameId := obj.frameId, headerCrc := headerCrc }

/-- The arguments of the call of `set_header` in
`write(light_pcapng, FlexRayVFrReceiveMsgEx*, uint64_t)`. -/
def write_FlexRayVFrReceiveMsgEx_set_header (obj : FlexRayVFrReceiveMsgEx) : SetHeaderCall :=
  let headerFlags := 0
  let headerCrc := 0
  let headerFlags := set_header_flags_rcv_msg obj.frameFlags headerFlags
  let headerCrc :=
    set_header_crc (obj.channelMask % 2 ^ 16) obj.headerCrc1 obj.headerCrc2 headerCrc
  let len := obj.dataBytes.length / 2
  { headerFlags := headerFlags, payloadLength := len, cycleCount := obj.cycle,
    frameId := obj.frameId, headerCrc := headerCrc }

/-- The call of `set_header` made for a frame-bearing record. -/
def FlexRayFrameRecord.set_header_call : FlexRayFrameRecord → SetHeaderCall
  | .data obj => write_FlexRayData_set_header obj
  | .sync obj => write_FlexRaySync_set_header obj
  | .cycle obj => write_FlexRayV6StartCycleEvent_set_header obj
  | .message obj => write_FlexRayV6Message_set_header obj
  | .startCycle obj => write_FlexRayVFrStartCycle_set_header obj
  | .rcvMessage obj => write_FlexRayVFrReceiveMsg_set_header obj
  | .rcvMessageEx obj => write_FlexRayVFrReceiveMsgEx_set_header obj

/-- The FlexRay records whose writer calls `set_header`: the frame-bearing
ones and the error record `FlexRayVFrError` (case `FR_ERROR` of the `switch` in
`main`). -/
inductive FlexRayHeaderRecord where
  | frame (r : FlexRayFrameRecord)
  | error (obj : FlexRayVFrError)
  deriving DecidableEq, Repr

/-- The call of `set_header` made for the record. -/
def FlexRayHeaderRecord.set_header_call : FlexRayHeaderRecord → SetHeaderCall
  | .frame r => r.set_header_call
  | .error obj => write_FlexRayVFrError_set_header obj

/-! ## Shared lemmas -/

/-- With a supported resolution tag `write_packet` reaches the writer, and
the call carries the link type, the length and the buffer it was given. -/
theorem write_packet_supported (w : WriterCall → Int) (link : Nat) (oh : ObjHeader)
    (len : Nat) (data : List Nat) (off flags : Nat)
    (h : oh.objectFlags = TimeTenMics ∨ oh.objectFlags = TimeOneNans) :
    ∃ ret call, write_packet w link oh len data off flags = (ret, some call) ∧
      call.interface.link_type = link % 2 ^ 16 ∧
      call.header.captured_length = len % 2 ^ 32 ∧
      call.header.original_length = len % 2 ^ 32 ∧
      call.data = data := by
  rcases h with h | h
  · exact ⟨_, _, by simp only [write_packet, h, if_true]; rfl, rfl, rfl, rfl, rfl⟩
  · have h1 : ¬ (TimeOneNans = TimeTenMics) := by decide
    exact ⟨_, _, by simp only [write_packet, h, h1, if_true, if_false]; rfl, rfl, rfl, rfl, rfl⟩

/-- The macro `HAS_FLAG`, converted to `bool`, tests the bit at `pos`. -/
theorem has_flag_testBit (var pos : Nat) : to_bool (HAS_FLAG var pos) = var.testBit pos := by
  unfold to_bool HAS_FLAG
  rw [Nat.one_shiftLeft]
  cases hb : var.testBit pos
  · have h0 : var &&& 2 ^ pos = 0 := by
      apply Nat.eq_of_testBit_eq
      intro i
      rw [Nat.testBit_and, Nat.testBit_two_pow, Nat.zero_testBit]
      by_cases hi : pos = i
      · subst hi; simp [hb]
      · simp [hi]
    simp [h0]
  · have h1 : (var &&& 2 ^ pos).testBit pos = true := by
      rw [Nat.testBit_and, Nat.testBit_two_pow_self, hb]; rfl
    have hne : var &&& 2 ^ pos ≠ 0 := by
      intro h0
      rw [h0, Nat.zero_testBit] at h1
      exact Bool.noConfusion h1
    simpa using hne

/-- A copy that starts right after a known head of the buffer. -/
theorem copy_into_append (hd tl src : List Nat) (n : Nat) (hn : hd.length = n)
    (h : src.length ≤ tl.length) :
    copy_into (hd ++ tl) n src = some ((hd ++ src) ++ tl.drop src.length) := by
  subst hn
  unfold copy_into
  rw [if_pos (by rw [List.length_append]; omega)]
  congr 1
  rw [List.take_left, List.drop_append]

/-- A store to the byte right after a known head of the buffer. -/
theorem set_append (hd tl : List Nat) (n x : Nat) (hn : hd.length = n) (h : 0 < tl.length) :
    (hd ++ tl).set n x = (hd ++ [x]) ++ tl.drop 1 := by
  subst hn
  cases tl with
  | nil => simp at h
  | cons a tl => simp

/-- Taking exactly a known head of the buffer. -/
theorem take_append_exact (hd tl : List Nat) (n : Nat) (hn : hd.length = n) :
    (hd ++ tl).take n = hd := by
  subst hn
  exact List.take_left _ _

/-- A fresh frame: eight zero header bytes and 64 zero data bytes. -/
theorem CanFrame.init_eq :
    CanFrame.init = ⟨0 :: 0 :: 0 :: 0 :: 0 :: 0 :: 0 :: 0 :: List.replicate 64 0⟩ := by
  rfl

theorem CanFrame.id_set_cons (a0 a1 a2 a3 : Nat) (tl : List Nat) (v : Nat) :
    (CanFrame.mk (a0 :: a1 :: a2 :: a3 :: tl)).id_set v =
      ⟨((v % 2 ^ 32) >>> 24 % 256 ||| a0 &&& 0xE0) :: (v % 2 ^ 32) >>> 16 % 256 ::
        (v % 2 ^ 32) >>> 8 % 256 :: (v % 2 ^ 32) % 256 :: tl⟩ := by
  rfl

theorem CanFrame.rtr_set_cons (a0 : Nat) (tl : List Nat) (b : Bool) :
    (CanFrame.mk (a0 :: tl)).rtr_set b = ⟨(a0 &&& 0xBF ||| bool_int b <<< 6) % 256 :: tl⟩ := by
  rfl

theorem CanFrame.err_set_cons (a0 : Nat) (tl : List Nat) (b : Bool) :
    (CanFrame.mk (a0 :: tl)).err_set b = ⟨(a0 &&& 0xDF ||| bool_int b <<< 5) % 256 :: tl⟩ := by
  rfl

theorem CanFrame.esi_set_cons (a0 a1 a2 a3 a4 a5 : Nat) (tl : List Nat) (b : Bool) :
    (CanFrame.mk (a0 :: a1 :: a2 :: a3 :: a4 :: a5 :: tl)).esi_set b =
      ⟨a0 :: a1 :: a2 :: a3 :: a4 :: (a5 &&& 0xFD ||| bool_int b <<< 1) % 256 :: tl⟩ := by
  rfl

theorem CanFrame.brs_set_cons (a0 a1 a2 a3 a4 a5 : Nat) (tl : List Nat) (b : Bool) :
    (CanFrame.mk (a0 :: a1 :: a2 :: a3 :: a4 :: a5 :: tl)).brs_set b =
      ⟨a0 :: a1 :: a2 :: a3 :: a4 :: (a5 &&& 0xFE ||| bool_int b <<< 0) % 256 :: tl⟩ := by
  rfl

theorem CanFrame.len_set_cons (a0 a1 a2 a3 a4 : Nat) (tl : List Nat) (v : Nat) :
    (CanFrame.mk (a0 :: a1 :: a2 :: a3 :: a4 :: tl)).len_set v =
      ⟨a0 :: a1 :: a2 :: a3 :: v % 256 :: tl⟩ := by
  rfl

theorem CanFrame.data_set_cons (a0 a1 a2 a3 a4 a5 a6 a7 : Nat) (tl value : List Nat)
    (h : value.length ≤ tl.length) :
    (CanFrame.mk (a0 :: a1 :: a2 :: a3 :: a4 :: a5 :: a6 :: a7 :: tl)).data_set value =
      some ⟨a0 :: a1 :: a2 :: a3 :: a4 :: a5 :: a6 :: a7 :: (value ++ tl.drop value.length)⟩ := by
  have hc := copy_into_append [a0, a1, a2, a3, a4, a5, a6, a7] tl value 8 rfl h
  simp only [List.cons_append, List.nil_append, List.append_assoc] at hc
  simp only [CanFrame.data_set]
  rw [hc]
  rfl

/-- The call `write(CanMessage*)` makes to `write_packet`, in closed form. -/
theorem write_CanMessage_args_eq (obj : CanMessage) (off : Nat) (hfit : obj.data.length ≤ 64) :
    write_CanMessage_args obj off = some
      { link_type := 227, oh := obj.toObjHeader, length := (obj.dlc % 256 + 8) % 256,
        data := (((obj.id % 2 ^ 32) >>> 24 % 256 ||| 0 &&& 0xE0) &&& 0xBF |||
                    bool_int (obj.flags.testBit 7) <<< 6) % 256 ::
                 (obj.id % 2 ^ 32) >>> 16 % 256 :: (obj.id % 2 ^ 32) >>> 8 % 256 ::
                 (obj.id % 2 ^ 32) % 256 :: obj.dlc % 256 :: 0 :: 0 :: 0 ::
                 (obj.data ++ List.replicate (64 - obj.data.length) 0),
        date_offset_ns := off,
        flags := if obj.flags.testBit 0 then 2 else 1 } := by
  unfold write_CanMessage_args
  simp only [CanFrame.init_eq, CanFrame.id_set_cons, CanFrame.rtr_set_cons,
    CanFrame.len_set_cons, has_flag_testBit]
  rw [CanFrame.data_set_cons _ _ _ _ _ _ _ _ _ _ (by rw [List.length_replicate]; exact hfit)]
  rw [List.drop_replicate]
  rfl

/-- The body of `write(CanMessage2*)` is that of `write(CanMessage*)`. -/
theorem write_CanMessage2_args_eq (obj : CanMessage) (off : Nat) :
    write_CanMessage2_args obj off = write_CanMessage_args obj off := rfl

/-- The call `write_can_error` makes to `write_packet`, in closed form. -/
theorem write_can_error_args_eq (obj : CanError) (off : Nat) :
    write_can_error_args obj off =
      { link_type := 227, oh := obj.toObjHeader, length := 16,
        data := 0x20 :: 0 :: 0 :: 0 :: 8 :: 0 :: 0 :: 0 :: List.replicate 64 0,
        date_offset_ns := off, flags := 0 } := by
  rfl

/-- The call `write(CanFdMessage*)` makes to `write_packet`, in closed form. -/
theorem write_CanFdMessage_args_eq (obj : CanFdMessage) (off : Nat)
    (hfit : obj.data.length ≤ 64) :
    write_CanFdMessage_args obj off = some
      { link_type := 227, oh := obj.toObjHeader,
        length := (obj.validDataBytes % 256 + 8) % 256,
        data := (((obj.id % 2 ^ 32) >>> 24 % 256 ||| 0 &&& 0xE0) &&& 0xBF |||
                    bool_int (obj.flags.testBit 7) <<< 6) % 256 ::
                 (obj.id % 2 ^ 32) >>> 16 % 256 :: (obj.id % 2 ^ 32) >>> 8 % 256 ::
                 (obj.id % 2 ^ 32) % 256 :: obj.validDataBytes % 256 ::
                 ((0 &&& 0xFD ||| bool_int (obj.canFdFlags.testBit 2) <<< 1) % 256 &&& 0xFE |||
                    bool_int (obj.canFdFlags.testBit 1) <<< 0) % 256 :: 0 :: 0 ::
                 (obj.data ++ List.replicate (64 - obj.data.length) 0),
        date_offset_ns := off,
        flags := if obj.flags.testBit 0 then 2 else 1 } := by
  unfold write_CanFdMessage_args
  simp only [CanFrame.init_eq, CanFrame.id_set_cons, CanFrame.rtr_set_cons,
    CanFrame.esi_set_cons, CanFrame.brs_set_cons, CanFrame.len_set_cons, has_flag_testBit]
  rw [CanFrame.data_set_cons _ _ _ _ _ _ _ _ _ _ (by rw [List.length_replicate]; exact hfit)]
  rw [List.drop_replicate]
  rfl

/-- The call `write(CanFdMessage64*)` makes to `write_packet`, in closed form. -/
theorem write_CanFdMessage64_args_eq (obj : CanFdMessage64) (off : Nat)
    (hfit : obj.data.length ≤ 64) :
    write_CanFdMessage64_args obj off = some
      { link_type := 227, oh := obj.toObjHeader,
        length := (obj.validDataBytes % 256 + 8) % 256,
        data := (((obj.id % 2 ^ 32) >>> 24 % 256 ||| 0 &&& 0xE0) &&& 0xBF |||
                    bool_int (obj.flags.testBit 4) <<< 6) % 256 ::
                 (obj.id % 2 ^ 32) >>> 16 % 256 :: (obj.id % 2 ^ 32) >>> 8 % 256 ::
                 (obj.id % 2 ^ 32) % 256 :: obj.validDataBytes % 256 ::
                 ((0 &&& 0xFD ||| bool_int (obj.flags.testBit 14) <<< 1) % 256 &&& 0xFE |||
                    bool_int (obj.flags.testBit 13) <<< 0) % 256 :: 0 :: 0 ::
                 (obj.data ++ List.replicate (64 - obj.data.length) 0),
        date_offset_ns := off,
        flags := 0 } := by
  unfold write_CanFdMessage64_args
  simp only [CanFrame.init_eq, CanFrame.id_set_cons, CanFrame.rtr_set_cons,
    CanFrame.esi_set_cons, CanFrame.brs_set_cons, CanFrame.len_set_cons, has_flag_testBit]
  rw [CanFrame.data_set_cons _ _ _ _ _ _ _ _ _ _ (by rw [List.length_replicate]; exact hfit)]
  rw [List.drop_replicate]
  rfl

/-- The call `write(EthernetFrame*)` makes to `write_packet`, in closed form:
the written head of the buffer followed by what is left of its first
contents. -/
theorem write_EthernetFrame_args_eq (eth : List Nat) (obj : EthernetFrame) (off : Nat)
    (heth : eth.length = 1518) (hdst : obj.destinationAddress.length = 6)
    (hsrc : obj.sourceAddress.length = 6)
    (hfit : obj.payLoad.length + (if obj.tpid = 0 then 14 else 18) ≤ 1518) :
    write_EthernetFrame_args eth obj off = some
      { link_type := 1, oh := obj.toObjHeader,
        length := obj.payLoad.length + (if obj.tpid = 0 then 14 else 18),
        data := (obj.destinationAddress ++ obj.sourceAddress ++
            (if obj.tpid = 0 then []
              else [obj.tpid >>> 8 % 256, obj.tpid % 256, obj.tci >>> 8 % 256, obj.tci % 256]) ++
            [obj.type >>> 8 % 256, obj.type % 256] ++ obj.payLoad) ++
          eth.drop (obj.payLoad.length + (if obj.tpid = 0 then 14 else 18)),
        date_offset_ns := off,
        flags := if obj.dir = 0 then 1 else if obj.dir = 1 then 2 else 0 } := by
  unfold write_EthernetFrame_args
  have h1 := copy_into_append [] eth obj.destinationAddress 0 rfl (by omega)
  simp only [List.nil_append] at h1
  rw [h1, Option.some_bind]
  rw [copy_into_append obj.destinationAddress _ obj.sourceAddress 6 hdst (by simp; omega),
    Option.some_bind]
  by_cases ht : obj.tpid = 0
  · simp only [ht, if_true, ne_eq, not_true_eq_false, if_false, Nat.reduceSub] at hfit ⊢
    rw [set_append _ _ 12 _ (by simp; omega) (by simp; omega)]
    rw [set_append _ _ 13 _ (by simp; omega) (by simp; omega)]
    rw [copy_into_append _ _ obj.payLoad 14 (by simp; omega) (by simp; omega)]
    simp [hdst, hsrc, assign, LINKTYPE_ETHERNET, DIR_IN, DIR_OUT, Nat.add_comm]
  · simp only [ht, if_false, ne_eq, not_false_eq_true, if_true, Nat.reduceSub,
      Nat.reduceAdd] at hfit ⊢
    rw [set_append _ _ 12 _ (by simp; omega) (by simp; omega)]
    rw [set_append _ _ 13 _ (by simp; omega) (by simp; omega)]
    rw [set_append _ _ 14 _ (by simp; omega) (by simp; omega)]
    rw [set_append _ _ 15 _ (by simp; omega) (by simp; omega)]
    rw [set_append _ _ 16 _ (by simp; omega) (by simp; omega)]
    rw [set_append _ _ 17 _ (by simp; omega) (by simp; omega)]
    rw [copy_into_append _ _ obj.payLoad 18 (by simp; omega) (by simp; omega)]
    simp [hdst, hsrc, assign, LINKTYPE_ETHERNET, DIR_IN, DIR_OUT, Nat.add_comm]

/-- Byte 0 of a message frame whose identifier has 29 bits. -/
theorem can_byte0_of_lt (x : Nat) (hx : x < 32) (r : Bool) :
    ((x % 256 ||| 0 &&& 0xE0) &&& 0xBF ||| bool_int r <<< 6) % 256 =
        (x ||| if r then 0x40 else 0) ∧
      (x ||| if r then 0x40 else 0).testBit 6 = r ∧
      (x ||| if r then 0x40 else 0).testBit 7 = false ∧
      (x ||| if r then 0x40 else 0).testBit 5 = false ∧
      (x ||| if r then 0x40 else 0) &&& 0x1F = x := by
  revert r x
  decide

/-- Bit 6 of byte 0 after `rtr(value)` is `value`, whatever the byte held. -/
theorem can_byte0_rtr (x : Nat) (r : Bool) :
    (((x ||| 0 &&& 0xE0) &&& 0xBF ||| bool_int r <<< 6) % 256).testBit 6 = r := by
  have h256 : (256 : Nat) = 2 ^ 8 := by decide
  rw [h256, Nat.testBit_mod_two_pow, Nat.testBit_or, Nat.testBit_and]
  have hm : Nat.testBit 0xBF 6 = false := by decide
  have hr : (bool_int r <<< 6).testBit 6 = r := by cases r <;> decide
  rw [hm, hr]
  simp

/-- Byte 5 of a fresh frame after `esi(e)` and `brs(b)`. -/
theorem can_byte5 (e b : Bool) :
    (((0 &&& 0xFD ||| bool_int e <<< 1) % 256 &&& 0xFE ||| bool_int b <<< 0) % 256).testBit 1 = e ∧
      (((0 &&& 0xFD ||| bool_int e <<< 1) % 256 &&& 0xFE ||| bool_int b <<< 0) % 256).testBit 0 = b ∧
      ((0 &&& 0xFD ||| bool_int e <<< 1) % 256 &&& 0xFE ||| bool_int b <<< 0) % 256 &&& 0xFC = 0 := by
  cases e <;> cases b <;> decide

/-! ### FlexRay header lemmas -/

theorem header_bytes_length (le : Bool) (h : Nat) : (header_bytes le h).length = 5 := by
  cases le <;> rfl

/-- The bytes of a byte-reversed value, lowest first, are the bytes it was
built from, highest first. -/
theorem stored_bytes64_reversed (c0 c1 c2 c3 c4 c5 c6 c7 : Nat) (h0 : c0 < 256)
    (h1 : c1 < 256) (h2 : c2 < 256) (h3 : c3 < 256) (h4 : c4 < 256) (h5 : c5 < 256)
    (h6 : c6 < 256) (h7 : c7 < 256) :
    stored_bytes64 true (c0 * 2 ^ 56 + c1 * 2 ^ 48 + c2 * 2 ^ 40 + c3 * 2 ^ 32 + c4 * 2 ^ 24 +
      c5 * 2 ^ 16 + c6 * 2 ^ 8 + c7) = [c7, c6, c5, c4, c3, c2, c1, c0] := by
  simp only [stored_bytes64, if_true, Nat.shiftRight_eq_div_pow]
  simp only [List.cons.injEq, and_true]
  refine ⟨?_, ?_, ?_, ?_, ?_, ?_, ?_, ?_⟩ <;> omega

/-- On either host, the memory image of `hton64 h` is `h` in big-endian
order. -/
theorem stored_bytes64_hton64 (le : Bool) (h : Nat) :
    stored_bytes64 le (hton64 le h) =
      [h >>> 56 % 256, h >>> 48 % 256, h >>> 40 % 256, h >>> 32 % 256,
        h >>> 24 % 256, h >>> 16 % 256, h >>> 8 % 256, h % 256] := by
  cases le
  · rfl
  · simp only [hton64, if_true]
    rw [stored_bytes64_reversed _ _ _ _ _ _ _ _ (Nat.mod_lt _ (by decide))
      (Nat.mod_lt _ (by decide)) (Nat.mod_lt _ (by decide)) (Nat.mod_lt _ (by decide))
      (Nat.mod_lt _ (by decide)) (Nat.mod_lt _ (by decide)) (Nat.mod_lt _ (by decide))
      (Nat.mod_lt _ (by decide))]
    simp only [Nat.shiftRight_eq_div_pow]

/-- The five bytes copied out of `hton64 h`. -/
theorem header_bytes_hton64 (le : Bool) (h : Nat) :
    header_bytes le (hton64 le h) =
      [h >>> 32 % 256, h >>> 24 % 256, h >>> 16 % 256, h >>> 8 % 256, h % 256] := by
  unfold header_bytes
  rw [stored_bytes64_hton64]
  rfl

theorem or_unless_zero (X v : Nat) (g : Nat → Nat) (hg : g 0 = 0) :
    (if v ≠ 0 then X ||| g v else X) = X ||| g v := by
  by_cases h : v = 0
  · subst h; rw [hg, Nat.or_zero, if_neg (by simp)]
  · rw [if_pos h]

theorem lor_rotate (x c i r : Nat) : x ||| c ||| i ||| r = x ||| i ||| r ||| c := by
  rw [Nat.or_assoc x c i, Nat.or_comm c i, ← Nat.or_assoc x i c, Nat.or_assoc (x ||| i) c r,
    Nat.or_comm c r, ← Nat.or_assoc (x ||| i) r c]

/-- The value `set_header` composes, with every field OR-ed in
unconditionally. -/
theorem set_header_compose_or (f p c i r : Nat) (hf : f < 2 ^ 8) (hp : p < 2 ^ 64)
    (hc : c < 2 ^ 8) (hi : i < 2 ^ 16) (hr : r < 2 ^ 16) :
    set_header_compose f p c i r =
      f <<< 35 ||| (p &&& 0x7F) <<< 17 ||| (i &&& 0x7FF) <<< 24 ||| (r &&& 0x7FF) <<< 6 |||
        (c &&& 0x3F) := by
  have hlt : f <<< 35 ||| (p &&& 0x7F) <<< 17 < 2 ^ 64 := by
    have h7 : p &&& 0x7F < 2 ^ 7 := Nat.and_lt_two_pow p (by decide)
    have h1 : f <<< 35 < 2 ^ 64 := by rw [Nat.shiftLeft_eq]; omega
    have h2 : (p &&& 0x7F) <<< 17 < 2 ^ 64 := by rw [Nat.shiftLeft_eq]; omega
    exact Nat.or_lt_two_pow h1 h2
  have e3 : ∀ X, (if r ≠ 0 then X ||| (r &&& 0x7FF) <<< 6 else X) = X ||| (r &&& 0x7FF) <<< 6 :=
    fun X => or_unless_zero X r (fun r => (r &&& 0x7FF) <<< 6)
      (by show (0 &&& 0x7FF) <<< 6 = 0; rw [Nat.zero_and, Nat.zero_shiftLeft])
  have e2 : ∀ X, (if i ≠ 0 then X ||| (i &&& 0x7FF) <<< 24 else X) = X ||| (i &&& 0x7FF) <<< 24 :=
    fun X => or_unless_zero X i (fun i => (i &&& 0x7FF) <<< 24)
      (by show (0 &&& 0x7FF) <<< 24 = 0; rw [Nat.zero_and, Nat.zero_shiftLeft])
  have e1 : ∀ X, (if c ≠ 0 then X ||| (c &&& 0x3F) else X) = X ||| (c &&& 0x3F) :=
    fun X => or_unless_zero X c (fun c => c &&& 0x3F) (Nat.zero_and _)
  unfold set_header_compose
  simp only [Nat.mod_eq_of_lt hf, Nat.mod_eq_of_lt hp, Nat.mod_eq_of_lt hc, Nat.mod_eq_of_lt hi,
    Nat.mod_eq_of_lt hr, Nat.mod_eq_of_lt hlt, e1, e2, e3]
  exact lor_rotate _ _ _ _

theorem shl_or_eq_add (a b k : Nat) (hb : b < 2 ^ k) : a <<< k ||| b = a * 2 ^ k + b := by
  rw [Nat.shiftLeft_eq, Nat.mul_comm, ← Nat.mul_add_lt_is_or hb]

/-- The composed value as a sum of its fields, each at its position: the fields
do not overlap. -/
theorem set_header_compose_sum_of_lt (f p c i r : Nat) (hf : f < 2 ^ 8) (hp : p < 2 ^ 64)
    (hc : c < 2 ^ 8) (hi : i < 2 ^ 16) (hr : r < 2 ^ 16) :
    set_header_compose f p c i r =
      f * 2 ^ 35 + (i % 2 ^ 11) * 2 ^ 24 + (p % 2 ^ 7) * 2 ^ 17 + (r % 2 ^ 11) * 2 ^ 6 +
        c % 2 ^ 6 := by
  rw [set_header_compose_or f p c i r hf hp hc hi hr]
  have m7 : p &&& 0x7F = p % 2 ^ 7 := Nat.and_pow_two_sub_one_eq_mod p 7
  have m11i : i &&& 0x7FF = i % 2 ^ 11 := Nat.and_pow_two_sub_one_eq_mod i 11
  have m11r : r &&& 0x7FF = r % 2 ^ 11 := Nat.and_pow_two_sub_one_eq_mod r 11
  have m6 : c &&& 0x3F = c % 2 ^ 6 := Nat.and_pow_two_sub_one_eq_mod c 6
  rw [m7, m11i, m11r, m6]
  have s1 : (r % 2 ^ 11) <<< 6 ||| c % 2 ^ 6 = (r % 2 ^ 11) * 2 ^ 6 + c % 2 ^ 6 :=
    shl_or_eq_add _ _ _ (Nat.mod_lt _ (by decide))
  have s2 : (p % 2 ^ 7) <<< 17 ||| ((r % 2 ^ 11) * 2 ^ 6 + c % 2 ^ 6) =
      (p % 2 ^ 7) * 2 ^ 17 + ((r % 2 ^ 11) * 2 ^ 6 + c % 2 ^ 6) :=
    shl_or_eq_add _ _ _ (by omega)
  have s3 : (i % 2 ^ 11) <<< 24 ||| ((p % 2 ^ 7) * 2 ^ 17 + ((r % 2 ^ 11) * 2 ^ 6 + c % 2 ^ 6)) =
      (i % 2 ^ 11) * 2 ^ 24 + ((p % 2 ^ 7) * 2 ^ 17 + ((r % 2 ^ 11) * 2 ^ 6 + c % 2 ^ 6)) :=
    shl_or_eq_add _ _ _ (by omega)
  have s4 : f <<< 35 ||| ((i % 2 ^ 11) * 2 ^ 24 +
        ((p % 2 ^ 7) * 2 ^ 17 + ((r % 2 ^ 11) * 2 ^ 6 + c % 2 ^ 6))) =
      f * 2 ^ 35 + ((i % 2 ^ 11) * 2 ^ 24 +
        ((p % 2 ^ 7) * 2 ^ 17 + ((r % 2 ^ 11) * 2 ^ 6 + c % 2 ^ 6))) :=
    shl_or_eq_add _ _ _ (by omega)
  have re : f <<< 35 ||| (p % 2 ^ 7) <<< 17 ||| (i % 2 ^ 11) <<< 24 ||| (r % 2 ^ 11) <<< 6 |||
        c % 2 ^ 6 =
      f <<< 35 ||| ((i % 2 ^ 11) <<< 24 ||| ((p % 2 ^ 7) <<< 17 |||
        ((r % 2 ^ 11) <<< 6 ||| c % 2 ^ 6))) := by
    rw [Nat.or_assoc (f <<< 35), Nat.or_comm ((p % 2 ^ 7) <<< 17), Nat.or_assoc (f <<< 35),
      Nat.or_assoc (f <<< 35), Nat.or_assoc ((i % 2 ^ 11) <<< 24),
      Nat.or_assoc ((i % 2 ^ 11) <<< 24), Nat.or_assoc ((p % 2 ^ 7) <<< 17)]
  rw [re, s1, s2, s3, s4]
  omega

/-- The arguments of `set_header` count only up to their parameter types. -/
theorem set_header_compose_mod (f p c i r : Nat) :
    set_header_compose f p c i r =
      set_header_compose (f % 2 ^ 8) (p % 2 ^ 64) (c % 2 ^ 8) (i % 2 ^ 16) (r % 2 ^ 16) := by
  unfold set_header_compose
  simp only [Nat.mod_mod]

/-- The composed value as a sum of its fields, for arbitrary arguments. -/
theorem set_header_compose_sum (f p c i r : Nat) :
    set_header_compose f p c i r =
      (f % 2 ^ 8) * 2 ^ 35 + (i % 2 ^ 11) * 2 ^ 24 + (p % 2 ^ 7) * 2 ^ 17 +
        (r % 2 ^ 11) * 2 ^ 6 + c % 2 ^ 6 := by
  rw [set_header_compose_mod, set_header_compose_sum_of_lt _ _ _ _ _ (Nat.mod_lt _ (by decide))
    (Nat.mod_lt _ (by decide)) (Nat.mod_lt _ (by decide)) (Nat.mod_lt _ (by decide))
    (Nat.mod_lt _ (by decide))]
  omega

/-! ### FlexRay buffers -/

/-- The array `flexrayData` after the header bytes and the payload are copied
in. -/
theorem flexray_buffer {α : Type} (g : List Nat → α) (size m e : Nat) (h5 payload : List Nat)
    (hh : h5.length = 5) (hfit : payload.length + 7 ≤ size) :
    ((copy_into (m :: e :: List.replicate (size - 2) 0) 2 h5).bind fun b =>
      (copy_into b 7 payload).map g) =
    some (g (m :: e :: (h5 ++ payload ++ List.replicate (size - 7 - payload.length) 0))) := by
  have h1 := copy_into_append [m, e] (List.replicate (size - 2) 0) h5 2 rfl
    (by rw [List.length_replicate]; omega)
  simp only [List.cons_append, List.nil_append] at h1
  rw [h1, Option.some_bind, List.drop_replicate, hh]
  have h2 := copy_into_append (m :: e :: h5) (List.replicate (size - 2 - 5) 0) payload 7
    (by simp [hh]) (by rw [List.length_replicate]; omega)
  simp only [List.cons_append] at h2
  rw [h2, List.drop_replicate, Option.map_some']
  have h3 : size - 2 - 5 - payload.length = size - 7 - payload.length := by omega
  rw [h3, List.append_assoc]

theorem replicate_261 : List.replicate 261 0 = 0 :: 0 :: List.replicate (261 - 2) 0 := rfl

theorem replicate_19 : List.replicate 19 0 = 0 :: 0 :: List.replicate (19 - 2) 0 := rfl

/-- The call `write(FlexRayData*)` makes to `write_packet`, in closed form. -/
theorem write_FlexRayData_args_eq (le : Bool) (obj : FlexRayData) (off : Nat)
    (hfit : obj.dataBytes.length + 7 ≤ 261) :
    write_FlexRayData_args le obj off = some
      { link_type := 210, oh := obj.toObjHeader, length := obj.dataBytes.length + 7,
        data := 1 :: 0 ::
          (header_bytes le (set_header le 0 4 (obj.dataBytes.length / 2)
              0 obj.messageId obj.crc) ++ obj.dataBytes ++
            List.replicate (261 - 7 - obj.dataBytes.length) 0),
        date_offset_ns := off, flags := 0 } := by
  unfold write_FlexRayData_args
  simp only [replicate_261, List.set_cons_zero, List.getD_cons_zero]
  rw [flexray_buffer _ 261 _ _ _ _ (header_bytes_length _ _) hfit]
  rfl

/-- The call `write(FlexRaySync*)` makes to `write_packet`, in closed form. -/
theorem write_FlexRaySync_args_eq (le : Bool) (obj : FlexRaySync) (off : Nat)
    (hfit : obj.dataBytes.length + 7 ≤ 261) :
    write_FlexRaySync_args le obj off = some
      { link_type := 210, oh := obj.toObjHeader, length := obj.dataBytes.length + 7,
        data := 1 :: 0 ::
          (header_bytes le (set_header le 0 6 (obj.dataBytes.length / 2)
              obj.cycle obj.messageId obj.crc) ++ obj.dataBytes ++
            List.replicate (261 - 7 - obj.dataBytes.length) 0),
        date_offset_ns := off, flags := 0 } := by
  unfold write_FlexRaySync_args
  simp only [replicate_261, List.set_cons_zero, List.getD_cons_zero]
  rw [flexray_buffer _ 261 _ _ _ _ (header_bytes_length _ _) hfit]
  rfl

/-- The call `write(FlexRayV6StartCycleEvent*)` makes to `write_packet`, in closed form. -/
theorem write_FlexRayV6StartCycleEvent_args_eq (le : Bool) (obj : FlexRayV6StartCycleEvent) (off : Nat)
    (hfit : obj.dataBytes.length + 7 ≤ 261) :
    write_FlexRayV6StartCycleEvent_args le obj off = some
      { link_type := 210, oh := obj.toObjHeader, length := obj.dataBytes.length + 7,
        data := 1 :: 0 ::
          (header_bytes le (set_header le 0 4 (obj.dataBytes.length / 2)
              0 0 0) ++ obj.dataBytes ++
            List.replicate (261 - 7 - obj.dataBytes.length) 0),
        date_offset_ns := off, flags := 0 } := by
  unfold write_FlexRayV6StartCycleEvent_args
  simp only [replicate_261, List.set_cons_zero, List.getD_cons_zero]
  rw [flexray_buffer _ 261 _ _ _ _ (header_bytes_length _ _) hfit]
  rfl

/-- The call `write(FlexRayV6Message*)` makes to `write_packet`, in closed form. -/
theorem write_FlexRayV6Message_args_eq (le : Bool) (obj : FlexRayV6Message) (off : Nat)
    (hfit : obj.dataBytes.length + 7 ≤ 261) :
    write_FlexRayV6Message_args le obj off = some
      { link_type := 210, oh := obj.toObjHeader, length := obj.dataBytes.length + 7,
        data := 1 :: 0 ::
          (header_bytes le (set_header le 0 (set_header_flags obj.frameState 0) (obj.dataBytes.length / 2)
              obj.cycle obj.frameId obj.headerCrc) ++ obj.dataBytes ++
            List.replicate (261 - 7 - obj.dataBytes.length) 0),
        date_offset_ns := off, flags := 0 } := by
  unfold write_FlexRayV6Message_args
  simp only [replicate_261, List.set_cons_zero, List.getD_cons_zero]
  rw [flexray_buffer _ 261 _ _ _ _ (header_bytes_length _ _) hfit]
  rfl

/-- The call `write(FlexRayVFrStartCycle*)` makes to `write_packet`, in closed form. -/
theorem write_FlexRayVFrStartCycle_args_eq (le : Bool) (obj : FlexRayVFrStartCycle) (off : Nat)
    (hfit : obj.dataBytes.length + 7 ≤ 19) :
    write_FlexRayVFrStartCycle_args le obj off = some
      { link_type := 210, oh := obj.toObjHeader, length := obj.dataBytes.length + 7,
        data := set_measurment_header 0 .FlexRayFrame (obj.channelMask % 2 ^ 16) :: 0 ::
          (header_bytes le (set_header le 0 4 (obj.dataBytes.length / 2)
              obj.cycle 0 0) ++ obj.dataBytes ++
            List.replicate (19 - 7 - obj.dataBytes.length) 0),
        date_offset_ns := off, flags := 0 } := by
  unfold write_FlexRayVFrStartCycle_args
  simp only [replicate_19, List.set_cons_zero, List.getD_cons_zero]
  rw [flexray_buffer _ 19 _ _ _ _ (header_bytes_length _ _) hfit]
  rfl

/-- The call `write(FlexRayVFrReceiveMsg*)` makes to `write_packet`, in closed form. -/
theorem write_FlexRayVFrReceiveMsg_args_eq (le : Bool) (obj : FlexRayVFrReceiveMsg) (off : Nat)
    (hfit : obj.dataBytes.length + 7 ≤ 261) :
    write_FlexRayVFrReceiveMsg_args le obj off = some
      { link_type := 210, oh := obj.toObjHeader, length := obj.dataBytes.length + 7,
        data := set_measurment_header 0 .FlexRayFrame (obj.channelMask % 2 ^ 16) :: (if obj.frameFlags.testBit 6 then 0x10 else 0) ::
          (header_bytes le (set_header le 0 (set_header_flags_rcv_msg obj.frameFlags 0) (obj.dataBytes.length / 2)
              obj.cycle obj.frameId
              (set_header_crc (obj.channelMask % 2 ^ 16) obj.headerCrc1 obj.headerCrc2 0)) ++ obj.dataBytes ++
            List.replicate (261 - 7 - obj.dataBytes.length) 0),
        date_offset_ns := off, flags := 0 } := by
  unfold write_FlexRayVFrReceiveMsg_args
  simp only [replicate_261, List.set_cons_zero, List.getD_cons_zero, has_flag_testBit]
  cases obj.frameFlags.testBit 6
  · simp only [Bool.false_eq_true, if_false]
    rw [flexray_buffer _ 261 _ _ _ _ (header_bytes_length _ _) hfit]
    rfl
  · simp only [if_true]
    have hs : ∀ (m : Nat) (tl : List Nat), (m :: 0 :: tl).set 1
        (((m :: 0 :: tl).getD 1 0 ||| 0x10) % 256) = m :: 0x10 :: tl := by
      intro m tl
      simp
    rw [hs, flexray_buffer _ 261 _ _ _ _ (header_bytes_length _ _) hfit]
    rfl

/-- The call `write(FlexRayVFrReceiveMsgEx*)` makes to `write_packet`, in
closed form. -/
theorem write_FlexRayVFrReceiveMsgEx_args_eq (le : Bool) (obj : FlexRayVFrReceiveMsgEx)
    (off : Nat) :
    write_FlexRayVFrReceiveMsgEx_args le obj off =
      { link_type := 210, oh := obj.toObjHeader, length := obj.dataBytes.length + 7,
        data := set_measurment_header 0 .FlexRayFrame (obj.channelMask % 2 ^ 16) ::
          (if obj.frameFlags.testBit 6 then 0x10 else 0) ::
          (header_bytes le (set_header le 0 (set_header_flags_rcv_msg obj.frameFlags 0)
              (obj.dataBytes.length / 2) obj.cycle obj.frameId
              (set_header_crc (obj.channelMask % 2 ^ 16) obj.headerCrc1 obj.headerCrc2 0)) ++
            obj.dataBytes ++ List.replicate 0 0),
        date_offset_ns := off, flags := 0 } := by
  unfold write_FlexRayVFrReceiveMsgEx_args
  simp only [has_flag_testBit, List.replicate_zero, List.append_nil]
  cases obj.frameFlags.testBit 6 <;> rfl

/-- The call `write(FlexRayVFrError*)` makes to `write_packet`, in closed
form. -/
theorem write_FlexRayVFrError_args_eq (le : Bool) (obj : FlexRayVFrError) (off : Nat) :
    write_FlexRayVFrError_args le obj off = some
      { link_type := 210, oh := obj.toObjHeader, length := 7,
        data := set_measurment_header 0 .FlexRayFrame (obj.channelMask % 2 ^ 16) :: 0x02 ::
          header_bytes le (set_header le 0 4 0 obj.cycle 0 0),
        date_offset_ns := off, flags := 0 } := by
  unfold write_FlexRayVFrError_args
  have hb : ∀ m : Nat, ((List.replicate 7 0).set 0 m).set 1
      ((((List.replicate 7 0).set 0 m).getD 1 0 ||| 0x02) % 256) =
      [m, 0x02] ++ List.replicate 5 0 := by
    intro m
    simp
  have hf : (0 ||| 0x04) % 256 = 4 := by decide
  have hg : (List.replicate 7 0).getD 0 0 = 0 := by rfl
  simp only [hb, hf, hg]
  rw [copy_into_append
      [set_measurment_header 0 .FlexRayFrame (obj.channelMask % 2 ^ 16), 0x02]
      (List.replicate 5 0) (header_bytes le (set_header le 0 4 0 obj.cycle 0 0)) 2 rfl
      (by rw [header_bytes_length]; rfl),
    header_bytes_length, Option.map_some']
  simp only [List.drop_replicate, Nat.sub_self, List.replicate_zero, List.append_nil,
    List.cons_append, List.nil_append]
  rfl

/-- The header bytes `set_header` leaves for the writers: the composed value
in big-endian order, lowest five bytes. -/
theorem header_bytes_set_header (le : Bool) (x f p c i r : Nat) :
    header_bytes le (set_header le x f p c i r) =
      [set_header_compose f p c i r >>> 32 % 256, set_header_compose f p c i r >>> 24 % 256,
        set_header_compose f p c i r >>> 16 % 256, set_header_compose f p c i r >>> 8 % 256,
        set_header_compose f p c i r % 256] := by
  unfold set_header
  exact header_bytes_hton64 le _

/-- The five header bytes of a packet spell the low 40 bits of the composed
value. -/
theorem packed_header_frame (le : Bool) (m e x f p c i r : Nat) (rest : List Nat) :
    packed_header (m :: e :: (header_bytes le (set_header le x f p c i r) ++ rest)) =
      set_header_compose f p c i r % 2 ^ 40 := by
  rw [header_bytes_set_header]
  simp only [packed_header, List.cons_append, List.getD_cons_succ, List.getD_cons_zero,
    Nat.shiftRight_eq_div_pow]
  omega

/-- A FlexRay frame buffer handed to `write_packet` under a supported
resolution tag: the call that reaches the writer and the bytes it emits. -/
theorem flexray_frame_call (w : WriterCall → Int) (oh : ObjHeader) (m e : Nat)
    (h5 payload tail : List Nat) (off flags : Nat)
    (hres : oh.objectFlags = TimeTenMics ∨ oh.objectFlags = TimeOneNans)
    (hh : h5.length = 5) (hn : payload.length + 7 < 2 ^ 32) :
    ∃ ret call,
      write_packet w 210 oh (payload.length + 7) (m :: e :: (h5 ++ payload ++ tail)) off flags =
        (ret, some call) ∧
      call.interface.link_type = 210 ∧
      call.header.captured_length = payload.length + 7 ∧
      call.bytes = m :: e :: (h5 ++ payload) := by
  obtain ⟨ret, call, hcall, hlink, hcap, -, hbuf⟩ :=
    write_packet_supported w 210 oh (payload.length + 7) (m :: e :: (h5 ++ payload ++ tail))
      off flags hres
  rw [Nat.mod_eq_of_lt hn] at hcap
  refine ⟨ret, call, hcall, hlink, hcap, ?_⟩
  unfold WriterCall.bytes
  rw [hbuf, hcap]
  have h := take_append_exact (m :: e :: (h5 ++ payload)) tail (payload.length + 7)
    (by simp [hh]; omega)
  simpa using h

/-- Every frame-bearing record is written as measurement header, error-flags
byte, the five header bytes for some flags, cycle, frame id and crc and the
payload length `|dataBytes| / 2`, then the payload. -/
theorem write_frame_record_shape (w : WriterCall → Int) (le : Bool) (r : FlexRayFrameRecord)
    (off : Nat) (hroom : ∀ k, r.room = some k → r.dataBytes.length ≤ k) :
    ∃ m e f c i cr tail, write_frame_record w le r off =
      some (write_packet w 210 r.oh (r.dataBytes.length + 7)
        (m :: e :: (header_bytes le (set_header le 0 f (r.dataBytes.length / 2) c i cr) ++
          r.dataBytes ++ tail)) off 0) := by
  cases r with
  | data obj =>
    have hfit : obj.dataBytes.length + 7 ≤ 261 := by
      have := hroom _ rfl
      simp only [FlexRayFrameRecord.dataBytes] at this
      omega
    exact ⟨_, _, _, _, _, _, _, by
      simp only [write_frame_record, write_FlexRayData, write_FlexRayData_args_eq le obj off hfit]
      rfl⟩
  | sync obj =>
    have hfit : obj.dataBytes.length + 7 ≤ 261 := by
      have := hroom _ rfl
      simp only [FlexRayFrameRecord.dataBytes] at this
      omega
    exact ⟨_, _, _, _, _, _, _, by
      simp only [write_frame_record, write_FlexRaySync, write_FlexRaySync_args_eq le obj off hfit]
      rfl⟩
  | cycle obj =>
    have hfit : obj.dataBytes.length + 7 ≤ 261 := by
      have := hroom _ rfl
      simp only [FlexRayFrameRecord.dataBytes] at this
      omega
    exact ⟨_, _, _, _, _, _, _, by
      simp only [write_frame_record, write_FlexRayV6StartCycleEvent,
        write_FlexRayV6StartCycleEvent_args_eq le obj off hfit]
      rfl⟩
  | message obj =>
    have hfit : obj.dataBytes.length + 7 ≤ 261 := by
      have := hroom _ rfl
      simp only [FlexRayFrameRecord.dataBytes] at this
      omega
    exact ⟨_, _, _, _, _, _, _, by
      simp only [write_frame_record, write_FlexRayV6Message,
        write_FlexRayV6Message_args_eq le obj off hfit]
      rfl⟩
  | startCycle obj =>
    have hfit : obj.dataBytes.length + 7 ≤ 19 := by
      have := hroom _ rfl
      simp only [FlexRayFrameRecord.dataBytes] at this
      omega
    exact ⟨_, _, _, _, _, _, _, by
      simp only [write_frame_record, write_FlexRayVFrStartCycle,
        write_FlexRayVFrStartCycle_args_eq le obj off hfit]
      rfl⟩
  | rcvMessage obj =>
    have hfit : obj.dataBytes.length + 7 ≤ 261 := by
      have := hroom _ rfl
      simp only [FlexRayFrameRecord.dataBytes] at this
      omega
    exact ⟨_, _, _, _, _, _, _, by
      simp only [write_frame_record, write_FlexRayVFrReceiveMsg,
        write_FlexRayVFrReceiveMsg_args_eq le obj off hfit]
      rfl⟩
  | rcvMessageEx obj =>
    exact ⟨_, _, _, _, _, _, _, by
      simp only [write_frame_record, write_FlexRayVFrReceiveMsgEx,
        write_FlexRayVFrReceiveMsgEx_args_eq le obj off]
      rfl⟩

/-- The payload-length field of a composed header: bits 17..23. -/
theorem payload_length_field (f p c i r : Nat) :
    (set_header_compose f p c i r % 2 ^ 40) >>> 17 &&& 0x7F = p % 2 ^ 7 := by
  rw [set_header_compose_sum, Nat.shiftRight_eq_div_pow]
  have hm : ∀ x : Nat, x &&& 0x7F = x % 2 ^ 7 := fun x => Nat.and_pow_two_sub_one_eq_mod x 7
  rw [hm]
  omega

/-- The fields of the 40-bit header: flags in bits 35..39, frame id in bits
24..34, payload length in bits 17..23, header crc in bits 6..16 and cycle in
bits 0..5. -/
theorem header_fields (f p c i r : Nat) :
    (set_header_compose f p c i r % 2 ^ 40) >>> 35 = f % 2 ^ 5 ∧
      (set_header_compose f p c i r % 2 ^ 40) >>> 24 &&& 0x7FF = i % 2 ^ 11 ∧
      (set_header_compose f p c i r % 2 ^ 40) >>> 17 &&& 0x7F = p % 2 ^ 7 ∧
      (set_header_compose f p c i r % 2 ^ 40) >>> 6 &&& 0x7FF = r % 2 ^ 11 ∧
      set_header_compose f p c i r % 2 ^ 40 &&& 0x3F = c % 2 ^ 6 := by
  have h7 : ∀ x : Nat, x &&& 0x7F = x % 2 ^ 7 := fun x => Nat.and_pow_two_sub_one_eq_mod x 7
  have h11 : ∀ x : Nat, x &&& 0x7FF = x % 2 ^ 11 := fun x => Nat.and_pow_two_sub_one_eq_mod x 11
  have h6 : ∀ x : Nat, x &&& 0x3F = x % 2 ^ 6 := fun x => Nat.and_pow_two_sub_one_eq_mod x 6
  rw [set_header_compose_sum]
  simp only [Nat.shiftRight_eq_div_pow, h7, h11, h6]
  refine ⟨?_, ?_, ?_, ?_, ?_⟩ <;> omega

/-- The measurement header byte of a frame. -/
theorem set_measurment_header_frame (previous channelMask : Nat) :
    set_measurment_header previous .FlexRayFrame channelMask =
      if channelMask = 2 ∨ channelMask = 3 then 0x81 else 0x01 := by
  by_cases h1 : channelMask = 1
  · subst h1; rfl
  · by_cases h23 : channelMask = 2 ∨ channelMask = 3
    · simp only [set_measurment_header, h1, h23, if_true, if_false, assign]; rfl
    · simp only [set_measurment_header, h1, h23, if_false, assign]

/-- The header crc the receive-message writers choose. -/
theorem set_header_crc_eq (channelMask headerCrc1 headerCrc2 : Nat) :
    set_header_crc channelMask headerCrc1 headerCrc2 0 =
      if channelMask = 1 then headerCrc1
      else if channelMask = 2 ∨ channelMask = 3 then headerCrc2 else 0 := by
  rfl

/-- The packet `write(FlexRayData*)` hands to the writer. -/
theorem write_FlexRayData_call (w : WriterCall → Int) (le : Bool) (obj : FlexRayData)
    (off : Nat) (hres : obj.objectFlags = TimeTenMics ∨ obj.objectFlags = TimeOneNans)
    (hn : obj.dataBytes.length ≤ 254) :
    ∃ ret call, write_FlexRayData w le obj off = some (ret, some call) ∧
      call.bytes = 1 :: 0 :: (header_bytes le
        (set_header le 0 4 (obj.dataBytes.length / 2) 0 obj.messageId obj.crc) ++
          obj.dataBytes) := by
  obtain ⟨ret, call, hcall, -, -, hbytes⟩ :=
    flexray_frame_call w obj.toObjHeader 1 0
      (header_bytes le (set_header le 0 4 (obj.dataBytes.length / 2) 0 obj.messageId obj.crc))
      obj.dataBytes (List.replicate (261 - 7 - obj.dataBytes.length) 0) off 0 hres
      (header_bytes_length _ _) (by omega)
  refine ⟨ret, call, ?_, hbytes⟩
  unfold write_FlexRayData
  rw [write_FlexRayData_args_eq le obj off (by omega), Option.map_some']
  exact congrArg some hcall

/-- The packet `write(FlexRayVFrReceiveMsg*)` hands to the writer. -/
theorem write_FlexRayVFrReceiveMsg_call (w : WriterCall → Int) (le : Bool)
    (obj : FlexRayVFrReceiveMsg) (off : Nat)
    (hres : obj.objectFlags = TimeTenMics ∨ obj.objectFlags = TimeOneNans)
    (hn : obj.dataBytes.length ≤ 254) :
    ∃ ret call, write_FlexRayVFrReceiveMsg w le obj off = some (ret, some call) ∧
      call.header.captured_length = obj.dataBytes.length + 7 ∧
      call.data.length = 261 ∧
      call.bytes = set_measurment_header 0 .FlexRayFrame (obj.channelMask % 2 ^ 16) ::
        (if obj.frameFlags.testBit 6 then 0x10 else 0) ::
        (header_bytes le (set_header le 0 (set_header_flags_rcv_msg obj.frameFlags 0)
            (obj.dataBytes.length / 2) obj.cycle obj.frameId
            (set_header_crc (obj.channelMask % 2 ^ 16) obj.headerCrc1 obj.headerCrc2 0)) ++
          obj.dataBytes) := by
  obtain ⟨ret, call, hcall, -, hcap, -, hbuf⟩ :=
    write_packet_supported w 210 obj.toObjHeader (obj.dataBytes.length + 7)
      (set_measurment_header 0 .FlexRayFrame (obj.channelMask % 2 ^ 16) ::
        (if obj.frameFlags.testBit 6 then 0x10 else 0) ::
        (header_bytes le (set_header le 0 (set_header_flags_rcv_msg obj.frameFlags 0)
            (obj.dataBytes.length / 2) obj.cycle obj.frameId
            (set_header_crc (obj.channelMask % 2 ^ 16) obj.headerCrc1 obj.headerCrc2 0)) ++
          obj.dataBytes ++ List.replicate (261 - 7 - obj.dataBytes.length) 0))
      off 0 hres
  rw [Nat.mod_eq_of_lt (by omega)] at hcap
  refine ⟨ret, call, ?_, hcap, ?_, ?_⟩
  · unfold write_FlexRayVFrReceiveMsg
    rw [write_FlexRayVFrReceiveMsg_args_eq le obj off (by omega), Option.map_some']
    exact congrArg some hcall
  · rw [hbuf]
    simp only [List.length_cons, List.length_append, header_bytes_length,
      List.length_replicate]
    omega
  · unfold WriterCall.bytes
    rw [hbuf, hcap]
    have h := take_append_exact
      (set_measurment_header 0 .FlexRayFrame (obj.channelMask % 2 ^ 16) ::
        (if obj.frameFlags.testBit 6 then 0x10 else 0) ::
        (header_bytes le (set_header le 0 (set_header_flags_rcv_msg obj.frameFlags 0)
            (obj.dataBytes.length / 2) obj.cycle obj.frameId
            (set_header_crc (obj.channelMask % 2 ^ 16) obj.headerCrc1 obj.headerCrc2 0)) ++
          obj.dataBytes))
      (List.replicate (261 - 7 - obj.dataBytes.length) 0) (obj.dataBytes.length + 7)
      (by simp only [List.length_cons, List.length_append, header_bytes_length]; omega)
    simpa using h

/-- The packet `write(FlexRayVFrReceiveMsgEx*)` hands to the writer: the vector
it built, whole. -/
theorem write_FlexRayVFrReceiveMsgEx_call (w : WriterCall → Int) (le : Bool)
    (obj : FlexRayVFrReceiveMsgEx) (off : Nat)
    (hres : obj.objectFlags = TimeTenMics ∨ obj.objectFlags = TimeOneNans)
    (hn : obj.dataBytes.length + 7 < 2 ^ 32) :
    ∃ ret call, write_FlexRayVFrReceiveMsgEx w le obj off = some (ret, some call) ∧
      call.header.captured_length = obj.dataBytes.length + 7 ∧
      call.bytes = call.data ∧
      call.data = set_measurment_header 0 .FlexRayFrame (obj.channelMask % 2 ^ 16) ::
        (if obj.frameFlags.testBit 6 then 0x10 else 0) ::
        (header_bytes le (set_header le 0 (set_header_flags_rcv_msg obj.frameFlags 0)
            (obj.dataBytes.length / 2) obj.cycle obj.frameId
            (set_header_crc (obj.channelMask % 2 ^ 16) obj.headerCrc1 obj.headerCrc2 0)) ++
          obj.dataBytes) := by
  obtain ⟨ret, call, hcall, -, hcap, -, hbuf⟩ :=
    write_packet_supported w 210 obj.toObjHeader (obj.dataBytes.length + 7)
      (set_measurment_header 0 .FlexRayFrame (obj.channelMask % 2 ^ 16) ::
        (if obj.frameFlags.testBit 6 then 0x10 else 0) ::
        (header_bytes le (set_header le 0 (set_header_flags_rcv_msg obj.frameFlags 0)
            (obj.dataBytes.length / 2) obj.cycle obj.frameId
            (set_header_crc (obj.channelMask % 2 ^ 16) obj.headerCrc1 obj.headerCrc2 0)) ++
          obj.dataBytes ++ List.replicate 0 0))
      off 0 hres
  rw [Nat.mod_eq_of_lt hn] at hcap
  simp only [List.replicate_zero, List.append_nil] at hbuf
  refine ⟨ret, call, ?_, hcap, ?_, hbuf⟩
  · unfold write_FlexRayVFrReceiveMsgEx
    rw [write_FlexRayVFrReceiveMsgEx_args_eq le obj off]
    exact congrArg some hcall
  · unfold WriterCall.bytes
    rw [hcap, hbuf]
    apply List.take_of_length_le
    simp only [List.length_cons, List.length_append, header_bytes_length]
    omega

/-! ### `CanFrame` identifier lemmas -/

/-- The value read back from four bytes, as a sum. -/
theorem ntoh32_bytes_sum (b0 b1 b2 b3 : Nat) (h1 : b1 < 256) (h2 : b2 < 256) (h3 : b3 < 256) :
    ntoh32_bytes b0 b1 b2 b3 = b0 * 2 ^ 24 + b1 * 2 ^ 16 + b2 * 2 ^ 8 + b3 := by
  unfold ntoh32_bytes
  rw [Nat.or_assoc, Nat.or_assoc, shl_or_eq_add b2 b3 8 (by omega),
    shl_or_eq_add b1 _ 16 (by omega), shl_or_eq_add b0 _ 24 (by omega)]
  omega

/-- The three flag bits of a byte have no part below bit 5. -/
theorem flag_bits_low (a : Nat) : (a &&& 0xE0) % 32 = 0 ∧ a &&& 0xE0 < 256 := by
  constructor
  · have h : (a &&& 0xE0) &&& (2 ^ 5 - 1) = 0 := by
      rw [Nat.and_assoc]
      exact Nat.and_zero a
    rw [Nat.and_pow_two_sub_one_eq_mod] at h
    exact h
  · exact Nat.and_lt_two_pow a (by decide : 0xE0 < 2 ^ 8)

theorem id_or_flags (x f : Nat) (hx : x < 32) (hf : f % 32 = 0) : x ||| f = f + x := by
  have h := Nat.mul_add_lt_is_or (i := 5) (b := x) (by omega) (f / 32)
  have e : 2 ^ 5 * (f / 32) = f := by omega
  rw [e] at h
  rw [Nat.or_comm, h]

theorem mask_testBit (y k : Nat) : (y &&& 2 ^ k != 0) = y.testBit k := by
  have h := has_flag_testBit y k
  unfold to_bool HAS_FLAG at h
  rw [Nat.one_shiftLeft] at h
  exact h

/-- OR-ing an identifier byte below 32 onto the flag bits of a byte keeps each
of the bits 5, 6 and 7. -/
theorem flag_bit_kept (x a k : Nat) (hx : x < 32) (hk : 5 ≤ k) (hk8 : k < 8) :
    ((x ||| a &&& 0xE0) &&& 2 ^ k != 0) = (a &&& 2 ^ k != 0) := by
  rw [mask_testBit, mask_testBit, Nat.testBit_or, Nat.testBit_and]
  have h1 : x.testBit k = false :=
    Nat.testBit_lt_two_pow (Nat.lt_of_lt_of_le hx (by
      calc 32 = 2 ^ 5 := rfl
        _ ≤ 2 ^ k := Nat.pow_le_pow_right (by decide) hk))
  have h2 : Nat.testBit 0xE0 k = true := by
    interval_cases k <;> decide
  rw [h1, h2]
  simp

/-! ### `set_header` call lemmas -/

theorem set_header_flags_le (frameState : Nat) : set_header_flags frameState 0 ≤ 0x1F := by
  unfold set_header_flags
  simp only [has_flag_testBit]
  cases frameState.testBit 0 <;> cases frameState.testBit 1 <;> cases frameState.testBit 2 <;>
    cases frameState.testBit 3 <;> cases frameState.testBit 4 <;> decide

theorem set_header_flags_rcv_msg_le (frameFlags : Nat) :
    set_header_flags_rcv_msg frameFlags 0 ≤ 0x1F := by
  unfold set_header_flags_rcv_msg
  simp only [has_flag_testBit]
  cases frameFlags.testBit 0 <;> cases frameFlags.testBit 2 <;> cases frameFlags.testBit 3 <;>
    cases frameFlags.testBit 4 <;> cases frameFlags.testBit 5 <;> decide

/-- Where the header flags of each call come from. -/
theorem set_header_call_flags (r : FlexRayHeaderRecord) :
    r.set_header_call.headerFlags = 0x04 ∨ r.set_header_call.headerFlags = 0x06 ∨
      (∃ frameState, r.set_header_call.headerFlags = set_header_flags frameState 0) ∨
      (∃ frameFlags, r.set_header_call.headerFlags = set_header_flags_rcv_msg frameFlags 0) := by
  rcases r with r | obj
  · cases r with
    | data obj => exact Or.inl rfl
    | sync obj => exact Or.inr (Or.inl rfl)
    | cycle obj => exact Or.inl rfl
    | message obj => exact Or.inr (Or.inr (Or.inl ⟨obj.frameState, rfl⟩))
    | startCycle obj => exact Or.inl rfl
    | rcvMessage obj => exact Or.inr (Or.inr (Or.inr ⟨obj.frameFlags, rfl⟩))
    | rcvMessageEx obj => exact Or.inr (Or.inr (Or.inr ⟨obj.frameFlags, rfl⟩))
  · exact Or.inl rfl

theorem set_header_call_flags_le (r : FlexRayHeaderRecord) :
    r.set_header_call.headerFlags ≤ 0x1F := by
  rcases set_header_call_flags r with h | h | ⟨fs, h⟩ | ⟨ff, h⟩
  · rw [h]; decide
  · rw [h]; decide
  · rw [h]; exact set_header_flags_le fs
  · rw [h]; exact set_header_flags_rcv_msg_le ff

/-- A call of `set_header` with header flags of at most five bits composes a
value below 2^40, the sum of its fields. -/
theorem composed_of_flags_le (c : SetHeaderCall) (hf : c.headerFlags ≤ 0x1F) :
    c.composed = c.headerFlags * 2 ^ 35 + (c.frameId % 2 ^ 11) * 2 ^ 24 +
        (c.payloadLength % 2 ^ 7) * 2 ^ 17 + (c.headerCrc % 2 ^ 11) * 2 ^ 6 +
        c.cycleCount % 2 ^ 6 ∧
      c.composed < 2 ^ 40 := by
  unfold SetHeaderCall.composed
  rw [set_header_compose_sum]
  constructor <;> omega

/-- The five header bytes each frame-bearing writer puts into its buffer are
those of its call of `set_header`. -/
theorem write_frame_record_header (w : WriterCall → Int) (le : Bool) (r : FlexRayFrameRecord)
    (off : Nat) (hroom : ∀ k, r.room = some k → r.dataBytes.length ≤ k) :
    ∃ m e tail, write_frame_record w le r off =
      some (write_packet w 210 r.oh (r.dataBytes.length + 7)
        (m :: e :: (header_bytes le (r.set_header_call.header le) ++ r.dataBytes ++ tail))
        off 0) := by
  cases r with
  | data obj =>
    have hfit : obj.dataBytes.length + 7 ≤ 261 := by
      have := hroom _ rfl
      simp only [FlexRayFrameRecord.dataBytes] at this
      omega
    exact ⟨_, _, _, by
      simp only [write_frame_record, write_FlexRayData, write_FlexRayData_args_eq le obj off hfit]
      rfl⟩
  | sync obj =>
    have hfit : obj.dataBytes.length + 7 ≤ 261 := by
      have := hroom _ rfl
      simp only [FlexRayFrameRecord.dataBytes] at this
      omega
    exact ⟨_, _, _, by
      simp only [write_frame_record, write_FlexRaySync, write_FlexRaySync_args_eq le obj off hfit]
      rfl⟩
  | cycle obj =>
    have hfit : obj.dataBytes.length + 7 ≤ 261 := by
      have := hroom _ rfl
      simp only [FlexRayFrameRecord.dataBytes] at this
      omega
    exact ⟨_, _, _, by
      simp only [write_frame_record, write_FlexRayV6StartCycleEvent, write_FlexRayV6StartCycleEvent_args_eq le obj off hfit]
      rfl⟩
  | message obj =>
    have hfit : obj.dataBytes.length + 7 ≤ 261 := by
      have := hroom _ rfl
      simp only [FlexRayFrameRecord.dataBytes] at this
      omega
    exact ⟨_, _, _, by
      simp only [write_frame_record, write_FlexRayV6Message, write_FlexRayV6Message_args_eq le obj off hfit]
      rfl⟩
  | startCycle obj =>
    have hfit : obj.dataBytes.length + 7 ≤ 19 := by
      have := hroom _ rfl
      simp only [FlexRayFrameRecord.dataBytes] at this
      omega
    exact ⟨_, _, _, by
      simp only [write_frame_record, write_FlexRayVFrStartCycle, write_FlexRayVFrStartCycle_args_eq le obj off hfit]
      rfl⟩
  | rcvMessage obj =>
    have hfit : obj.dataBytes.length + 7 ≤ 261 := by
      have := hroom _ rfl
      simp only [FlexRayFrameRecord.dataBytes] at this
      omega
    exact ⟨_, _, _, by
      simp only [write_frame_record, write_FlexRayVFrReceiveMsg, write_FlexRayVFrReceiveMsg_args_eq le obj off hfit]
      rfl⟩
  | rcvMessageEx obj =>
    exact ⟨_, _, _, by
      simp only [write_frame_record, write_FlexRayVFrReceiveMsgEx,
        write_FlexRayVFrReceiveMsgEx_args_eq le obj off]
      rfl⟩

/-- The five header bytes the error writer puts into its buffer are those of
its call of `set_header`. -/
theorem write_FlexRayVFrError_header (le : Bool) (obj : FlexRayVFrError) (off : Nat) :
    write_FlexRayVFrError_args le obj off = some
      { link_type := 210, oh := obj.toObjHeader, length := 7,
        data := set_measurment_header 0 .FlexRayFrame (obj.channelMask % 2 ^ 16) :: 0x02 ::
          header_bytes le ((write_FlexRayVFrError_set_header obj).header le),
        date_offset_ns := off, flags := 0 } :=
  write_FlexRayVFrError_args_eq le obj off

/-! ### Message frames with a 32-bit identifier -/

/-- The frame `write(CanMessage*)` hands to the writer. -/
theorem write_CanMessage_call (w : WriterCall → Int) (obj : CanMessage) (off : Nat)
    (hres : obj.objectFlags = TimeTenMics ∨ obj.objectFlags = TimeOneNans)
    (hfit : obj.data.length ≤ 64) :
    ∃ ret call, write_CanMessage w obj off = some (ret, some call) ∧
      call.data.getD 0 0 =
        (((obj.id % 2 ^ 32) >>> 24 % 256 ||| 0 &&& 0xE0) &&& 0xBF |||
          bool_int (obj.flags.testBit 7) <<< 6) % 256 := by
  obtain ⟨ret, call, hcall, -, -, -, hbuf⟩ :=
    write_packet_supported w 227 obj.toObjHeader ((obj.dlc % 256 + 8) % 256)
      ((((obj.id % 2 ^ 32) >>> 24 % 256 ||| 0 &&& 0xE0) &&& 0xBF |||
          bool_int (obj.flags.testBit 7) <<< 6) % 256 ::
        (obj.id % 2 ^ 32) >>> 16 % 256 :: (obj.id % 2 ^ 32) >>> 8 % 256 ::
        (obj.id % 2 ^ 32) % 256 :: obj.dlc % 256 :: 0 :: 0 :: 0 ::
        (obj.data ++ List.replicate (64 - obj.data.length) 0))
      off (if obj.flags.testBit 0 then 2 else 1) hres
  refine ⟨ret, call, ?_, by rw [hbuf]; rfl⟩
  unfold write_CanMessage
  rw [write_CanMessage_args_eq obj off hfit, Option.map_some']
  exact congrArg some hcall

/-- The frame `write(CanFdMessage*)` hands to the writer. -/
theorem write_CanFdMessage_call (w : WriterCall → Int) (obj : CanFdMessage) (off : Nat)
    (hres : obj.objectFlags = TimeTenMics ∨ obj.objectFlags = TimeOneNans)
    (hfit : obj.data.length ≤ 64) :
    ∃ ret call, write_CanFdMessage w obj off = some (ret, some call) ∧
      call.data.getD 0 0 =
        (((obj.id % 2 ^ 32) >>> 24 % 256 ||| 0 &&& 0xE0) &&& 0xBF |||
          bool_int (obj.flags.testBit 7) <<< 6) % 256 := by
  obtain ⟨ret, call, hcall, -, -, -, hbuf⟩ :=
    write_packet_supported w 227 obj.toObjHeader ((obj.validDataBytes % 256 + 8) % 256)
      ((((obj.id % 2 ^ 32) >>> 24 % 256 ||| 0 &&& 0xE0) &&& 0xBF |||
          bool_int (obj.flags.testBit 7) <<< 6) % 256 ::
        (obj.id % 2 ^ 32) >>> 16 % 256 :: (obj.id % 2 ^ 32) >>> 8 % 256 ::
        (obj.id % 2 ^ 32) % 256 :: obj.validDataBytes % 256 ::
        ((0 &&& 0xFD ||| bool_int (obj.canFdFlags.testBit 2) <<< 1) % 256 &&& 0xFE |||
          bool_int (obj.canFdFlags.testBit 1) <<< 0) % 256 :: 0 :: 0 ::
        (obj.data ++ List.replicate (64 - obj.data.length) 0))
      off (if obj.flags.testBit 0 then 2 else 1) hres
  refine ⟨ret, call, ?_, by rw [hbuf]; rfl⟩
  unfold write_CanFdMessage
  rw [write_CanFdMessage_args_eq obj off hfit, Option.map_some']
  exact congrArg some hcall

/-- The frame `write(CanFdMessage64*)` hands to the writer. -/
theorem write_CanFdMessage64_call (w : WriterCall → Int) (obj : CanFdMessage64) (off : Nat)
    (hres : obj.objectFlags = TimeTenMics ∨ obj.objectFlags = TimeOneNans)
    (hfit : obj.data.length ≤ 64) :
    ∃ ret call, write_CanFdMessage64 w obj off = some (ret, some call) ∧
      call.data.getD 0 0 =
        (((obj.id % 2 ^ 32) >>> 24 % 256 ||| 0 &&& 0xE0) &&& 0xBF |||
          bool_int (obj.flags.testBit 4) <<< 6) % 256 := by
  obtain ⟨ret, call, hcall, -, -, -, hbuf⟩ :=
    write_packet_supported w 227 obj.toObjHeader ((obj.validDataBytes % 256 + 8) % 256)
      ((((obj.id % 2 ^ 32) >>> 24 % 256 ||| 0 &&& 0xE0) &&& 0xBF |||
          bool_int (obj.flags.testBit 4) <<< 6) % 256 ::
        (obj.id % 2 ^ 32) >>> 16 % 256 :: (obj.id % 2 ^ 32) >>> 8 % 256 ::
        (obj.id % 2 ^ 32) % 256 :: obj.validDataBytes % 256 ::
        ((0 &&& 0xFD ||| bool_int (obj.flags.testBit 14) <<< 1) % 256 &&& 0xFE |||
          bool_int (obj.flags.testBit 13) <<< 0) % 256 :: 0 :: 0 ::
        (obj.data ++ List.replicate (64 - obj.data.length) 0))
      off 0 hres
  refine ⟨ret, call, ?_, by rw [hbuf]; rfl⟩
  unfold write_CanFdMessage64
  rw [write_CanFdMessage64_args_eq obj off hfit, Option.map_some']
  exact congrArg some hcall

/-- Bits 7 and 5 of byte 0 of a message frame are bits 31 and 29 of the
record's identifier; bit 6 is the argument of the `rtr` setter, which runs
after the `id` setter. -/
theorem can_byte0_flag_bits (v : Nat) (r : Bool) :
    ((((v % 2 ^ 32) >>> 24 % 256 ||| 0 &&& 0xE0) &&& 0xBF ||| bool_int r <<< 6) % 256
        &&& 0x80 != 0) = v.testBit 31 ∧
      ((((v % 2 ^ 32) >>> 24 % 256 ||| 0 &&& 0xE0) &&& 0xBF ||| bool_int r <<< 6) % 256
        &&& 0x20 != 0) = v.testBit 29 ∧
      ((((v % 2 ^ 32) >>> 24 % 256 ||| 0 &&& 0xE0) &&& 0xBF ||| bool_int r <<< 6) % 256
        &&& 0x40 != 0) = r := by
  have h256 : (256 : Nat) = 2 ^ 8 := by decide
  have hr7 : (bool_int r <<< 6).testBit 7 = false := by cases r <;> decide
  have hr5 : (bool_int r <<< 6).testBit 5 = false := by cases r <;> decide
  have hr6 : (bool_int r <<< 6).testBit 6 = r := by cases r <;> decide
  have hm7 : Nat.testBit 0xBF 7 = true := by decide
  have hm5 : Nat.testBit 0xBF 5 = true := by decide
  have hm6 : Nat.testBit 0xBF 6 = false := by decide
  have hz : (0 : Nat) &&& 0xE0 = 0 := Nat.zero_and _
  refine ⟨?_, ?_, ?_⟩
  · rw [show (0x80 : Nat) = 2 ^ 7 from rfl, mask_testBit, hz, Nat.or_zero, h256,
      Nat.testBit_mod_two_pow, Nat.testBit_or, Nat.testBit_and, Nat.testBit_mod_two_pow,
      Nat.testBit_shiftRight, Nat.testBit_mod_two_pow, hr7, hm7]
    simp
  · rw [show (0x20 : Nat) = 2 ^ 5 from rfl, mask_testBit, hz, Nat.or_zero, h256,
      Nat.testBit_mod_two_pow, Nat.testBit_or, Nat.testBit_and, Nat.testBit_mod_two_pow,
      Nat.testBit_shiftRight, Nat.testBit_mod_two_pow, hr5, hm5]
    simp
  · rw [show (0x40 : Nat) = 2 ^ 6 from rfl, mask_testBit, hz, Nat.or_zero, h256,
      Nat.testBit_mod_two_pow, Nat.testBit_or, Nat.testBit_and, hr6, hm6]
    simp

/-- The top three bits of byte 0 after the `id` setter. -/
theorem id_set_top_bits (x a : Nat) :
    (x ||| a &&& 0xE0) &&& 0xE0 = a &&& 0xE0 ||| x &&& 0xE0 := by
  apply Nat.eq_of_testBit_eq
  intro i
  simp only [Nat.testBit_and, Nat.testBit_or]
  cases x.testBit i <;> cases a.testBit i <;> cases Nat.testBit 0xE0 i <;> rfl

theorem or_flags_mod_32 (x a : Nat) : (x ||| a &&& 0xE0) % 32 = x % 32 := by
  have h5 : ∀ y : Nat, y &&& (2 ^ 5 - 1) = y % 2 ^ 5 :=
    fun y => Nat.and_pow_two_sub_one_eq_mod y 5
  have h : (x ||| a &&& 0xE0) &&& (2 ^ 5 - 1) = x &&& (2 ^ 5 - 1) := by
    apply Nat.eq_of_testBit_eq
    intro i
    simp only [Nat.testBit_and, Nat.testBit_or, Nat.testBit_two_pow_sub_one]
    by_cases hi : i < 5
    · have h0 : Nat.testBit 0xE0 i = false := by interval_cases i <;> decide
      simp [h0]
    · simp [hi]
  rw [h5, h5] at h
  exact h

/-- The identifier read back after the `id` setter: the low 29 bits of the
value set. -/
theorem id_after_id_set (a0 v : Nat) :
    ntoh32_bytes (v >>> 24 % 256 ||| a0 &&& 0xE0) (v >>> 16 % 256) (v >>> 8 % 256) (v % 256)
      &&& 0x1fffffff = v &&& 0x1FFFFFFF := by
  have hm : ∀ x : Nat, x &&& 0x1fffffff = x % 2 ^ 29 :=
    fun x => Nat.and_pow_two_sub_one_eq_mod x 29
  have hsum := ntoh32_bytes_sum (v >>> 24 % 256 ||| a0 &&& 0xE0) (v >>> 16 % 256)
    (v >>> 8 % 256) (v % 256) (Nat.mod_lt _ (by decide)) (Nat.mod_lt _ (by decide))
    (Nat.mod_lt _ (by decide))
  have h32 := or_flags_mod_32 (v >>> 24 % 256) a0
  rw [hsum, hm, hm]
  simp only [Nat.shiftRight_eq_div_pow] at h32 ⊢
  generalize v / 2 ^ 24 % 256 ||| a0 &&& 0xE0 = X at h32 ⊢
  omega

/-! ## Timestamp resolution (`write_packet`) -/

/-- C1, the code at the failing input: for a record tagged `TimeTenMics` the
interface `write_packet` hands to the writer has timestamp resolution
1 000 000 000, not the 100 000 of ten-microsecond ticks, because the case
falls through into the `TimeOneNans` case. -/
theorem write_packet_ten_mics_resolution (w : WriterCall → Int) (link ch T len : Nat)
    (data : List Nat) (off flags : Nat) :
    (write_packet w link ⟨ch, TimeTenMics, T⟩ len data off flags).2.map
      (fun c => c.interface.timestamp_resolution) = some 1000000000 := by
  simp [write_packet, assign, NANOS_PER_SEC]

/-- C2, the code at the failing input: for a record tagged `TimeTenMics` with
tick count `T` and start epoch `E` the emitted absolute timestamp is
`(T + E) mod 2^64` nanoseconds, the same as for `TimeOneNans`, and not
`T * 10 000 + E`; for one tick and epoch 0 it is 1 and not 10 000. -/
theorem write_packet_ten_mics_timestamp (w : WriterCall → Int) (link ch T len : Nat)
    (data : List Nat) (E flags : Nat) :
    (write_packet w link ⟨ch, TimeTenMics, T⟩ len data E flags).2.map
        WriterCall.timestamp_ns = some ((T + E) % 2 ^ 64) ∧
      (write_packet w link ⟨ch, TimeOneNans, T⟩ len data E flags).2.map
        WriterCall.timestamp_ns = some ((T + E) % 2 ^ 64) ∧
      (write_packet w link ⟨ch, TimeTenMics, 1⟩ len data 0 flags).2.map
        WriterCall.timestamp_ns ≠ some (1 * (NANOS_PER_SEC / 100000) + 0) := by
  refine ⟨?_, ?_, ?_⟩
  · simp only [write_packet, assign, NANOS_PER_SEC, WriterCall.timestamp_ns, if_true,
      Option.map_some', Nat.div_self (by decide : 0 < 1000000000), Nat.one_mul]
    exact congrArg some (Nat.div_add_mod' _ _)
  · have h1 : ¬ (TimeOneNans = TimeTenMics) := by decide
    simp only [write_packet, assign, NANOS_PER_SEC, WriterCall.timestamp_ns, if_true, h1,
      if_false, Option.map_some', Nat.div_self (by decide : 0 < 1000000000), Nat.one_mul]
    exact congrArg some (Nat.div_add_mod' _ _)
  · simp [write_packet, assign, NANOS_PER_SEC, WriterCall.timestamp_ns]

/-- C3: for a record whose resolution tag is neither `TimeTenMics` nor
`TimeOneNans`, `write_packet` returns -3 and makes no call to the packet
writer. -/
theorem write_packet_unsupported_resolution (w : WriterCall → Int) (link : Nat)
    (oh : ObjHeader) (len : Nat) (data : List Nat) (off flags : Nat)
    (h1 : oh.objectFlags ≠ TimeTenMics) (h2 : oh.objectFlags ≠ TimeOneNans) :
    write_packet w link oh len data off flags = (-3, none) := by
  simp [write_packet, h1, h2]

/-- C3 at a concrete record: resolution tag 0, a writer that would return 0. -/
theorem write_packet_unsupported_resolution_witness :
    ((0 : Nat) ≠ TimeTenMics ∧ (0 : Nat) ≠ TimeOneNans) ∧
      write_packet (fun _ => 0) LINKTYPE_CAN_SOCKETCAN ⟨1, 0, 5⟩ 12 [1, 2, 3] 7 DIR_IN
        = (-3, none) :=
  ⟨⟨by decide, by decide⟩,
    write_packet_unsupported_resolution (fun _ => 0) LINKTYPE_CAN_SOCKETCAN ⟨1, 0, 5⟩ 12
      [1, 2, 3] 7 DIR_IN (by decide) (by decide)⟩

/-! ## CAN encoders -/

/-- C4: for a classic CAN message record (`CanMessage`, `CanMessage2`) with a
supported resolution tag, `id < 2^29`, `dlc <= 8` and at least `dlc` data
bytes, the packet handed to the writer has link type 227 and length
`dlc + 8`; its bytes are the identifier in big-endian order, with bit 6 of
byte 0 set exactly when bit 7 of `flags` is set and bits 7 and 5 clear, then
`dlc`, three zero bytes and the first `dlc` data bytes. -/
theorem write_CanMessage_packet (w : WriterCall → Int) (obj : CanMessage) (off : Nat)
    (write : (WriterCall → Int) → CanMessage → Nat → Option (Int × Option WriterCall))
    (hwrite : write = write_CanMessage ∨ write = write_CanMessage2)
    (hres : obj.objectFlags = TimeTenMics ∨ obj.objectFlags = TimeOneNans)
    (hid : obj.id < 2 ^ 29) (hdlc : obj.dlc ≤ 8) (hdata : obj.dlc ≤ obj.data.length)
    (hfit : obj.data.length ≤ 64) :
    ∃ ret call, write w obj off = some (ret, some call) ∧
      call.interface.link_type = 227 ∧
      call.header.captured_length = obj.dlc + 8 ∧
      call.bytes.length = obj.dlc + 8 ∧
      call.bytes =
        [obj.id >>> 24 ||| (if obj.flags.testBit 7 then 0x40 else 0), obj.id >>> 16 % 256,
          obj.id >>> 8 % 256, obj.id % 256, obj.dlc, 0, 0, 0] ++ obj.data.take obj.dlc ∧
      (call.bytes.getD 0 0).testBit 6 = obj.flags.testBit 7 ∧
      (call.bytes.getD 0 0).testBit 7 = false ∧
      (call.bytes.getD 0 0).testBit 5 = false ∧
      call.bytes.getD 0 0 &&& 0x1F = obj.id >>> 24 := by
  have hw : write w obj off =
      (write_CanMessage_args obj off).map (PacketArgs.run w) := by
    rcases hwrite with h | h <;> subst h
    · rfl
    · exact congrArg (Option.map (PacketArgs.run w)) (write_CanMessage2_args_eq obj off)
  rw [hw, write_CanMessage_args_eq obj off hfit, Option.map_some']
  obtain ⟨ret, call, hcall, hlink, hcap, -, hbuf⟩ :=
    write_packet_supported w 227 obj.toObjHeader ((obj.dlc % 256 + 8) % 256)
      ((((obj.id % 2 ^ 32) >>> 24 % 256 ||| 0 &&& 0xE0) &&& 0xBF |||
          bool_int (obj.flags.testBit 7) <<< 6) % 256 ::
        (obj.id % 2 ^ 32) >>> 16 % 256 :: (obj.id % 2 ^ 32) >>> 8 % 256 ::
        (obj.id % 2 ^ 32) % 256 :: obj.dlc % 256 :: 0 :: 0 :: 0 ::
        (obj.data ++ List.replicate (64 - obj.data.length) 0))
      off (if obj.flags.testBit 0 then 2 else 1) hres
  have hid32 : obj.id % 2 ^ 32 = obj.id := Nat.mod_eq_of_lt (by omega)
  have hx : obj.id >>> 24 < 32 := by
    rw [Nat.shiftRight_eq_div_pow]
    omega
  obtain ⟨hb0, hb6, hb7, hb5, hlow⟩ := can_byte0_of_lt (obj.id >>> 24) hx (obj.flags.testBit 7)
  have hlen : (obj.dlc % 256 + 8) % 256 % 2 ^ 32 = obj.dlc + 8 := by omega
  have hdl : obj.dlc % 256 = obj.dlc := by omega
  rw [hlen] at hcap
  have hbytes : call.bytes =
      [obj.id >>> 24 ||| (if obj.flags.testBit 7 then 0x40 else 0), obj.id >>> 16 % 256,
        obj.id >>> 8 % 256, obj.id % 256, obj.dlc, 0, 0, 0] ++ obj.data.take obj.dlc := by
    unfold WriterCall.bytes
    rw [hbuf, hcap, hid32, hb0, hdl]
    simp only [List.take_succ_cons, List.cons_append, List.nil_append, List.cons.injEq,
      true_and]
    rw [List.take_append_of_le_length hdata]
  refine ⟨ret, call, by rw [← hcall]; rfl, hlink, hcap, ?_, hbytes, ?_, ?_, ?_, ?_⟩
  · rw [hbytes]
    simp only [List.length_append, List.length_cons, List.length_nil, List.length_take]
    omega
  · rw [hbytes]; exact hb6
  · rw [hbytes]; exact hb7
  · rw [hbytes]; exact hb5
  · rw [hbytes]; exact hlow

/-- C4 at the spec's example: id 0x123, RTR clear, dlc 4, data 1 2 3 4 give the
bytes 00 00 01 23 04 00 00 00 01 02 03 04. -/
theorem write_CanMessage_packet_witness :
    ∃ ret call,
      write_CanMessage (fun _ => 0)
        { channel := 1, objectFlags := TimeOneNans, objectTimeStamp := 5, flags := 0, dlc := 4,
          id := 0x123, data := [1, 2, 3, 4] } 0 = some (ret, some call) ∧
      call.bytes = [0x00, 0x00, 0x01, 0x23, 0x04, 0, 0, 0, 1, 2, 3, 4] := by
  obtain ⟨ret, call, hcall, -, -, -, hbytes, -⟩ :=
    write_CanMessage_packet (fun _ => 0)
      { channel := 1, objectFlags := TimeOneNans, objectTimeStamp := 5, flags := 0, dlc := 4,
        id := 0x123, data := [1, 2, 3, 4] } 0 write_CanMessage (Or.inl rfl) (Or.inr rfl)
      (by decide) (by decide) (by decide) (by decide)
  exact ⟨ret, call, hcall, hbytes.trans (by decide)⟩

/-- C5: for a CAN error record (`CanErrorFrame`, `CanErrorFrameExt`,
`CanFdErrorFrame64`) with a supported resolution tag, whatever its channel and
fields, the packet handed to the writer has link type 227 and length 16,
byte 0 is 0x20, byte 4 is 8 and the other fourteen bytes are zero; the
direction flag passed to `write_packet` is 0. -/
theorem write_can_error_packet (w : WriterCall → Int) (obj : CanError) (off : Nat)
    (write : (WriterCall → Int) → CanError → Nat → Int × Option WriterCall)
    (hwrite : write = write_CanErrorFrame ∨ write = write_CanErrorFrameExt ∨
      write = write_CanFdErrorFrame64)
    (hres : obj.objectFlags = TimeTenMics ∨ obj.objectFlags = TimeOneNans) :
    (∃ ret call, write w obj off = (ret, some call) ∧
      call.interface.link_type = LINKTYPE_CAN_SOCKETCAN ∧
      call.interface.link_type = 227 ∧
      call.header.captured_length = 16 ∧
      call.bytes = [0x20, 0, 0, 0, 8, 0, 0, 0, 0, 0, 0, 0, 0, 0, 0, 0]) ∧
    write w obj off = (write_can_error_args obj off).run w ∧
    (write_can_error_args obj off).flags = 0 := by
  have hw : write w obj off = (write_can_error_args obj off).run w := by
    rcases hwrite with h | h | h <;> subst h <;> rfl
  refine ⟨?_, hw, rfl⟩
  rw [hw, write_can_error_args_eq]
  obtain ⟨ret, call, hcall, hlink, hcap, -, hbuf⟩ :=
    write_packet_supported w 227 obj.toObjHeader 16
      (0x20 :: 0 :: 0 :: 0 :: 8 :: 0 :: 0 :: 0 :: List.replicate 64 0) off 0 hres
  refine ⟨ret, call, hcall, hlink, hlink, hcap, ?_⟩
  unfold WriterCall.bytes
  rw [hbuf, hcap]
  decide

/-- C5 at a concrete record: a `CanErrorFrameExt` on channel 3 with nanosecond
ticks. -/
theorem write_can_error_packet_witness :
    ∃ ret call,
      write_CanErrorFrameExt (fun _ => 0)
        { channel := 3, objectFlags := TimeOneNans, objectTimeStamp := 9, fields := [7, 7] } 0
        = (ret, some call) ∧
      call.bytes = [0x20, 0, 0, 0, 8, 0, 0, 0, 0, 0, 0, 0, 0, 0, 0, 0] := by
  obtain ⟨⟨ret, call, hcall, -, -, -, hbytes⟩, -⟩ :=
    write_can_error_packet (fun _ => 0)
      { channel := 3, objectFlags := TimeOneNans, objectTimeStamp := 9, fields := [7, 7] } 0
      write_CanErrorFrameExt (Or.inr (Or.inl rfl)) (Or.inr rfl)
  exact ⟨ret, call, hcall, hbytes⟩

/-- C6, the code at the failing input: for a `CanFdMessage64` record with bit 6
of `flags` set the writer computes the direction `DIR_OUT`, and the direction
flag it passes to `write_packet` is 0; the same 0 is passed when neither bit 6
nor bit 7 is set and the computed direction is `DIR_IN`. -/
theorem write_CanFdMessage64_direction_not_passed :
    CanFdMessage64_direction
        { channel := 1, objectFlags := TimeOneNans, objectTimeStamp := 0, flags := 0x40,
          validDataBytes := 1, id := 0x123, data := [0xAB] } = DIR_OUT ∧
      (write_CanFdMessage64_args
        { channel := 1, objectFlags := TimeOneNans, objectTimeStamp := 0, flags := 0x40,
          validDataBytes := 1, id := 0x123, data := [0xAB] } 0).map PacketArgs.flags = some 0 ∧
      CanFdMessage64_direction
        { channel := 1, objectFlags := TimeOneNans, objectTimeStamp := 0, flags := 0,
          validDataBytes := 1, id := 0x123, data := [0xAB] } = DIR_IN ∧
      (write_CanFdMessage64_args
        { channel := 1, objectFlags := TimeOneNans, objectTimeStamp := 0, flags := 0,
          validDataBytes := 1, id := 0x123, data := [0xAB] } 0).map PacketArgs.flags = some 0 := by
  decide

/-- C7: for a `CanFdMessage` and for a `CanFdMessage64` record with a supported
resolution tag, at most 64 data bytes and an 8-bit `validDataBytes`, the frame
handed to the writer has bit 6 of byte 0 equal to the RTR source bit, bit 1 of
byte 5 equal to the ESI source bit, bit 0 of byte 5 equal to the BRS source
bit, every other bit of byte 5 zero, and byte 4 equal to `validDataBytes`.
The source bits are `flags` bit 7, `canFdFlags` bit 2 and `canFdFlags` bit 1
for `CanFdMessage`, and bits 4, 14 and 13 of `flags` for `CanFdMessage64`.
These bytes lie inside the emitted `validDataBytes + 8` bytes whenever
`validDataBytes <= 247`. -/
theorem write_CanFd_flag_bits (w : WriterCall → Int) (off : Nat)
    (obj : CanFdMessage) (obj64 : CanFdMessage64)
    (hres : obj.objectFlags = TimeTenMics ∨ obj.objectFlags = TimeOneNans)
    (hfit : obj.data.length ≤ 64) (hlen : obj.validDataBytes < 256)
    (hres64 : obj64.objectFlags = TimeTenMics ∨ obj64.objectFlags = TimeOneNans)
    (hfit64 : obj64.data.length ≤ 64) (hlen64 : obj64.validDataBytes < 256) :
    (∃ ret call, write_CanFdMessage w obj off = some (ret, some call) ∧
        (call.data.getD 0 0).testBit 6 = obj.flags.testBit 7 ∧
        (call.data.getD 5 0).testBit 1 = obj.canFdFlags.testBit 2 ∧
        (call.data.getD 5 0).testBit 0 = obj.canFdFlags.testBit 1 ∧
        call.data.getD 5 0 &&& 0xFC = 0 ∧
        call.data.getD 4 0 = obj.validDataBytes ∧
        (obj.validDataBytes ≤ 247 →
          call.header.captured_length = obj.validDataBytes + 8 ∧
          call.bytes.take 8 = call.data.take 8)) ∧
    (∃ ret call, write_CanFdMessage64 w obj64 off = some (ret, some call) ∧
        (call.data.getD 0 0).testBit 6 = obj64.flags.testBit 4 ∧
        (call.data.getD 5 0).testBit 1 = obj64.flags.testBit 14 ∧
        (call.data.getD 5 0).testBit 0 = obj64.flags.testBit 13 ∧
        call.data.getD 5 0 &&& 0xFC = 0 ∧
        call.data.getD 4 0 = obj64.validDataBytes ∧
        (obj64.validDataBytes ≤ 247 →
          call.header.captured_length = obj64.validDataBytes + 8 ∧
          call.bytes.take 8 = call.data.take 8)) := by
  constructor
  · unfold write_CanFdMessage
    rw [write_CanFdMessage_args_eq obj off hfit, Option.map_some']
    obtain ⟨ret, call, hcall, -, hcap, -, hbuf⟩ :=
      write_packet_supported w 227 obj.toObjHeader ((obj.validDataBytes % 256 + 8) % 256)
        ((((obj.id % 2 ^ 32) >>> 24 % 256 ||| 0 &&& 0xE0) &&& 0xBF |||
            bool_int (obj.flags.testBit 7) <<< 6) % 256 ::
          (obj.id % 2 ^ 32) >>> 16 % 256 :: (obj.id % 2 ^ 32) >>> 8 % 256 ::
          (obj.id % 2 ^ 32) % 256 :: obj.validDataBytes % 256 ::
          ((0 &&& 0xFD ||| bool_int (obj.canFdFlags.testBit 2) <<< 1) % 256 &&& 0xFE |||
            bool_int (obj.canFdFlags.testBit 1) <<< 0) % 256 :: 0 :: 0 ::
          (obj.data ++ List.replicate (64 - obj.data.length) 0))
        off (if obj.flags.testBit 0 then 2 else 1) hres
    obtain ⟨h1, h0, hrest⟩ := can_byte5 (obj.canFdFlags.testBit 2) (obj.canFdFlags.testBit 1)
    refine ⟨ret, call, by rw [← hcall]; rfl, ?_, ?_, ?_, ?_, ?_, ?_⟩
    · rw [hbuf]; exact can_byte0_rtr _ _
    · rw [hbuf]; exact h1
    · rw [hbuf]; exact h0
    · rw [hbuf]; exact hrest
    · rw [hbuf]; exact Nat.mod_eq_of_lt hlen
    · intro h247
      have hc : call.header.captured_length = obj.validDataBytes + 8 := by
        rw [hcap]; omega
      refine ⟨hc, ?_⟩
      unfold WriterCall.bytes
      rw [hc, List.take_take]
      congr 1
      omega
  · unfold write_CanFdMessage64
    rw [write_CanFdMessage64_args_eq obj64 off hfit64, Option.map_some']
    obtain ⟨ret, call, hcall, -, hcap, -, hbuf⟩ :=
      write_packet_supported w 227 obj64.toObjHeader ((obj64.validDataBytes % 256 + 8) % 256)
        ((((obj64.id % 2 ^ 32) >>> 24 % 256 ||| 0 &&& 0xE0) &&& 0xBF |||
            bool_int (obj64.flags.testBit 4) <<< 6) % 256 ::
          (obj64.id % 2 ^ 32) >>> 16 % 256 :: (obj64.id % 2 ^ 32) >>> 8 % 256 ::
          (obj64.id % 2 ^ 32) % 256 :: obj64.validDataBytes % 256 ::
          ((0 &&& 0xFD ||| bool_int (obj64.flags.testBit 14) <<< 1) % 256 &&& 0xFE |||
            bool_int (obj64.flags.testBit 13) <<< 0) % 256 :: 0 :: 0 ::
          (obj64.data ++ List.replicate (64 - obj64.data.length) 0))
        off 0 hres64
    obtain ⟨h1, h0, hrest⟩ := can_byte5 (obj64.flags.testBit 14) (obj64.flags.testBit 13)
    refine ⟨ret, call, by rw [← hcall]; rfl, ?_, ?_, ?_, ?_, ?_, ?_⟩
    · rw [hbuf]; exact can_byte0_rtr _ _
    · rw [hbuf]; exact h1
    · rw [hbuf]; exact h0
    · rw [hbuf]; exact hrest
    · rw [hbuf]; exact Nat.mod_eq_of_lt hlen64
    · intro h247
      have hc : call.header.captured_length = obj64.validDataBytes + 8 := by
        rw [hcap]; omega
      refine ⟨hc, ?_⟩
      unfold WriterCall.bytes
      rw [hc, List.take_take]
      congr 1
      omega

/-- C7 at concrete records: a `CanFdMessage` with RTR, ESI and BRS set, and a
`CanFdMessage64` with only ESI set. -/
theorem write_CanFd_flag_bits_witness :
    (∃ ret call,
      write_CanFdMessage (fun _ => 0)
        { channel := 1, objectFlags := TimeOneNans, objectTimeStamp := 0, flags := 0x80,
          canFdFlags := 0x06, validDataBytes := 2, id := 0x123,
          data := List.replicate 64 0 } 0 = some (ret, some call) ∧
      (call.data.getD 0 0).testBit 6 = true ∧ (call.data.getD 5 0).testBit 1 = true ∧
      (call.data.getD 5 0).testBit 0 = true ∧ call.data.getD 4 0 = 2) ∧
    (∃ ret call,
      write_CanFdMessage64 (fun _ => 0)
        { channel := 1, objectFlags := TimeTenMics, objectTimeStamp := 0, flags := 0x4000,
          validDataBytes := 2, id := 0x123, data := [5, 6] } 0 = some (ret, some call) ∧
      (call.data.getD 0 0).testBit 6 = false ∧ (call.data.getD 5 0).testBit 1 = true ∧
      (call.data.getD 5 0).testBit 0 = false ∧ call.data.getD 4 0 = 2) := by
  obtain ⟨⟨r, c, hc, h6, h1, h0, -, h4, -⟩, ⟨r64, c64, hc64, k6, k1, k0, -, k4, -⟩⟩ :=
    write_CanFd_flag_bits (fun _ => 0) 0
      { channel := 1, objectFlags := TimeOneNans, objectTimeStamp := 0, flags := 0x80,
        canFdFlags := 0x06, validDataBytes := 2, id := 0x123, data := List.replicate 64 0 }
      { channel := 1, objectFlags := TimeTenMics, objectTimeStamp := 0, flags := 0x4000,
        validDataBytes := 2, id := 0x123, data := [5, 6] }
      (Or.inr rfl) (by decide) (by decide) (Or.inl rfl) (by decide) (by decide)
  exact ⟨⟨r, c, hc, h6.trans (by decide), h1.trans (by decide), h0.trans (by decide), h4⟩,
    ⟨r64, c64, hc64, k6.trans (by decide), k1.trans (by decide), k0.trans (by decide), k4⟩⟩

/-! ## Ethernet encoders -/

/-- C8: for an `EthernetFrame` record with a supported resolution tag whose
payload fits the 1518-byte buffer, whatever the buffer held before, the
emitted bytes are destination MAC, source MAC, then TPID and TCI big-endian
exactly when `tpid` is not 0, then the ethertype big-endian, then the payload;
the emitted length is the payload length plus 14 without and plus 18 with the
VLAN tag, and the ethertype stands at offsets 12-13 without and 16-17 with
it. -/
theorem write_EthernetFrame_bytes (w : WriterCall → Int) (eth : List Nat)
    (obj : EthernetFrame) (off : Nat)
    (hres : obj.objectFlags = TimeTenMics ∨ obj.objectFlags = TimeOneNans)
    (heth : eth.length = 1518) (hdst : obj.destinationAddress.length = 6)
    (hsrc : obj.sourceAddress.length = 6)
    (hfit : obj.payLoad.length + (if obj.tpid = 0 then 14 else 18) ≤ 1518) :
    ∃ ret call, write_EthernetFrame w eth obj off = some (ret, some call) ∧
      call.interface.link_type = LINKTYPE_ETHERNET ∧
      call.bytes =
        obj.destinationAddress ++ obj.sourceAddress ++
          (if obj.tpid = 0 then []
            else [obj.tpid >>> 8 % 256, obj.tpid % 256, obj.tci >>> 8 % 256, obj.tci % 256]) ++
          [obj.type >>> 8 % 256, obj.type % 256] ++ obj.payLoad ∧
      call.header.captured_length = obj.payLoad.length + (if obj.tpid = 0 then 14 else 18) ∧
      call.bytes.length = call.header.captured_length ∧
      (call.bytes.drop (if obj.tpid = 0 then 12 else 16)).take 2 =
        [obj.type >>> 8 % 256, obj.type % 256] := by
  unfold write_EthernetFrame
  rw [write_EthernetFrame_args_eq eth obj off heth hdst hsrc hfit, Option.map_some']
  obtain ⟨ret, call, hcall, hlink, hcap, -, hbuf⟩ :=
    write_packet_supported w 1 obj.toObjHeader
      (obj.payLoad.length + (if obj.tpid = 0 then 14 else 18))
      ((obj.destinationAddress ++ obj.sourceAddress ++
          (if obj.tpid = 0 then []
            else [obj.tpid >>> 8 % 256, obj.tpid % 256, obj.tci >>> 8 % 256, obj.tci % 256]) ++
          [obj.type >>> 8 % 256, obj.type % 256] ++ obj.payLoad) ++
        eth.drop (obj.payLoad.length + (if obj.tpid = 0 then 14 else 18)))
      off (if obj.dir = 0 then 1 else if obj.dir = 1 then 2 else 0) hres
  have hc : call.header.captured_length =
      obj.payLoad.length + (if obj.tpid = 0 then 14 else 18) := by
    rw [hcap]
    exact Nat.mod_eq_of_lt (by split_ifs at hfit ⊢ <;> omega)
  have hbytes : call.bytes =
      obj.destinationAddress ++ obj.sourceAddress ++
        (if obj.tpid = 0 then []
          else [obj.tpid >>> 8 % 256, obj.tpid % 256, obj.tci >>> 8 % 256, obj.tci % 256]) ++
        [obj.type >>> 8 % 256, obj.type % 256] ++ obj.payLoad := by
    unfold WriterCall.bytes
    rw [hbuf, hc]
    apply take_append_exact
    by_cases ht : obj.tpid = 0 <;> simp [ht, hdst, hsrc] <;> omega
  refine ⟨ret, call, by rw [← hcall]; rfl, hlink, hbytes, hc, ?_, ?_⟩
  · rw [hbytes, hc]
    by_cases ht : obj.tpid = 0 <;> simp [ht, hdst, hsrc] <;> omega
  · rw [hbytes]
    by_cases ht : obj.tpid = 0
    · simp only [ht, if_true, List.append_nil, List.append_assoc]
      rw [← List.append_assoc, List.drop_left' (by simp [hdst, hsrc])]
      rfl
    · simp only [ht, if_false, List.append_assoc]
      rw [← List.append_assoc, ← List.append_assoc, List.drop_left' (by simp [hdst, hsrc])]
      rfl

/-- C8 at a concrete record with a VLAN tag, on a buffer filled with 0xAA. -/
theorem write_EthernetFrame_bytes_witness :
    ∃ ret call,
      write_EthernetFrame (fun _ => 0) (List.replicate 1518 0xAA)
        { channel := 1, objectFlags := TimeOneNans, objectTimeStamp := 5,
          sourceAddress := [1, 2, 3, 4, 5, 6], destinationAddress := [7, 8, 9, 10, 11, 12],
          dir := 0, type := 0x0800, tpid := 0x8100, tci := 0x1234, payLoad := [0x45, 0] } 0
        = some (ret, some call) ∧
      call.bytes = [7, 8, 9, 10, 11, 12, 1, 2, 3, 4, 5, 6, 0x81, 0x00, 0x12, 0x34, 0x08, 0x00,
        0x45, 0] := by
  obtain ⟨ret, call, hcall, -, hbytes, -⟩ :=
    write_EthernetFrame_bytes (fun _ => 0) (List.replicate 1518 0xAA)
      { channel := 1, objectFlags := TimeOneNans, objectTimeStamp := 5,
        sourceAddress := [1, 2, 3, 4, 5, 6], destinationAddress := [7, 8, 9, 10, 11, 12],
        dir := 0, type := 0x0800, tpid := 0x8100, tci := 0x1234, payLoad := [0x45, 0] } 0
      (Or.inr rfl) (List.length_replicate _ _) rfl rfl (by decide)
  exact ⟨ret, call, hcall, hbytes.trans (by decide)⟩

/-- C9: for an `EthernetFrameEx` or `EthernetFrameForwarded` record with a
supported resolution tag (and a frame shorter than 2^32 - 4 bytes, so that the
32-bit length holds its size), the emitted bytes are `frameData` followed,
exactly when bit 3 of `flags` is set, by the four bytes of `frameChecksum` as
they lie in memory; the emitted length is `|frameData| + 4` with bit 3 set and
`|frameData|` otherwise, and the bytes of `frameData` are unaltered. -/
theorem write_ethernet_frame_appends_checksum (w : WriterCall → Int) (little_endian : Bool)
    (obj : EthernetFrameEx) (off : Nat)
    (write : (WriterCall → Int) → Bool → EthernetFrameEx → Nat → Int × Option WriterCall)
    (hwrite : write = write_EthernetFrameEx ∨ write = write_EthernetFrameForwarded)
    (hres : obj.objectFlags = TimeTenMics ∨ obj.objectFlags = TimeOneNans)
    (hlen : obj.frameData.length + 4 < 2 ^ 32) :
    ∃ ret call, write w little_endian obj off = (ret, some call) ∧
      call.interface.link_type = LINKTYPE_ETHERNET ∧
      call.bytes = obj.frameData ++
        (if obj.flags.testBit 3 then stored_bytes32 little_endian obj.frameChecksum else []) ∧
      call.header.captured_length =
        obj.frameData.length + (if obj.flags.testBit 3 then 4 else 0) ∧
      call.bytes.length = call.header.captured_length ∧
      call.bytes.take obj.frameData.length = obj.frameData := by
  have hw : write w little_endian obj off =
      write_packet w LINKTYPE_ETHERNET obj.toObjHeader
        ((obj.frameData ++ (if obj.flags.testBit 3 then
            stored_bytes32 little_endian obj.frameChecksum else [])).length % 2 ^ 32)
        (obj.frameData ++ (if obj.flags.testBit 3 then
            stored_bytes32 little_endian obj.frameChecksum else []))
        off (if obj.dir = 0 then DIR_IN else if obj.dir = 1 then DIR_OUT else 0) := by
    rcases hwrite with h | h <;> subst h <;>
      simp only [write_EthernetFrameEx, write_EthernetFrameForwarded, write_ethernet_frame,
        write_ethernet_frame_args, PacketArgs.run, has_flag_testBit, assign] <;>
      cases obj.flags.testBit 3 <;> simp
  have hcrc : (stored_bytes32 little_endian obj.frameChecksum).length = 4 := by
    cases little_endian <;> rfl
  have hl : (obj.frameData ++ (if obj.flags.testBit 3 then
      stored_bytes32 little_endian obj.frameChecksum else [])).length =
      obj.frameData.length + (if obj.flags.testBit 3 then 4 else 0) := by
    cases obj.flags.testBit 3 <;> simp [hcrc]
  obtain ⟨ret, call, hcall, hlink, hcap, -, hbuf⟩ :=
    write_packet_supported w LINKTYPE_ETHERNET obj.toObjHeader
      ((obj.frameData ++ (if obj.flags.testBit 3 then
          stored_bytes32 little_endian obj.frameChecksum else [])).length % 2 ^ 32)
      (obj.frameData ++ (if obj.flags.testBit 3 then
          stored_bytes32 little_endian obj.frameChecksum else []))
      off (if obj.dir = 0 then DIR_IN else if obj.dir = 1 then DIR_OUT else 0) hres
  have hc : call.header.captured_length =
      obj.frameData.length + (if obj.flags.testBit 3 then 4 else 0) := by
    rw [hcap, hl]
    have : obj.frameData.length + (if obj.flags.testBit 3 then 4 else 0) < 2 ^ 32 := by
      split_ifs <;> omega
    rw [Nat.mod_eq_of_lt this, Nat.mod_eq_of_lt this]
  have hbytes : call.bytes = obj.frameData ++
      (if obj.flags.testBit 3 then stored_bytes32 little_endian obj.frameChecksum else []) := by
    unfold WriterCall.bytes
    rw [hbuf, hc, ← hl]
    exact List.take_length _
  refine ⟨ret, call, hw.trans hcall, hlink, hbytes, hc, ?_, ?_⟩
  · rw [hbytes, hc, hl]
  · rw [hbytes]
    exact List.take_left _ _

/-- C9 at a concrete forwarded record with bit 3 set, on a little-endian
host. -/
theorem write_ethernet_frame_appends_checksum_witness :
    ∃ ret call,
      write_EthernetFrameForwarded (fun _ => 0) true
        { channel := 1, objectFlags := TimeOneNans, objectTimeStamp := 5, flags := 8, dir := 1,
          frameChecksum := 0x11223344, frameData := [1, 2, 3] } 0 = (ret, some call) ∧
      call.bytes = [1, 2, 3, 0x44, 0x33, 0x22, 0x11] ∧
      call.header.captured_length = 7 := by
  obtain ⟨ret, call, hcall, -, hbytes, hc, -⟩ :=
    write_ethernet_frame_appends_checksum (fun _ => 0) true
      { channel := 1, objectFlags := TimeOneNans, objectTimeStamp := 5, flags := 8, dir := 1,
        frameChecksum := 0x11223344, frameData := [1, 2, 3] } 0
      write_EthernetFrameForwarded (Or.inr rfl) (Or.inr rfl) (by decide)
  exact ⟨ret, call, hcall, hbytes.trans (by decide), hc.trans (by decide)⟩

/-! ## FlexRay primitives -/

/-- C10: for every packet type and every channel mask, the byte
`set_measurment_header` produces has the packet-type code (1 for frame, 2 for
symbol) in its low 7 bits and its high bit 0x80 set exactly when the channel
mask is 2 or 3; it is the same whatever the byte held before. -/
theorem set_measurment_header_byte (previous : Nat) (packetType : FlexRayPacketType)
    (channelMask : Nat) :
    set_measurment_header previous packetType channelMask % 128 = packetType.toNat ∧
      set_measurment_header previous packetType channelMask &&& 0x7F = packetType.toNat ∧
      (set_measurment_header previous packetType channelMask &&& 0x80 = 0x80 ↔
        (channelMask = 2 ∨ channelMask = 3)) ∧
      set_measurment_header previous packetType channelMask < 256 ∧
      set_measurment_header previous packetType channelMask =
        set_measurment_header 0 packetType channelMask := by
  have key : ∀ prev, set_measurment_header prev packetType channelMask =
      packetType.toNat + (if channelMask = 2 ∨ channelMask = 3 then 128 else 0) := by
    intro prev
    by_cases h1 : channelMask = 1
    · subst h1
      cases packetType <;> rfl
    · by_cases h23 : channelMask = 2 ∨ channelMask = 3
      · cases packetType <;>
          simp only [set_measurment_header, h1, h23, if_true, if_false, assign] <;> rfl
      · cases packetType <;>
          simp only [set_measurment_header, h1, h23, if_true, if_false, assign] <;> rfl
  rw [key previous, key 0]
  by_cases h23 : channelMask = 2 ∨ channelMask = 3
  · simp only [h23, if_true, iff_true]
    cases packetType <;> decide
  · simp only [h23, if_false, iff_false]
    cases packetType <;> decide

/-! ## FlexRay encoders -/

/-- C11: for every `headerFlags`, `payloadLength`, `cycleCount`, `frameId` and
`headerCrc` of the parameter types, the 64-bit value `set_header` composes
before the byte-order conversion is
`(flags << 35) | ((payloadLength & 0x7F) << 17) | ((frameId & 0x7FF) << 24) |
((headerCrc & 0x7FF) << 6) | (cycleCount & 0x3F)`: leaving out a cycle, frame
id or crc of value 0 gives the same value as OR-ing it in, and `set_header`
returns the conversion of that value. -/
theorem set_header_composes_fields (little_endian : Bool)
    (header headerFlags payloadLength cycleCount frameId headerCrc : Nat)
    (hf : headerFlags < 2 ^ 8) (hp : payloadLength < 2 ^ 64) (hc : cycleCount < 2 ^ 8)
    (hi : frameId < 2 ^ 16) (hr : headerCrc < 2 ^ 16) :
    set_header_compose headerFlags payloadLength cycleCount frameId headerCrc =
        headerFlags <<< 35 ||| (payloadLength &&& 0x7F) <<< 17 ||| (frameId &&& 0x7FF) <<< 24 |||
          (headerCrc &&& 0x7FF) <<< 6 ||| (cycleCount &&& 0x3F) ∧
      set_header little_endian header headerFlags payloadLength cycleCount frameId headerCrc =
        hton64 little_endian
          (headerFlags <<< 35 ||| (payloadLength &&& 0x7F) <<< 17 |||
            (frameId &&& 0x7FF) <<< 24 ||| (headerCrc &&& 0x7FF) <<< 6 |||
            (cycleCount &&& 0x3F)) := by
  have h := set_header_compose_or headerFlags payloadLength cycleCount frameId headerCrc
    hf hp hc hi hr
  refine ⟨h, ?_⟩
  unfold set_header
  rw [h]

/-- C11 at concrete arguments: flags 0x06, payload length 8, cycle 0 (left
out), frame id 0x123, crc 0 (left out). -/
theorem set_header_composes_fields_witness :
    set_header_compose 0x06 8 0 0x123 0 =
        0x06 <<< 35 ||| (8 &&& 0x7F) <<< 17 ||| (0x123 &&& 0x7FF) <<< 24 |||
          (0 &&& 0x7FF) <<< 6 ||| (0 &&& 0x3F) ∧
      set_header_compose 0x06 8 0 0x123 0 = 0x3123100000 :=
  ⟨(set_header_composes_fields true 0 0x06 8 0 0x123 0 (by decide) (by decide) (by decide)
      (by decide) (by decide)).1, by decide⟩

/-- C12: for every composed header value `h`, on either host, the five bytes
the FlexRay writers copy out of `hton64(h)` (bytes 3..7 of the 8-byte
scratch) are the low 40 bits of `h` in big-endian order, byte `k` being
`(h >> (8 * (4 - k))) & 0xFF`; the three bytes in front of them, which are
dropped, are the top three bytes of `h`.  For `h = 0x0000001122334455` the five
bytes are 11 22 33 44 55. -/
theorem header_bytes_low_40_bits (little_endian : Bool) (h : Nat) :
    (header_bytes little_endian (hton64 little_endian h)).length = 5 ∧
      (∀ k, k < 5 → (header_bytes little_endian (hton64 little_endian h)).getD k 0 =
        h >>> (8 * (4 - k)) &&& 0xFF) ∧
      stored_bytes64 little_endian (hton64 little_endian h) =
        [h >>> 56 &&& 0xFF, h >>> 48 &&& 0xFF, h >>> 40 &&& 0xFF] ++
          header_bytes little_endian (hton64 little_endian h) ∧
      header_bytes little_endian (hton64 little_endian 0x0000001122334455) =
        [0x11, 0x22, 0x33, 0x44, 0x55] := by
  have hm : ∀ x : Nat, x &&& 0xFF = x % 256 := fun x => Nat.and_pow_two_sub_one_eq_mod x 8
  refine ⟨header_bytes_length _ _, ?_, ?_, ?_⟩
  · intro k hk
    rw [header_bytes_hton64, hm]
    interval_cases k <;> rfl
  · rw [stored_bytes64_hton64, header_bytes_hton64]
    simp only [hm]
    rfl
  · rw [header_bytes_hton64]
    decide

/-- C16: for every `frameState`, `set_header_flags` applied to flags 0 yields
the byte with the preamble bit 0x08 set iff bit 0 of `frameState` is set, the
sync bit 0x02 iff bit 1 is set, the reserved bit 0x10 iff bit 2 is set, the
null-frame bit 0x04 iff bit 3 is clear and the startup bit 0x01 iff bit 4 is
set, and no other bit. -/
theorem set_header_flags_bits (frameState : Nat) :
    set_header_flags frameState 0 =
        (if frameState.testBit 0 then 0x08 else 0) + (if frameState.testBit 1 then 0x02 else 0) +
        (if frameState.testBit 2 then 0x10 else 0) + (if frameState.testBit 3 then 0 else 0x04) +
        (if frameState.testBit 4 then 0x01 else 0) ∧
      (set_header_flags frameState 0).testBit 3 = frameState.testBit 0 ∧
      (set_header_flags frameState 0).testBit 1 = frameState.testBit 1 ∧
      (set_header_flags frameState 0).testBit 4 = frameState.testBit 2 ∧
      (set_header_flags frameState 0).testBit 2 = !frameState.testBit 3 ∧
      (set_header_flags frameState 0).testBit 0 = frameState.testBit 4 ∧
      set_header_flags frameState 0 &&& 0xE0 = 0 ∧
      set_header_flags frameState 0 ≤ 0x1F := by
  unfold set_header_flags
  simp only [has_flag_testBit]
  cases frameState.testBit 0 <;> cases frameState.testBit 1 <;> cases frameState.testBit 2 <;>
    cases frameState.testBit 3 <;> cases frameState.testBit 4 <;> decide

/-- C17: for every `frameFlags`, `set_header_flags_rcv_msg` applied to flags 0
yields the byte with the null-frame bit 0x04 set iff bit 0 of `frameFlags` is
clear, the sync bit 0x02 iff bit 2 is set, the startup bit 0x01 iff bit 3 is
set, the preamble bit 0x08 iff bit 4 is set and the reserved bit 0x10 iff
bit 5 is set, and no other bit: the result depends on bits 0, 2, 3, 4 and 5
only. -/
theorem set_header_flags_rcv_msg_bits (frameFlags : Nat) :
    set_header_flags_rcv_msg frameFlags 0 =
        (if frameFlags.testBit 0 then 0 else 0x04) + (if frameFlags.testBit 2 then 0x02 else 0) +
        (if frameFlags.testBit 3 then 0x01 else 0) + (if frameFlags.testBit 4 then 0x08 else 0) +
        (if frameFlags.testBit 5 then 0x10 else 0) ∧
      (set_header_flags_rcv_msg frameFlags 0).testBit 2 = !frameFlags.testBit 0 ∧
      (set_header_flags_rcv_msg frameFlags 0).testBit 1 = frameFlags.testBit 2 ∧
      (set_header_flags_rcv_msg frameFlags 0).testBit 0 = frameFlags.testBit 3 ∧
      (set_header_flags_rcv_msg frameFlags 0).testBit 3 = frameFlags.testBit 4 ∧
      (set_header_flags_rcv_msg frameFlags 0).testBit 4 = frameFlags.testBit 5 ∧
      set_header_flags_rcv_msg frameFlags 0 &&& 0xE0 = 0 ∧
      set_header_flags_rcv_msg frameFlags 0 ≤ 0x1F := by
  unfold set_header_flags_rcv_msg
  simp only [has_flag_testBit]
  cases frameFlags.testBit 0 <;> cases frameFlags.testBit 2 <;> cases frameFlags.testBit 3 <;>
    cases frameFlags.testBit 4 <;> cases frameFlags.testBit 5 <;> decide

/-- C13: for every frame-bearing FlexRay record (data frame, sync,
cycle-start, full message, start-cycle, receive-message,
receive-message-extended) with a supported resolution tag whose payload has
`n <= 254` bytes (even or not) and fits the array of its writer, the packet
handed to the writer has link type 210 and length `n + 7`, the payload stands
verbatim from offset 7 on, and the 7-bit payload-length field of the five
header bytes (bits 17..23 of the 40-bit header) is `n / 2`. -/
theorem flexray_payload_length_field (w : WriterCall → Int) (little_endian : Bool)
    (r : FlexRayFrameRecord) (off : Nat)
    (hres : r.oh.objectFlags = TimeTenMics ∨ r.oh.objectFlags = TimeOneNans)
    (hn : r.dataBytes.length ≤ 254)
    (hroom : ∀ k, r.room = some k → r.dataBytes.length ≤ k) :
    ∃ ret call, write_frame_record w little_endian r off = some (ret, some call) ∧
      call.interface.link_type = LINKTYPE_FLEXRAY ∧
      call.header.captured_length = r.dataBytes.length + 7 ∧
      call.bytes.length = r.dataBytes.length + 7 ∧
      call.bytes.drop 7 = r.dataBytes ∧
      packed_header call.bytes >>> 17 &&& 0x7F = r.dataBytes.length / 2 := by
  obtain ⟨m, e, f, c, i, cr, tail, hw⟩ := write_frame_record_shape w little_endian r off hroom
  obtain ⟨ret, call, hcall, hlink, hcap, hbytes⟩ :=
    flexray_frame_call w r.oh m e
      (header_bytes little_endian
        (set_header little_endian 0 f (r.dataBytes.length / 2) c i cr))
      r.dataBytes tail off 0 hres (header_bytes_length _ _) (by omega)
  refine ⟨ret, call, by rw [hw, hcall], hlink, hcap, ?_, ?_, ?_⟩
  · rw [hbytes]
    simp only [List.length_cons, List.length_append, header_bytes_length]
    omega
  · rw [hbytes]
    have h7 : (m :: e :: header_bytes little_endian
        (set_header little_endian 0 f (r.dataBytes.length / 2) c i cr)).length = 7 := by
      simp only [List.length_cons, header_bytes_length]
    have hd : List.drop 7 ((m :: e :: header_bytes little_endian
        (set_header little_endian 0 f (r.dataBytes.length / 2) c i cr)) ++ r.dataBytes) =
        r.dataBytes := List.drop_left' h7
    simpa using hd
  · rw [hbytes, packed_header_frame, payload_length_field]
    omega

/-- C13 at a concrete record: a start-cycle record with 12 payload bytes on
channel B gives a 19-byte packet whose payload-length field is 6. -/
theorem flexray_payload_length_field_witness :
    ∃ ret call,
      write_frame_record (fun _ => 0) true
        (.startCycle
          { channel := 1, objectFlags := TimeOneNans, objectTimeStamp := 5, channelMask := 2,
            cycle := 3, dataBytes := [1, 2, 3, 4, 5, 6, 7, 8, 9, 10, 11, 12] })
        0 = some (ret, some call) ∧
      call.header.captured_length = 19 ∧
      call.bytes.drop 7 = [1, 2, 3, 4, 5, 6, 7, 8, 9, 10, 11, 12] ∧
      packed_header call.bytes >>> 17 &&& 0x7F = 6 := by
  obtain ⟨ret, call, hcall, -, hcap, -, hpay, hlen⟩ :=
    flexray_payload_length_field (fun _ => 0) true
      (.startCycle
        { channel := 1, objectFlags := TimeOneNans, objectTimeStamp := 5, channelMask := 2,
          cycle := 3, dataBytes := [1, 2, 3, 4, 5, 6, 7, 8, 9, 10, 11, 12] })
      0 (Or.inr rfl) (by decide)
      (by intro k hk; cases hk; decide)
  exact ⟨ret, call, hcall, hcap, hpay, hlen⟩

/-- C14, counterexample: a `FlexRayData` record with `messageId = 1` and
`crc = 1` is emitted with frame-id field 1 and header-crc field 1, not 0: the
five header bytes are 20 01 04 00 40. -/
theorem write_FlexRayData_header_counterexample :
    ∃ ret call,
      write_FlexRayData (fun _ => 0) true
        { channel := 1, objectFlags := TimeOneNans, objectTimeStamp := 5, messageId := 1,
          crc := 1, dataBytes := [1, 2, 3, 4] } 0 = some (ret, some call) ∧
      call.bytes = [0x01, 0x00, 0x20, 0x01, 0x04, 0x00, 0x40, 1, 2, 3, 4] ∧
      packed_header call.bytes >>> 24 &&& 0x7FF = 1 ∧
      packed_header call.bytes >>> 6 &&& 0x7FF = 1 ∧
      ¬ (packed_header call.bytes >>> 24 &&& 0x7FF = 0 ∧
        packed_header call.bytes >>> 6 &&& 0x7FF = 0) := by
  obtain ⟨ret, call, hcall, hbytes⟩ :=
    write_FlexRayData_call (fun _ => 0) true
      { channel := 1, objectFlags := TimeOneNans, objectTimeStamp := 5, messageId := 1,
        crc := 1, dataBytes := [1, 2, 3, 4] } 0 (Or.inr rfl) (by decide)
  have hb : call.bytes = [0x01, 0x00, 0x20, 0x01, 0x04, 0x00, 0x40, 1, 2, 3, 4] := by
    rw [hbytes, header_bytes_set_header]
    decide
  refine ⟨ret, call, hcall, hb, ?_, ?_, ?_⟩ <;> rw [hb] <;> decide

/-- C14, amended: for every `FlexRayData` record with a supported resolution tag
and at most 254 payload bytes, the emitted 5-byte header has flags 0x04
(null = false only), the payload length `n / 2`, a zero cycle field, the
frame-id field `messageId & 0x7FF` and the header-crc field `crc & 0x7FF`. -/
theorem write_FlexRayData_header (w : WriterCall → Int) (little_endian : Bool)
    (obj : FlexRayData) (off : Nat)
    (hres : obj.objectFlags = TimeTenMics ∨ obj.objectFlags = TimeOneNans)
    (hn : obj.dataBytes.length ≤ 254) :
    ∃ ret call, write_FlexRayData w little_endian obj off = some (ret, some call) ∧
      packed_header call.bytes >>> 35 = 0x04 ∧
      packed_header call.bytes >>> 17 &&& 0x7F = obj.dataBytes.length / 2 ∧
      packed_header call.bytes &&& 0x3F = 0 ∧
      packed_header call.bytes >>> 24 &&& 0x7FF = obj.messageId &&& 0x7FF ∧
      packed_header call.bytes >>> 6 &&& 0x7FF = obj.crc &&& 0x7FF := by
  obtain ⟨ret, call, hcall, hbytes⟩ := write_FlexRayData_call w little_endian obj off hres hn
  have h11 : ∀ x : Nat, x &&& 0x7FF = x % 2 ^ 11 := fun x => Nat.and_pow_two_sub_one_eq_mod x 11
  obtain ⟨hf, hi, hp, hr, hc⟩ :=
    header_fields 4 (obj.dataBytes.length / 2) 0 obj.messageId obj.crc
  refine ⟨ret, call, hcall, ?_, ?_, ?_, ?_, ?_⟩
  · rw [hbytes, packed_header_frame]
    exact hf
  · rw [hbytes, packed_header_frame, hp]
    omega
  · rw [hbytes, packed_header_frame]
    exact hc
  · rw [hbytes, packed_header_frame, hi, h11]
  · rw [hbytes, packed_header_frame, hr, h11]

/-- C14, amended, at the record of the counterexample. -/
theorem write_FlexRayData_header_witness :
    ∃ ret call,
      write_FlexRayData (fun _ => 0) true
        { channel := 1, objectFlags := TimeOneNans, objectTimeStamp := 5, messageId := 1,
          crc := 1, dataBytes := [1, 2, 3, 4] } 0 = some (ret, some call) ∧
      packed_header call.bytes >>> 35 = 0x04 ∧
      packed_header call.bytes >>> 24 &&& 0x7FF = 1 ∧
      packed_header call.bytes >>> 6 &&& 0x7FF = 1 := by
  obtain ⟨ret, call, hcall, hf, -, -, hi, hr⟩ :=
    write_FlexRayData_header (fun _ => 0) true
      { channel := 1, objectFlags := TimeOneNans, objectTimeStamp := 5, messageId := 1,
        crc := 1, dataBytes := [1, 2, 3, 4] } 0 (Or.inr rfl) (by decide)
  exact ⟨ret, call, hcall, hf, hi, hr⟩

/-- C15: for a `FlexRayVFrReceiveMsg` and for a `FlexRayVFrReceiveMsgEx` record
with a supported resolution tag (and a payload that fits the 261-byte array,
respectively a 32-bit length), the error-flags byte at offset 1 of the
emitted packet is 0x10 when bit 6 of `frameFlags` is set and 0x00
otherwise. -/
theorem receive_msg_error_flags_byte (w : WriterCall → Int) (little_endian : Bool)
    (obj : FlexRayVFrReceiveMsg) (objEx : FlexRayVFrReceiveMsgEx) (off : Nat)
    (hres : obj.objectFlags = TimeTenMics ∨ obj.objectFlags = TimeOneNans)
    (hn : obj.dataBytes.length ≤ 254)
    (hresEx : objEx.objectFlags = TimeTenMics ∨ objEx.objectFlags = TimeOneNans)
    (hnEx : objEx.dataBytes.length + 7 < 2 ^ 32) :
    (∃ ret call, write_FlexRayVFrReceiveMsg w little_endian obj off = some (ret, some call) ∧
      call.bytes.getD 1 0 = if obj.frameFlags.testBit 6 then 0x10 else 0x00) ∧
    (∃ ret call,
      write_FlexRayVFrReceiveMsgEx w little_endian objEx off = some (ret, some call) ∧
      call.bytes.getD 1 0 = if objEx.frameFlags.testBit 6 then 0x10 else 0x00) := by
  obtain ⟨ret, call, hcall, -, -, hbytes⟩ :=
    write_FlexRayVFrReceiveMsg_call w little_endian obj off hres hn
  obtain ⟨retEx, callEx, hcallEx, -, hb, hdata⟩ :=
    write_FlexRayVFrReceiveMsgEx_call w little_endian objEx off hresEx hnEx
  refine ⟨⟨ret, call, hcall, ?_⟩, ⟨retEx, callEx, hcallEx, ?_⟩⟩
  · rw [hbytes]
    rfl
  · rw [hb, hdata]
    rfl

/-- C15 at concrete records: bit 6 set in a receive-message record, clear in an
extended one. -/
theorem receive_msg_error_flags_byte_witness :
    (∃ ret call,
      write_FlexRayVFrReceiveMsg (fun _ => 0) true
        { channel := 1, objectFlags := TimeOneNans, objectTimeStamp := 5, channelMask := 1,
          frameFlags := 0x40, headerCrc1 := 1, headerCrc2 := 2, cycle := 3, frameId := 4,
          dataBytes := [9, 8] } 0 = some (ret, some call) ∧
      call.bytes.getD 1 0 = 0x10) ∧
    (∃ ret call,
      write_FlexRayVFrReceiveMsgEx (fun _ => 0) true
        { channel := 1, objectFlags := TimeOneNans, objectTimeStamp := 5, channelMask := 1,
          frameFlags := 0x3F, headerCrc1 := 1, headerCrc2 := 2, cycle := 3, frameId := 4,
          dataBytes := [9, 8] } 0 = some (ret, some call) ∧
      call.bytes.getD 1 0 = 0x00) := by
  obtain ⟨⟨ret, call, hcall, h1⟩, ⟨retEx, callEx, hcallEx, h1Ex⟩⟩ :=
    receive_msg_error_flags_byte (fun _ => 0) true
      { channel := 1, objectFlags := TimeOneNans, objectTimeStamp := 5, channelMask := 1,
        frameFlags := 0x40, headerCrc1 := 1, headerCrc2 := 2, cycle := 3, frameId := 4,
        dataBytes := [9, 8] }
      { channel := 1, objectFlags := TimeOneNans, objectTimeStamp := 5, channelMask := 1,
        frameFlags := 0x3F, headerCrc1 := 1, headerCrc2 := 2, cycle := 3, frameId := 4,
        dataBytes := [9, 8] } 0 (Or.inr rfl) (by decide) (Or.inr rfl) (by decide)
  exact ⟨⟨ret, call, hcall, h1.trans (by decide)⟩,
    ⟨retEx, callEx, hcallEx, h1Ex.trans (by decide)⟩⟩

/-- C18: for every `FlexRayVFrError` record with a supported resolution tag and a
16-bit channel mask, the packet handed to the writer has link type 210 and
exactly 7 bytes: the frame measurement header (0x01, or 0x81 when the channel
mask is 2 or 3), the error-flags byte 0x02, and the five header bytes
20 00 00 00 cc with `cc = cycle & 0x3F`, that is flags 0x04, payload length 0,
frame id 0, header crc 0 and the cycle field `cycle & 0x3F`. -/
theorem write_FlexRayVFrError_packet (w : WriterCall → Int) (little_endian : Bool)
    (obj : FlexRayVFrError) (off : Nat)
    (hres : obj.objectFlags = TimeTenMics ∨ obj.objectFlags = TimeOneNans)
    (hmask : obj.channelMask < 2 ^ 16) :
    ∃ ret call, write_FlexRayVFrError w little_endian obj off = some (ret, some call) ∧
      call.interface.link_type = LINKTYPE_FLEXRAY ∧
      call.header.captured_length = 7 ∧
      call.bytes =
        [if obj.channelMask = 2 ∨ obj.channelMask = 3 then 0x81 else 0x01, 0x02,
          0x20, 0, 0, 0, obj.cycle &&& 0x3F] ∧
      packed_header call.bytes >>> 35 = 0x04 ∧
      packed_header call.bytes >>> 17 &&& 0x7F = 0 ∧
      packed_header call.bytes >>> 24 &&& 0x7FF = 0 ∧
      packed_header call.bytes >>> 6 &&& 0x7FF = 0 ∧
      packed_header call.bytes &&& 0x3F = obj.cycle &&& 0x3F := by
  obtain ⟨ret, call, hcall, hlink, hcap, -, hbuf⟩ :=
    write_packet_supported w 210 obj.toObjHeader 7
      (set_measurment_header 0 .FlexRayFrame (obj.channelMask % 2 ^ 16) :: 0x02 ::
        header_bytes little_endian (set_header little_endian 0 4 0 obj.cycle 0 0))
      off 0 hres
  have h6 : ∀ x : Nat, x &&& 0x3F = x % 2 ^ 6 := fun x => Nat.and_pow_two_sub_one_eq_mod x 6
  have hsum := set_header_compose_sum 4 0 obj.cycle 0 0
  have hbytes : call.bytes =
      [if obj.channelMask = 2 ∨ obj.channelMask = 3 then 0x81 else 0x01, 0x02,
        0x20, 0, 0, 0, obj.cycle &&& 0x3F] := by
    unfold WriterCall.bytes
    rw [hbuf, hcap, header_bytes_set_header, set_measurment_header_frame,
      Nat.mod_eq_of_lt hmask, h6, hsum]
    simp only [Nat.shiftRight_eq_div_pow]
    have e1 : (4 % 2 ^ 8 * 2 ^ 35 + 0 % 2 ^ 11 * 2 ^ 24 + 0 % 2 ^ 7 * 2 ^ 17 +
        0 % 2 ^ 11 * 2 ^ 6 + obj.cycle % 2 ^ 6) / 2 ^ 32 % 256 = 0x20 := by omega
    have e2 : (4 % 2 ^ 8 * 2 ^ 35 + 0 % 2 ^ 11 * 2 ^ 24 + 0 % 2 ^ 7 * 2 ^ 17 +
        0 % 2 ^ 11 * 2 ^ 6 + obj.cycle % 2 ^ 6) / 2 ^ 24 % 256 = 0 := by omega
    have e3 : (4 % 2 ^ 8 * 2 ^ 35 + 0 % 2 ^ 11 * 2 ^ 24 + 0 % 2 ^ 7 * 2 ^ 17 +
        0 % 2 ^ 11 * 2 ^ 6 + obj.cycle % 2 ^ 6) / 2 ^ 16 % 256 = 0 := by omega
    have e4 : (4 % 2 ^ 8 * 2 ^ 35 + 0 % 2 ^ 11 * 2 ^ 24 + 0 % 2 ^ 7 * 2 ^ 17 +
        0 % 2 ^ 11 * 2 ^ 6 + obj.cycle % 2 ^ 6) / 2 ^ 8 % 256 = 0 := by omega
    have e5 : (4 % 2 ^ 8 * 2 ^ 35 + 0 % 2 ^ 11 * 2 ^ 24 + 0 % 2 ^ 7 * 2 ^ 17 +
        0 % 2 ^ 11 * 2 ^ 6 + obj.cycle % 2 ^ 6) % 256 = obj.cycle % 2 ^ 6 := by omega
    rw [e1, e2, e3, e4, e5]
    rfl
  have hpk : packed_header call.bytes = 0x20 * 2 ^ 32 + obj.cycle % 2 ^ 6 := by
    rw [hbytes, h6]
    simp only [packed_header, List.getD_cons_succ, List.getD_cons_zero]
    omega
  have h7 : ∀ x : Nat, x &&& 0x7F = x % 2 ^ 7 := fun x => Nat.and_pow_two_sub_one_eq_mod x 7
  have h11 : ∀ x : Nat, x &&& 0x7FF = x % 2 ^ 11 := fun x => Nat.and_pow_two_sub_one_eq_mod x 11
  refine ⟨ret, call, ?_, hlink, hcap, hbytes, ?_, ?_, ?_, ?_, ?_⟩
  · unfold write_FlexRayVFrError
    rw [write_FlexRayVFrError_args_eq, Option.map_some']
    exact congrArg some hcall
  · rw [hpk, Nat.shiftRight_eq_div_pow]; omega
  · rw [hpk, h7, Nat.shiftRight_eq_div_pow]; omega
  · rw [hpk, h11, Nat.shiftRight_eq_div_pow]; omega
  · rw [hpk, h11, Nat.shiftRight_eq_div_pow]; omega
  · rw [hpk, h6, h6]; omega

/-- C18 at a concrete record: channel mask 3 and cycle 0x7F give
81 02 20 00 00 00 3F. -/
theorem write_FlexRayVFrError_packet_witness :
    ∃ ret call,
      write_FlexRayVFrError (fun _ => 0) true
        { channel := 1, objectFlags := TimeOneNans, objectTimeStamp := 5, channelMask := 3,
          cycle := 0x7F } 0 = some (ret, some call) ∧
      call.bytes = [0x81, 0x02, 0x20, 0x00, 0x00, 0x00, 0x3F] := by
  obtain ⟨ret, call, hcall, -, -, hbytes, -⟩ :=
    write_FlexRayVFrError_packet (fun _ => 0) true
      { channel := 1, objectFlags := TimeOneNans, objectTimeStamp := 5, channelMask := 3,
        cycle := 0x7F } 0 (Or.inr rfl) (by decide)
  exact ⟨ret, call, hcall, hbytes.trans (by decide)⟩

/-- C19: for a `FlexRayVFrReceiveMsg` and a `FlexRayVFrReceiveMsgEx` record with
supported resolution tags and equal `channelMask`, `frameFlags`, `headerCrc1`,
`headerCrc2`, `cycle`, `frameId` and payload (of at most 254 bytes, so that it
fits the fixed array), both writers emit the same length `payload + 7`, and
the first `payload + 7` bytes of the fixed 261-byte array are the byte vector
the extended writer builds; the header crc field of both is the low 11 bits
of `headerCrc1` for mask 1, of `headerCrc2` for mask 2 or 3 and 0 for any other
mask. -/
theorem receive_msg_ex_same_packet (w : WriterCall → Int) (little_endian : Bool)
    (obj : FlexRayVFrReceiveMsg) (objEx : FlexRayVFrReceiveMsgEx) (off : Nat)
    (hres : obj.objectFlags = TimeTenMics ∨ obj.objectFlags = TimeOneNans)
    (hresEx : objEx.objectFlags = TimeTenMics ∨ objEx.objectFlags = TimeOneNans)
    (hn : obj.dataBytes.length ≤ 254) (hmask16 : obj.channelMask < 2 ^ 16)
    (hmask : objEx.channelMask = obj.channelMask) (hflags : objEx.frameFlags = obj.frameFlags)
    (hcrc1 : objEx.headerCrc1 = obj.headerCrc1) (hcrc2 : objEx.headerCrc2 = obj.headerCrc2)
    (hcycle : objEx.cycle = obj.cycle) (hid : objEx.frameId = obj.frameId)
    (hdata : objEx.dataBytes = obj.dataBytes) :
    ∃ ret call retEx callEx,
      write_FlexRayVFrReceiveMsg w little_endian obj off = some (ret, some call) ∧
      write_FlexRayVFrReceiveMsgEx w little_endian objEx off = some (retEx, some callEx) ∧
      call.header.captured_length = obj.dataBytes.length + 7 ∧
      callEx.header.captured_length = obj.dataBytes.length + 7 ∧
      call.data.length = 261 ∧
      call.data.take (obj.dataBytes.length + 7) = callEx.data ∧
      call.bytes = callEx.bytes ∧
      packed_header callEx.bytes >>> 6 &&& 0x7FF =
        (if obj.channelMask = 1 then obj.headerCrc1
          else if obj.channelMask = 2 ∨ obj.channelMask = 3 then obj.headerCrc2
          else 0) &&& 0x7FF := by
  obtain ⟨ret, call, hcall, hcap, hlen, hbytes⟩ :=
    write_FlexRayVFrReceiveMsg_call w little_endian obj off hres hn
  obtain ⟨retEx, callEx, hcallEx, hcapEx, hbEx, hdataEx⟩ :=
    write_FlexRayVFrReceiveMsgEx_call w little_endian objEx off hresEx
      (by rw [hdata]; omega)
  rw [hmask, hflags, hcrc1, hcrc2, hcycle, hid, hdata] at hdataEx
  rw [hdata] at hcapEx
  have hsame : call.bytes = callEx.bytes := by rw [hbytes, hbEx, hdataEx]
  have h11 : ∀ x : Nat, x &&& 0x7FF = x % 2 ^ 11 := fun x => Nat.and_pow_two_sub_one_eq_mod x 11
  refine ⟨ret, call, retEx, callEx, hcall, hcallEx, hcap, hcapEx, hlen, ?_, hsame, ?_⟩
  · have ht : call.data.take (obj.dataBytes.length + 7) = call.bytes := by
      unfold WriterCall.bytes
      rw [hcap]
    rw [ht, hsame, hbEx]
  · rw [hbEx, hdataEx, packed_header_frame, (header_fields _ _ _ _ _).2.2.2.1,
      Nat.mod_eq_of_lt hmask16, set_header_crc_eq, h11]

/-- C19 at concrete records on channel B: both writers emit
81 10 20 04 02 00 83 09 08. -/
theorem receive_msg_ex_same_packet_witness :
    ∃ ret call retEx callEx,
      write_FlexRayVFrReceiveMsg (fun _ => 0) true
        { channel := 1, objectFlags := TimeOneNans, objectTimeStamp := 5, channelMask := 2,
          frameFlags := 0x40, headerCrc1 := 1, headerCrc2 := 2, cycle := 3, frameId := 4,
          dataBytes := [9, 8] } 0 = some (ret, some call) ∧
      write_FlexRayVFrReceiveMsgEx (fun _ => 0) true
        { channel := 7, objectFlags := TimeOneNans, objectTimeStamp := 6, channelMask := 2,
          frameFlags := 0x40, headerCrc1 := 1, headerCrc2 := 2, cycle := 3, frameId := 4,
          dataBytes := [9, 8] } 0 = some (retEx, some callEx) ∧
      call.bytes = callEx.bytes ∧
      packed_header callEx.bytes >>> 6 &&& 0x7FF = 2 := by
  obtain ⟨ret, call, retEx, callEx, hcall, hcallEx, -, -, -, -, hsame, hcrc⟩ :=
    receive_msg_ex_same_packet (fun _ => 0) true
      { channel := 1, objectFlags := TimeOneNans, objectTimeStamp := 5, channelMask := 2,
        frameFlags := 0x40, headerCrc1 := 1, headerCrc2 := 2, cycle := 3, frameId := 4,
        dataBytes := [9, 8] }
      { channel := 7, objectFlags := TimeOneNans, objectTimeStamp := 6, channelMask := 2,
        frameFlags := 0x40, headerCrc1 := 1, headerCrc2 := 2, cycle := 3, frameId := 4,
        dataBytes := [9, 8] } 0 (Or.inr rfl) (Or.inr rfl) (by decide) (by decide)
      rfl rfl rfl rfl rfl rfl rfl
  exact ⟨ret, call, retEx, callEx, hcall, hcallEx, hsame, hcrc.trans (by decide)⟩

/-! ## The `CanFrame` identifier -/

/-- C20: for every `CanFrame` state and every identifier `v < 2^29`, after
`id(v)` the getters `ext()`, `rtr()` and `err()` return what they returned
before, `id()` returns `v`, bytes 0-3 are `v` in big-endian order with the
previous top three bits of byte 0 OR-ed into byte 0, and bytes 4..71 are
unchanged. -/
theorem CanFrame_id_set_keeps_flags (c : CanFrame) (v : Nat) (hlen : c.raw.length = 72)
    (hv : v < 2 ^ 29) :
    (c.id_set v).ext = c.ext ∧ (c.id_set v).rtr = c.rtr ∧ (c.id_set v).err = c.err ∧
      (c.id_set v).id = v ∧
      (c.id_set v).raw.take 4 =
        [v >>> 24 ||| c.raw.getD 0 0 &&& 0xE0, v >>> 16 % 256, v >>> 8 % 256, v % 256] ∧
      (c.id_set v).raw.drop 4 = c.raw.drop 4 ∧
      (c.id_set v).raw.length = 72 := by
  obtain ⟨raw⟩ := c
  rcases raw with _ | ⟨a0, _ | ⟨a1, _ | ⟨a2, _ | ⟨a3, tl⟩⟩⟩⟩
  · simp at hlen
  · simp at hlen
  · simp at hlen
  · simp at hlen
  · have hv32 : v % 2 ^ 32 = v := Nat.mod_eq_of_lt (by omega)
    have hx : v >>> 24 < 32 := by rw [Nat.shiftRight_eq_div_pow]; omega
    have hx256 : v >>> 24 % 256 = v >>> 24 := Nat.mod_eq_of_lt (by omega)
    rw [CanFrame.id_set_cons, hv32, hx256]
    refine ⟨?_, ?_, ?_, ?_, rfl, rfl, ?_⟩
    · exact flag_bit_kept (v >>> 24) a0 7 hx (by decide) (by decide)
    · exact flag_bit_kept (v >>> 24) a0 6 hx (by decide) (by decide)
    · exact flag_bit_kept (v >>> 24) a0 5 hx (by decide) (by decide)
    · obtain ⟨hlow, hlt⟩ := flag_bits_low a0
      have hsum := ntoh32_bytes_sum (v >>> 24 ||| a0 &&& 0xE0) (v >>> 16 % 256)
        (v >>> 8 % 256) (v % 256) (Nat.mod_lt _ (by decide)) (Nat.mod_lt _ (by decide))
        (Nat.mod_lt _ (by decide))
      have hm : ∀ x : Nat, x &&& 0x1fffffff = x % 2 ^ 29 :=
        fun x => Nat.and_pow_two_sub_one_eq_mod x 29
      show ntoh32_bytes (v >>> 24 ||| a0 &&& 0xE0) (v >>> 16 % 256) (v >>> 8 % 256) (v % 256)
        &&& 0x1fffffff = v
      rw [hsum, hm, id_or_flags _ _ hx hlow]
      simp only [Nat.shiftRight_eq_div_pow]
      omega
    · simp only [List.length_cons] at hlen ⊢
      exact hlen

/-- C20 at a concrete state: a frame with the extended and error flags set
takes the identifier 0x123 and keeps both flags. -/
theorem CanFrame_id_set_keeps_flags_witness :
    (((CanFrame.init.ext_set true).err_set true).id_set 0x123).ext = true ∧
      (((CanFrame.init.ext_set true).err_set true).id_set 0x123).rtr = false ∧
      (((CanFrame.init.ext_set true).err_set true).id_set 0x123).err = true ∧
      (((CanFrame.init.ext_set true).err_set true).id_set 0x123).id = 0x123 ∧
      (((CanFrame.init.ext_set true).err_set true).id_set 0x123).raw.take 4 =
        [0xA0, 0x00, 0x01, 0x23] := by
  obtain ⟨h1, h2, h3, h4, h5, -⟩ :=
    CanFrame_id_set_keeps_flags ((CanFrame.init.ext_set true).err_set true) 0x123
      (by decide) (by decide)
  exact ⟨h1.trans (by decide), h2.trans (by decide), h3.trans (by decide), h4,
    h5.trans (by decide)⟩

/-! ## The 40-bit FlexRay header -/

/-- C21: in every FlexRay writer that calls `set_header` and for every record,
the header flags handed over are at most 0x1F (the constant 0x04 or 0x06, or
the result of `set_header_flags` or `set_header_flags_rcv_msg` on 0), so the
composed 64-bit header is below 2^40: the three top bytes of the 8-byte
scratch, which are dropped, are zero, and the fields flags (bits 35-39),
frame id (24-34), payload length (17-23), header crc (6-16) and cycle (0-5)
do not overlap: each is read back from the composed value, which is their
sum. -/
theorem flexray_header_below_two_pow_40 (little_endian : Bool) (r : FlexRayHeaderRecord) :
    r.set_header_call.headerFlags ≤ 0x1F ∧
      (r.set_header_call.headerFlags = 0x04 ∨ r.set_header_call.headerFlags = 0x06 ∨
        (∃ frameState, r.set_header_call.headerFlags = set_header_flags frameState 0) ∨
        (∃ frameFlags,
          r.set_header_call.headerFlags = set_header_flags_rcv_msg frameFlags 0)) ∧
      r.set_header_call.composed < 2 ^ 40 ∧
      r.set_header_call.composed >>> 40 = 0 ∧
      stored_bytes64 little_endian (r.set_header_call.header little_endian) =
        [0, 0, 0] ++ header_bytes little_endian (r.set_header_call.header little_endian) ∧
      r.set_header_call.composed >>> 35 = r.set_header_call.headerFlags ∧
      r.set_header_call.composed >>> 24 &&& 0x7FF = r.set_header_call.frameId &&& 0x7FF ∧
      r.set_header_call.composed >>> 17 &&& 0x7F = r.set_header_call.payloadLength &&& 0x7F ∧
      r.set_header_call.composed >>> 6 &&& 0x7FF = r.set_header_call.headerCrc &&& 0x7FF ∧
      r.set_header_call.composed &&& 0x3F = r.set_header_call.cycleCount &&& 0x3F ∧
      r.set_header_call.composed =
        r.set_header_call.headerFlags * 2 ^ 35 +
          (r.set_header_call.frameId &&& 0x7FF) * 2 ^ 24 +
          (r.set_header_call.payloadLength &&& 0x7F) * 2 ^ 17 +
          (r.set_header_call.headerCrc &&& 0x7FF) * 2 ^ 6 +
          (r.set_header_call.cycleCount &&& 0x3F) := by
  have hf := set_header_call_flags_le r
  obtain ⟨hsum, hlt⟩ := composed_of_flags_le r.set_header_call hf
  have h7 : ∀ x : Nat, x &&& 0x7F = x % 2 ^ 7 := fun x => Nat.and_pow_two_sub_one_eq_mod x 7
  have h11 : ∀ x : Nat, x &&& 0x7FF = x % 2 ^ 11 := fun x => Nat.and_pow_two_sub_one_eq_mod x 11
  have h6 : ∀ x : Nat, x &&& 0x3F = x % 2 ^ 6 := fun x => Nat.and_pow_two_sub_one_eq_mod x 6
  have hstored : stored_bytes64 little_endian (r.set_header_call.header little_endian) =
      [0, 0, 0] ++ header_bytes little_endian (r.set_header_call.header little_endian) := by
    have e : r.set_header_call.header little_endian =
        hton64 little_endian r.set_header_call.composed := rfl
    rw [e, stored_bytes64_hton64, header_bytes_hton64]
    simp only [Nat.shiftRight_eq_div_pow, List.cons_append, List.nil_append, List.cons.injEq,
      and_true, true_and]
    refine ⟨?_, ?_, ?_⟩ <;> omega
  simp only [h7, h11, h6, Nat.shiftRight_eq_div_pow]
  refine ⟨hf, set_header_call_flags r, hlt, ?_, ?_, ?_, ?_, ?_, ?_, ?_, hsum⟩
  · omega
  · simpa only [Nat.shiftRight_eq_div_pow] using hstored
  · omega
  · omega
  · omega
  · omega
  · omega

/-! ## The direction flag -/

/-- C23: the direction flag does not influence what is written: for every
link type, record header, length, data and start epoch, two calls of
`write_packet` that differ only in `flags` return the same value and hand the
same interface descriptor, packet header and data to the packet writer. -/
theorem write_packet_ignores_flags (w : WriterCall → Int) (link_type : Nat) (oh : ObjHeader)
    (length : Nat) (data : List Nat) (date_offset_ns flags1 flags2 : Nat) :
    write_packet w link_type oh length data date_offset_ns flags1 =
        write_packet w link_type oh length data date_offset_ns flags2 ∧
      (write_packet w link_type oh length data date_offset_ns flags1).1 =
        (write_packet w link_type oh length data date_offset_ns flags2).1 ∧
      (write_packet w link_type oh length data date_offset_ns flags1).2 =
        (write_packet w link_type oh length data date_offset_ns flags2).2 ∧
      (write_packet w link_type oh length data date_offset_ns flags1).2.map
          (fun call => (call.interface, call.header, call.data)) =
        (write_packet w link_type oh length data date_offset_ns flags2).2.map
          (fun call => (call.interface, call.header, call.data)) := by
  have h : write_packet w link_type oh length data date_offset_ns flags1 =
      write_packet w link_type oh length data date_offset_ns flags2 := rfl
  exact ⟨h, congrArg Prod.fst h, congrArg Prod.snd h, by rw [h]⟩

/-! ## Identifiers with bits 29..31 set -/

/-- C22, counterexample: a `CanMessage` record whose id 0x40000123 has bit 30
set and whose `flags` has bit 7 clear is emitted with byte 0 equal to 0x00:
the RTR flag is clear, because the writer calls the `rtr` setter after the
`id` setter. -/
theorem id_bit_30_not_emitted_as_rtr :
    Nat.testBit 0x40000123 30 = true ∧
      ∃ ret call,
        write_CanMessage (fun _ => 0)
          { channel := 1, objectFlags := TimeOneNans, objectTimeStamp := 5, flags := 0,
            dlc := 4, id := 0x40000123, data := [1, 2, 3, 4] } 0 = some (ret, some call) ∧
        call.data.getD 0 0 = 0x00 ∧ (CanFrame.mk call.data).rtr = false := by
  refine ⟨by decide, ?_⟩
  obtain ⟨ret, call, hcall, h0⟩ :=
    write_CanMessage_call (fun _ => 0)
      { channel := 1, objectFlags := TimeOneNans, objectTimeStamp := 5, flags := 0,
        dlc := 4, id := 0x40000123, data := [1, 2, 3, 4] } 0 (Or.inr rfl) (by decide)
  have hb : call.data.getD 0 0 = 0x00 := h0.trans (by decide)
  refine ⟨ret, call, hcall, hb, ?_⟩
  show (call.data.getD 0 0 &&& 0x40 != 0) = false
  rw [hb]
  decide

/-- C22, amended: for every `CanFrame` state and every 32-bit value `v`, after
`id(v)` the top three bits of byte 0 are the bitwise OR of their previous
value and bits 31..29 of `v`, and `id()` returns `v & 0x1FFFFFFF` (on a fresh
frame, id 0x80000123 gives byte 0 = 0x80 and `ext()` true).  Consequently,
for a CAN or CAN-FD message record (`CanMessage`, `CanMessage2`,
`CanFdMessage`, `CanFdMessage64`) with a supported resolution tag and at most
64 data bytes, the frame handed to the writer has the ext flag set exactly
when bit 31 of the record's id is set and the error flag exactly when bit 29
is set, although no writer calls the `ext` or `err` setter; the RTR flag is
the record's RTR source bit, whatever bit 30 of the id is. -/
theorem id_set_merges_flag_bits (c : CanFrame) (v : Nat) (w : WriterCall → Int) (off : Nat)
    (msg : CanMessage) (fd : CanFdMessage) (fd64 : CanFdMessage64)
    (write : (WriterCall → Int) → CanMessage → Nat → Option (Int × Option WriterCall))
    (hlen : c.raw.length = 72) (hv : v < 2 ^ 32)
    (hwrite : write = write_CanMessage ∨ write = write_CanMessage2)
    (hmsg : msg.objectFlags = TimeTenMics ∨ msg.objectFlags = TimeOneNans)
    (hmsgfit : msg.data.length ≤ 64)
    (hfd : fd.objectFlags = TimeTenMics ∨ fd.objectFlags = TimeOneNans)
    (hfdfit : fd.data.length ≤ 64)
    (hfd64 : fd64.objectFlags = TimeTenMics ∨ fd64.objectFlags = TimeOneNans)
    (hfd64fit : fd64.data.length ≤ 64) :
    ((c.id_set v).raw.getD 0 0 &&& 0xE0 = c.raw.getD 0 0 &&& 0xE0 ||| v >>> 24 &&& 0xE0 ∧
      (c.id_set v).id = v &&& 0x1FFFFFFF) ∧
    ((CanFrame.init.id_set 0x80000123).raw.getD 0 0 = 0x80 ∧
      (CanFrame.init.id_set 0x80000123).ext = true) ∧
    (∃ ret call, write w msg off = some (ret, some call) ∧
      (CanFrame.mk call.data).ext = msg.id.testBit 31 ∧
      (CanFrame.mk call.data).err = msg.id.testBit 29 ∧
      (CanFrame.mk call.data).rtr = msg.flags.testBit 7) ∧
    (∃ ret call, write_CanFdMessage w fd off = some (ret, some call) ∧
      (CanFrame.mk call.data).ext = fd.id.testBit 31 ∧
      (CanFrame.mk call.data).err = fd.id.testBit 29 ∧
      (CanFrame.mk call.data).rtr = fd.flags.testBit 7) ∧
    (∃ ret call, write_CanFdMessage64 w fd64 off = some (ret, some call) ∧
      (CanFrame.mk call.data).ext = fd64.id.testBit 31 ∧
      (CanFrame.mk call.data).err = fd64.id.testBit 29 ∧
      (CanFrame.mk call.data).rtr = fd64.flags.testBit 4) := by
  refine ⟨?_, ⟨by decide, by decide⟩, ?_, ?_, ?_⟩
  · obtain ⟨raw⟩ := c
    rcases raw with _ | ⟨a0, _ | ⟨a1, _ | ⟨a2, _ | ⟨a3, tl⟩⟩⟩⟩
    · simp at hlen
    · simp at hlen
    · simp at hlen
    · simp at hlen
    · have hv32 : v % 2 ^ 32 = v := Nat.mod_eq_of_lt hv
      have hx : v >>> 24 % 256 = v >>> 24 := by
        rw [Nat.shiftRight_eq_div_pow]
        exact Nat.mod_eq_of_lt (by omega)
      rw [CanFrame.id_set_cons, hv32]
      refine ⟨?_, id_after_id_set a0 v⟩
      show (v >>> 24 % 256 ||| a0 &&& 0xE0) &&& 0xE0 = a0 &&& 0xE0 ||| v >>> 24 &&& 0xE0
      rw [id_set_top_bits, hx]
  · have hw : write w msg off = write_CanMessage w msg off := by
      rcases hwrite with h | h <;> subst h
      · rfl
      · exact congrArg (Option.map (PacketArgs.run w)) (write_CanMessage2_args_eq msg off)
    obtain ⟨ret, call, hcall, h0⟩ := write_CanMessage_call w msg off hmsg hmsgfit
    obtain ⟨h7, h5, h6⟩ := can_byte0_flag_bits msg.id (msg.flags.testBit 7)
    refine ⟨ret, call, hw.trans hcall, ?_, ?_, ?_⟩
    · show (call.data.getD 0 0 &&& 0x80 != 0) = _
      rw [h0]; exact h7
    · show (call.data.getD 0 0 &&& 0x20 != 0) = _
      rw [h0]; exact h5
    · show (call.data.getD 0 0 &&& 0x40 != 0) = _
      rw [h0]; exact h6
  · obtain ⟨ret, call, hcall, h0⟩ := write_CanFdMessage_call w fd off hfd hfdfit
    obtain ⟨h7, h5, h6⟩ := can_byte0_flag_bits fd.id (fd.flags.testBit 7)
    refine ⟨ret, call, hcall, ?_, ?_, ?_⟩
    · show (call.data.getD 0 0 &&& 0x80 != 0) = _
      rw [h0]; exact h7
    · show (call.data.getD 0 0 &&& 0x20 != 0) = _
      rw [h0]; exact h5
    · show (call.data.getD 0 0 &&& 0x40 != 0) = _
      rw [h0]; exact h6
  · obtain ⟨ret, call, hcall, h0⟩ := write_CanFdMessage64_call w fd64 off hfd64 hfd64fit
    obtain ⟨h7, h5, h6⟩ := can_byte0_flag_bits fd64.id (fd64.flags.testBit 4)
    refine ⟨ret, call, hcall, ?_, ?_, ?_⟩
    · show (call.data.getD 0 0 &&& 0x80 != 0) = _
      rw [h0]; exact h7
    · show (call.data.getD 0 0 &&& 0x20 != 0) = _
      rw [h0]; exact h5
    · show (call.data.getD 0 0 &&& 0x40 != 0) = _
      rw [h0]; exact h6

/-- C22, amended, at concrete inputs: a frame with RTR set takes the value
0xA0000123; a `CanMessage2` record with id 0x80000123, a `CanFdMessage` record
with id 0x20000001 and a `CanFdMessage64` record with id 0x40000001, none with
its RTR source bit set. -/
theorem id_set_merges_flag_bits_witness :
    (((CanFrame.init.rtr_set true).id_set 0xA0000123).raw.getD 0 0 &&& 0xE0 = 0xE0 ∧
      ((CanFrame.init.rtr_set true).id_set 0xA0000123).id = 0x123) ∧
    (∃ ret call,
      write_CanMessage2 (fun _ => 0)
        { channel := 1, objectFlags := TimeOneNans, objectTimeStamp := 5, flags := 0, dlc := 4,
          id := 0x80000123, data := [1, 2, 3, 4] } 0 = some (ret, some call) ∧
      (CanFrame.mk call.data).ext = true ∧ (CanFrame.mk call.data).err = false ∧
      (CanFrame.mk call.data).rtr = false) ∧
    (∃ ret call,
      write_CanFdMessage (fun _ => 0)
        { channel := 1, objectFlags := TimeOneNans, objectTimeStamp := 5, flags := 0,
          canFdFlags := 0, validDataBytes := 2, id := 0x20000001,
          data := List.replicate 64 0 } 0 = some (ret, some call) ∧
      (CanFrame.mk call.data).ext = false ∧ (CanFrame.mk call.data).err = true ∧
      (CanFrame.mk call.data).rtr = false) ∧
    (∃ ret call,
      write_CanFdMessage64 (fun _ => 0)
        { channel := 1, objectFlags := TimeTenMics, objectTimeStamp := 5, flags := 0,
          validDataBytes := 2, id := 0x40000001, data := [5, 6] } 0 = some (ret, some call) ∧
      (CanFrame.mk call.data).ext = false ∧ (CanFrame.mk call.data).err = false ∧
      (CanFrame.mk call.data).rtr = false) := by
  obtain ⟨⟨ht, hi⟩, -, ⟨r1, c1, hc1, e1, f1, g1⟩, ⟨r2, c2, hc2, e2, f2, g2⟩,
      ⟨r3, c3, hc3, e3, f3, g3⟩⟩ :=
    id_set_merges_flag_bits (CanFrame.init.rtr_set true) 0xA0000123 (fun _ => 0) 0
      { channel := 1, objectFlags := TimeOneNans, objectTimeStamp := 5, flags := 0, dlc := 4,
        id := 0x80000123, data := [1, 2, 3, 4] }
      { channel := 1, objectFlags := TimeOneNans, objectTimeStamp := 5, flags := 0,
        canFdFlags := 0, validDataBytes := 2, id := 0x20000001, data := List.replicate 64 0 }
      { channel := 1, objectFlags := TimeTenMics, objectTimeStamp := 5, flags := 0,
        validDataBytes := 2, id := 0x40000001, data := [5, 6] }
      write_CanMessage2 (by decide) (by decide) (Or.inr rfl) (Or.inr rfl) (by decide)
      (Or.inr rfl) (by decide) (Or.inl rfl) (by decide)
  exact ⟨⟨ht.trans (by decide), hi.trans (by decide)⟩,
    ⟨r1, c1, hc1, e1.trans (by decide), f1.trans (by decide), g1.trans (by decide)⟩,
    ⟨r2, c2, hc2, e2.trans (by decide), f2.trans (by decide), g2.trans (by decide)⟩,
    ⟨r3, c3, hc3, e3.trans (by decide), f3.trans (by decide), g3.trans (by decide)⟩⟩

end BlfConverter
